import Mathlib

/-!
# Idle-period scheduling: `IdleHelper`

A shallow embedding of
`third_party/WebKit/Source/platform/scheduler/child/idle_helper.cc`.

Conventions of the embedding.

* `base::TimeTicks` and `base::TimeDelta` are microsecond counts, modelled as
  unbounded integers; the null `base::TimeTicks()` and the zero
  `base::TimeDelta()` are both `0`.  The arithmetic of `base/time/time.h` is not
  part of the embedded file and is taken to be exact integer arithmetic.
* `DCHECK`s abort the call when assertions are compiled in and do nothing
  otherwise; a call therefore returns `Except Fatal _`.
* The collaborators (clock, delegate, time domain, idle queue queries, shutdown
  flag) are answered by the environment records handed to every call; each read
  made by a function has an answer of its own.
* What the helper does to its collaborators is recorded in the model: the idle
  queue's enabled flag, the number of fences inserted, the tasks posted on the
  control task runner that have not been cancelled, and the sequence of calls
  made on the delegate and on `GetAndClearSystemIsQuiescentBit`.
* `TRACE_EVENT` macros and the members of `IdleHelper::State` that only serve
  tracing are left out of `Helper`: they read the idle period state and deadline
  and write only tracing members.  The section "The helper as an object" runs
  the same method bodies on an object that carries them and that is still there
  when a call aborts; forgetting the tracing gives back the definitions on
  `Helper` (section "The object and the helper agree").
-/

set_option linter.unusedVariables false

namespace IdleHelper

/-- Microseconds since the origin of the clock (`base::TimeTicks`); `0` is null. -/
abbrev TimeTicks := Int

/-- Microseconds (`base::TimeDelta`). -/
abbrev TimeDelta := Int

/-- Conversion `base::TimeDelta::FromMilliseconds`. -/
def FromMilliseconds (ms : Int) : TimeDelta := ms * 1000

/-- The enum `IdleHelper::IdlePeriodState`, as enumerated by `IdlePeriodStateToString`. -/
inductive IdlePeriodState where
  | NOT_IN_IDLE_PERIOD
  | IN_SHORT_IDLE_PERIOD
  | IN_LONG_IDLE_PERIOD
  | IN_LONG_IDLE_PERIOD_WITH_MAX_DEADLINE
  | IN_LONG_IDLE_PERIOD_PAUSED
  deriving DecidableEq, Repr

/-- The constants `kMaximumIdlePeriodMillis`, `kMinimumIdlePeriodDurationMillis` and
`kRetryEnableLongIdlePeriodDelayMillis` of `idle_helper.h`, and the constructor argument
`required_quiescence_duration_before_long_idle_period`. -/
structure Config where
  kMaximumIdlePeriodMillis : Int
  kMinimumIdlePeriodDurationMillis : Int
  kRetryEnableLongIdlePeriodDelayMillis : Int
  required_quiescence_duration_before_long_idle_period_ : TimeDelta
  deriving DecidableEq, Repr

/-- The two cancelable closures owned by the helper. -/
inductive Closure where
  | enable_next_long_idle_period_closure_
  | on_idle_task_posted_closure_
  deriving DecidableEq, Repr

/-- A task posted on `helper_->ControlTaskRunner()`: the closure whose callback was posted
and the delay (`PostTask` is delay `0`). -/
structure PostedTask where
  closure : Closure
  delay : TimeDelta
  deriving DecidableEq, Repr

/-- Calls made on the delegate, and the one effectful query made on the scheduler helper. -/
inductive Call where
  | OnIdlePeriodStarted
  | OnIdlePeriodEnded
  | IsNotQuiescent
  | CanEnterLongIdlePeriod (now : TimeTicks)
  | GetAndClearSystemIsQuiescentBit
  deriving DecidableEq, Repr

/-- The helper together with what it has done to its collaborators. -/
structure Helper where
  /-- Member `state_.idle_period_state_`. -/
  idle_period_state_ : IdlePeriodState
  /-- Member `state_.idle_period_deadline_`. -/
  idle_period_deadline_ : TimeTicks
  /-- Last argument of `idle_queue_->SetQueueEnabled`. -/
  idle_queue_enabled : Bool
  /-- Number of `idle_queue_->InsertFence()` calls so far. -/
  fences_inserted : Nat
  /-- Tasks posted on the control task runner, neither run nor cancelled, oldest first. -/
  posted : List PostedTask
  /-- Calls made on the delegate and on `GetAndClearSystemIsQuiescentBit`, oldest first. -/
  calls : List Call
  deriving DecidableEq, Repr

/-- A failed assertion. -/
inductive Fatal where
  | DCHECK
  deriving DecidableEq, Repr

/-- What a call depends on besides its arguments: whether assertions are compiled in, and
whether the call is made on the thread the helper is bound to. -/
structure Caller where
  dcheck_is_on : Bool
  on_valid_thread : Bool
  deriving DecidableEq, Repr

/-- Answers of the collaborators to the reads of one `EnableLongIdlePeriod` call. -/
structure LongIdleEnv where
  /-- Answer `helper_->IsShutdown()` read by `EnableLongIdlePeriod`. -/
  IsShutdown : Bool
  /-- Answer `helper_->IsShutdown()` read by `ShouldWaitForQuiescence`. -/
  IsShutdown_quiescence : Bool
  /-- Answer `helper_->GetAndClearSystemIsQuiescentBit()`. -/
  system_is_quiescent : Bool
  /-- Answer `helper_->scheduler_tqm_delegate()->NowTicks()`. -/
  NowTicks : TimeTicks
  /-- Answer `delegate_->CanEnterLongIdlePeriod(now, out)`: the result and, when the
  delegate writes the out-parameter, the delay written. -/
  CanEnterLongIdlePeriod : TimeTicks → Bool × Option TimeDelta
  /-- Answer `helper_->real_time_domain()->NextScheduledRunTime(out)`. -/
  NextScheduledRunTime : Option TimeTicks
  /-- Answer `idle_queue_->HasPendingImmediateWork()`. -/
  HasPendingImmediateWork : Bool

/-- Answers of the collaborators to the reads of one `DidProcessTask` call. -/
structure TaskEnv where
  /-- Answer `NowTicks()` compared with the deadline. -/
  NowTicks : TimeTicks
  /-- Answers for the nested `EnableLongIdlePeriod`. -/
  enable : LongIdleEnv

/-- Answers of the collaborators to the reads of one `DidProcessIdleTask` call. -/
structure IdleTaskEnv where
  /-- Answer `idle_queue_->HasPendingImmediateWork()`. -/
  HasPendingImmediateWork : Bool
  /-- Answer `idle_queue_->BlockedByFence()`. -/
  BlockedByFence : Bool
  /-- Answer `NowTicks()` subtracted from the deadline. -/
  NowTicks : TimeTicks
  /-- Answers for the nested `EnableLongIdlePeriod`. -/
  enable : LongIdleEnv

/-- The macro `DCHECK(cond)`. -/
def DCHECK (c : Caller) (cond : Bool) : Except Fatal Unit :=
  if c.dcheck_is_on && !cond then .error .DCHECK else .ok ()

/-- Modelled from the spec: `SchedulerHelper::CheckOnValidThread` is declared outside the
embedded file; a call off the controller thread is a fatal programming error, checked
defensively, so it is an assertion on the calling thread. -/
def CheckOnValidThread (c : Caller) : Except Fatal Unit :=
  DCHECK c c.on_valid_thread

/-- Modelled from the spec: posting the callback of a cancelable closure on the control task
runner (`PostDelayedTask`) arms one more deferred action. -/
def PostDelayedTask (closure : Closure) (delay : TimeDelta) (h : Helper) : Helper :=
  { h with posted := h.posted ++ [⟨closure, delay⟩] }

/-- Modelled from the spec: `PostTask` is `PostDelayedTask` without delay. -/
def PostTask (closure : Closure) (h : Helper) : Helper :=
  PostDelayedTask closure 0 h

/-- Modelled from the spec: `Cancel()` on a cancelable closure disables every callback of it
that was posted and has not run. -/
def Cancel (closure : Closure) (h : Helper) : Helper :=
  { h with posted := h.posted.filter (fun t => t.closure != closure) }

/-- State of the helper after the constructor `IdleHelper::IdleHelper`. -/
def construct : Helper :=
  { idle_period_state_ := .NOT_IN_IDLE_PERIOD
    idle_period_deadline_ := 0
    idle_queue_enabled := false
    fences_inserted := 0
    posted := []
    calls := [] }

/-- Method `IdleHelper::IdleTaskRunner`: checks the thread and hands out `idle_task_runner_`,
which is not modelled further. -/
def IdleTaskRunner (c : Caller) : Except Fatal Unit :=
  CheckOnValidThread c

/-- Static `IdleHelper::IsInIdlePeriod`. -/
def IsInIdlePeriod (state : IdlePeriodState) : Bool :=
  state != .NOT_IN_IDLE_PERIOD

/-- Static `IdleHelper::IsInLongIdlePeriod`. -/
def IsInLongIdlePeriod (state : IdlePeriodState) : Bool :=
  state == .IN_LONG_IDLE_PERIOD ||
  state == .IN_LONG_IDLE_PERIOD_WITH_MAX_DEADLINE ||
  state == .IN_LONG_IDLE_PERIOD_PAUSED

/-- Accessor `IdleHelper::State::idle_period_state`. -/
def idle_period_state (c : Caller) (h : Helper) : Except Fatal IdlePeriodState := do
  CheckOnValidThread c
  pure h.idle_period_state_

/-- Accessor `IdleHelper::State::idle_period_deadline`. -/
def idle_period_deadline (c : Caller) (h : Helper) : Except Fatal TimeTicks := do
  CheckOnValidThread c
  pure h.idle_period_deadline_

/-- Method `IdleHelper::State::UpdateState`; `optional_now` only feeds tracing. -/
def UpdateState (c : Caller) (new_state : IdlePeriodState) (new_deadline : TimeTicks)
    (optional_now : TimeTicks) (h : Helper) : Except Fatal Helper := do
  let old_idle_period_state := h.idle_period_state_
  CheckOnValidThread c
  if new_state = h.idle_period_state_ then
    DCHECK c (new_deadline == h.idle_period_deadline_)
    pure h
  else
    let h1 := { h with idle_period_state_ := new_state, idle_period_deadline_ := new_deadline }
    if IsInIdlePeriod new_state && !IsInIdlePeriod old_idle_period_state then
      pure { h1 with calls := h1.calls ++ [.OnIdlePeriodStarted] }
    else if !IsInIdlePeriod new_state && IsInIdlePeriod old_idle_period_state then
      pure { h1 with calls := h1.calls ++ [.OnIdlePeriodEnded] }
    else
      pure h1

/-- The local `long_idle_period_duration` of `ComputeNewLongIdlePeriodState`: the time until
the next pending delayed task capped by `kMaximumIdlePeriodMillis`, or the cap itself when
`NextScheduledRunTime` reports no task. -/
def long_idle_period_duration (cfg : Config) (env : LongIdleEnv) (now : TimeTicks) :
    TimeDelta :=
  let max_long_idle_period_duration := FromMilliseconds cfg.kMaximumIdlePeriodMillis
  match env.NextScheduledRunTime with
  | some next_pending_delayed_task =>
      min (next_pending_delayed_task - now) max_long_idle_period_duration
  | none => max_long_idle_period_duration

/-- Method `IdleHelper::ComputeNewLongIdlePeriodState`; the second component of the result is
the value left in `*next_long_idle_period_delay_out`, whose value on entry is
`next_long_idle_period_delay_in`. -/
def ComputeNewLongIdlePeriodState (cfg : Config) (c : Caller) (env : LongIdleEnv)
    (now : TimeTicks) (next_long_idle_period_delay_in : TimeDelta) (h : Helper) :
    Except Fatal ((IdlePeriodState × TimeDelta) × Helper) := do
  CheckOnValidThread c
  let answer := env.CanEnterLongIdlePeriod now
  let h1 := { h with calls := h.calls ++ [.CanEnterLongIdlePeriod now] }
  let delay_after_delegate := answer.2.getD next_long_idle_period_delay_in
  if !answer.1 then
    pure ((.NOT_IN_IDLE_PERIOD, delay_after_delegate), h1)
  else
    let max_long_idle_period_duration := FromMilliseconds cfg.kMaximumIdlePeriodMillis
    let duration := long_idle_period_duration cfg env now
    if duration ≥ FromMilliseconds cfg.kMinimumIdlePeriodDurationMillis then
      if !env.HasPendingImmediateWork then
        pure ((.IN_LONG_IDLE_PERIOD_PAUSED, duration), h1)
      else if duration = max_long_idle_period_duration then
        pure ((.IN_LONG_IDLE_PERIOD_WITH_MAX_DEADLINE, duration), h1)
      else
        pure ((.IN_LONG_IDLE_PERIOD, duration), h1)
    else
      pure ((.NOT_IN_IDLE_PERIOD,
        FromMilliseconds cfg.kRetryEnableLongIdlePeriodDelayMillis), h1)

/-- Method `IdleHelper::ShouldWaitForQuiescence`. -/
def ShouldWaitForQuiescence (cfg : Config) (c : Caller) (env : LongIdleEnv) (h : Helper) :
    Except Fatal (Bool × Helper) := do
  CheckOnValidThread c
  if env.IsShutdown_quiescence then
    pure (false, h)
  else if cfg.required_quiescence_duration_before_long_idle_period_ = 0 then
    pure (false, h)
  else
    let system_is_quiescent := env.system_is_quiescent
    pure (!system_is_quiescent,
      { h with calls := h.calls ++ [.GetAndClearSystemIsQuiescentBit] })

/-- Method `IdleHelper::StartIdlePeriod`. -/
def StartIdlePeriod (cfg : Config) (c : Caller) (new_state : IdlePeriodState)
    (now : TimeTicks) (idle_period_deadline : TimeTicks) (h : Helper) :
    Except Fatal Helper := do
  DCHECK c (decide (idle_period_deadline > now))
  CheckOnValidThread c
  DCHECK c (IsInIdlePeriod new_state)
  let idle_period_duration := idle_period_deadline - now
  if idle_period_duration < FromMilliseconds cfg.kMinimumIdlePeriodDurationMillis then
    pure h
  else
    let h1 := { h with idle_queue_enabled := true }
    let h2 := { h1 with fences_inserted := h1.fences_inserted + 1 }
    UpdateState c new_state idle_period_deadline now h2

/-- Method `IdleHelper::EndIdlePeriod`. -/
def EndIdlePeriod (c : Caller) (h : Helper) : Except Fatal Helper := do
  CheckOnValidThread c
  let h1 := Cancel .enable_next_long_idle_period_closure_ h
  let h2 := Cancel .on_idle_task_posted_closure_ h1
  let state ← idle_period_state c h2
  if !IsInIdlePeriod state then
    pure h2
  else
    let h3 := { h2 with idle_queue_enabled := false }
    UpdateState c .NOT_IN_IDLE_PERIOD 0 0 h3

/-- Method `IdleHelper::EnableLongIdlePeriod`. -/
def EnableLongIdlePeriod (cfg : Config) (c : Caller) (env : LongIdleEnv) (h : Helper) :
    Except Fatal Helper := do
  CheckOnValidThread c
  if env.IsShutdown then
    pure h
  else
    let h1 ← EndIdlePeriod c h
    let wait ← ShouldWaitForQuiescence cfg c env h1
    if wait.1 then
      let h2 := PostDelayedTask .enable_next_long_idle_period_closure_
        cfg.required_quiescence_duration_before_long_idle_period_ wait.2
      pure { h2 with calls := h2.calls ++ [.IsNotQuiescent] }
    else
      let now := env.NowTicks
      let computed ← ComputeNewLongIdlePeriodState cfg c env now 0 wait.2
      let new_idle_period_state := computed.1.1
      let next_long_idle_period_delay := computed.1.2
      if IsInIdlePeriod new_idle_period_state then
        StartIdlePeriod cfg c new_idle_period_state now (now + next_long_idle_period_delay)
          computed.2
      else
        pure (PostDelayedTask .enable_next_long_idle_period_closure_
          next_long_idle_period_delay computed.2)

/-- Method `IdleHelper::WillProcessTask` (empty body). -/
def WillProcessTask (h : Helper) : Except Fatal Helper :=
  pure h

/-- Method `IdleHelper::DidProcessTask`; the thread checks inside the accessors repeat the
check made on entry. -/
def DidProcessTask (cfg : Config) (c : Caller) (env : TaskEnv) (h : Helper) :
    Except Fatal Helper := do
  CheckOnValidThread c
  let state ← idle_period_state c h
  let deadline ← idle_period_deadline c h
  if IsInIdlePeriod state && state != .IN_LONG_IDLE_PERIOD_PAUSED &&
      decide (env.NowTicks ≥ deadline) then
    if IsInLongIdlePeriod state then
      EnableLongIdlePeriod cfg c env.enable h
    else
      DCHECK c (IdlePeriodState.IN_SHORT_IDLE_PERIOD == state)
      EndIdlePeriod c h
  else
    pure h

/-- Method `IdleHelper::UpdateLongIdlePeriodStateAfterIdleTask`; the thread checks inside the
accessors repeat the check made on entry. -/
def UpdateLongIdlePeriodStateAfterIdleTask (cfg : Config) (c : Caller) (env : IdleTaskEnv)
    (h : Helper) : Except Fatal Helper := do
  CheckOnValidThread c
  let state ← idle_period_state c h
  DCHECK c (IsInLongIdlePeriod state)
  if !env.HasPendingImmediateWork then
    let deadline ← idle_period_deadline c h
    UpdateState c .IN_LONG_IDLE_PERIOD_PAUSED deadline 0 h
  else if env.BlockedByFence then
    let deadline ← idle_period_deadline c h
    let next_long_idle_period_delay : TimeDelta :=
      if state = .IN_LONG_IDLE_PERIOD_WITH_MAX_DEADLINE then 0
      else max 0 (deadline - env.NowTicks)
    if next_long_idle_period_delay = 0 then
      EnableLongIdlePeriod cfg c env.enable h
    else
      pure (PostDelayedTask .enable_next_long_idle_period_closure_
        next_long_idle_period_delay h)
  else
    pure h

/-- Method `IdleHelper::CurrentIdleTaskDeadline` (const). -/
def CurrentIdleTaskDeadline (c : Caller) (h : Helper) : Except Fatal TimeTicks := do
  CheckOnValidThread c
  idle_period_deadline c h

/-- Method `IdleHelper::OnIdleTaskPostedOnMainThread`. -/
def OnIdleTaskPostedOnMainThread (c : Caller) (h : Helper) : Except Fatal Helper := do
  let state ← idle_period_state c h
  if state = .IN_LONG_IDLE_PERIOD_PAUSED then
    pure (PostTask .enable_next_long_idle_period_closure_ h)
  else
    pure h

/-- Method `IdleHelper::OnIdleTaskPosted`; `runs_tasks_on_current_thread` answers
`idle_task_runner_->RunsTasksOnCurrentThread()`. -/
def OnIdleTaskPosted (c : Caller) (runs_tasks_on_current_thread : Bool) (h : Helper) :
    Except Fatal Helper :=
  if runs_tasks_on_current_thread then
    OnIdleTaskPostedOnMainThread c h
  else
    pure (PostTask .on_idle_task_posted_closure_ h)

/-- Method `IdleHelper::WillProcessIdleTask`: returns the deadline handed to the idle task. -/
def WillProcessIdleTask (c : Caller) (h : Helper) : Except Fatal TimeTicks := do
  CheckOnValidThread c
  CurrentIdleTaskDeadline c h

/-- Method `IdleHelper::DidProcessIdleTask`. -/
def DidProcessIdleTask (cfg : Config) (c : Caller) (env : IdleTaskEnv) (h : Helper) :
    Except Fatal Helper := do
  CheckOnValidThread c
  let state ← idle_period_state c h
  if IsInLongIdlePeriod state then
    UpdateLongIdlePeriodStateAfterIdleTask cfg c env h
  else
    pure h

/-- Method `IdleHelper::CanExceedIdleDeadlineIfRequired` (const). -/
def CanExceedIdleDeadlineIfRequired (c : Caller) (h : Helper) : Except Fatal Bool := do
  CheckOnValidThread c
  let state ← idle_period_state c h
  pure (state == .IN_LONG_IDLE_PERIOD_WITH_MAX_DEADLINE)

/-- Method `IdleHelper::SchedulerIdlePeriodState` (const). -/
def SchedulerIdlePeriodState (c : Caller) (h : Helper) : Except Fatal IdlePeriodState :=
  idle_period_state c h

/-- One call made on the helper, with the answers of the collaborators it reads. -/
inductive Op where
  | EnableLongIdlePeriod (env : LongIdleEnv)
  | StartIdlePeriod (new_state : IdlePeriodState) (now : TimeTicks)
      (idle_period_deadline : TimeTicks)
  | EndIdlePeriod
  | WillProcessTask
  | DidProcessTask (env : TaskEnv)
  | WillProcessIdleTask
  | DidProcessIdleTask (env : IdleTaskEnv)
  | OnIdleTaskPosted (runs_tasks_on_current_thread : Bool)
  | CurrentIdleTaskDeadline
  | CanExceedIdleDeadlineIfRequired
  | SchedulerIdlePeriodState
  | RunPostedTask (index : Nat) (env : LongIdleEnv)

/-- The documented precondition of a call: `StartIdlePeriod` requires a deadline after `now`
and an idle new state (its two `DCHECK`s on the arguments). -/
def Op.precondition : Op → Prop
  | .StartIdlePeriod new_state now idle_period_deadline =>
      idle_period_deadline > now ∧ IsInIdlePeriod new_state = true
  | _ => True

/-- Modelled from the spec: the control task runner runs the posted task at `index`, if there
is one: the task leaves the list of pending tasks and the method bound into its closure by the
constructor runs (`EnableLongIdlePeriod`, respectively `OnIdleTaskPostedOnMainThread`). -/
def RunPostedTask (cfg : Config) (c : Caller) (index : Nat) (env : LongIdleEnv)
    (h : Helper) : Except Fatal Helper :=
  match h.posted.get? index with
  | none => pure h
  | some task =>
      let h1 := { h with posted := h.posted.eraseIdx index }
      match task.closure with
      | .enable_next_long_idle_period_closure_ => EnableLongIdlePeriod cfg c env h1
      | .on_idle_task_posted_closure_ => OnIdleTaskPostedOnMainThread c h1

/-- Effect of one call on the helper; the const methods leave it as it is. -/
def step (cfg : Config) (c : Caller) (op : Op) (h : Helper) : Except Fatal Helper :=
  match op with
  | .EnableLongIdlePeriod env => EnableLongIdlePeriod cfg c env h
  | .StartIdlePeriod new_state now idle_period_deadline =>
      StartIdlePeriod cfg c new_state now idle_period_deadline h
  | .EndIdlePeriod => EndIdlePeriod c h
  | .WillProcessTask => WillProcessTask h
  | .DidProcessTask env => DidProcessTask cfg c env h
  | .WillProcessIdleTask => (WillProcessIdleTask c h).map (fun _ => h)
  | .DidProcessIdleTask env => DidProcessIdleTask cfg c env h
  | .OnIdleTaskPosted runs_tasks_on_current_thread =>
      OnIdleTaskPosted c runs_tasks_on_current_thread h
  | .CurrentIdleTaskDeadline => (CurrentIdleTaskDeadline c h).map (fun _ => h)
  | .CanExceedIdleDeadlineIfRequired => (CanExceedIdleDeadlineIfRequired c h).map (fun _ => h)
  | .SchedulerIdlePeriodState => (SchedulerIdlePeriodState c h).map (fun _ => h)
  | .RunPostedTask index env => RunPostedTask cfg c index env h

/-- A sequence of calls, each with its caller, applied in order; it stops at the first call
that aborts. -/
def run (cfg : Config) : List (Caller × Op) → Helper → Except Fatal Helper
  | [], h => pure h
  | (c, op) :: rest, h => (step cfg c op h).bind (run cfg rest)

/-- The caller passes `CheckOnValidThread`: assertions are compiled out, or the call is made
on the controller thread. -/
def Caller.passes (c : Caller) : Prop :=
  c.dcheck_is_on = true → c.on_valid_thread = true

/-- The idle queue is enabled exactly when the helper is in an idle period. -/
def QueueInvariant (h : Helper) : Prop :=
  h.idle_queue_enabled = true ↔ h.idle_period_state_ ≠ .NOT_IN_IDLE_PERIOD

/-- Outside idle periods the stored deadline is the null `base::TimeTicks()`. -/
def DeadlineInvariant (h : Helper) : Prop :=
  h.idle_period_state_ = .NOT_IN_IDLE_PERIOD → h.idle_period_deadline_ = 0

/-- Scenario constants: maximum 50ms, minimum 1ms, retry delay 1ms, no quiescence required. -/
def scenario_config : Config :=
  { kMaximumIdlePeriodMillis := 50
    kMinimumIdlePeriodDurationMillis := 1
    kRetryEnableLongIdlePeriodDelayMillis := 1
    required_quiescence_duration_before_long_idle_period_ := 0 }

/-- A call on the controller thread of a build with assertions compiled in. -/
def controller_thread : Caller :=
  { dcheck_is_on := true, on_valid_thread := true }

/-- Scenario environment: clock at `now`, helper not shut down, delegate permitting entry
without writing a delay, the given next scheduled run time and pending-work answer. -/
def scenario_env (now : TimeTicks) (next : Option TimeTicks) (work : Bool) : LongIdleEnv :=
  { IsShutdown := false
    IsShutdown_quiescence := false
    system_is_quiescent := false
    NowTicks := now
    CanEnterLongIdlePeriod := fun _ => (true, none)
    NextScheduledRunTime := next
    HasPendingImmediateWork := work }

/-- A helper in the given idle period state with the given deadline and its queue enabled. -/
def helper_in (state : IdlePeriodState) (deadline : TimeTicks) : Helper :=
  { idle_period_state_ := state
    idle_period_deadline_ := deadline
    idle_queue_enabled := true
    fences_inserted := 1
    posted := []
    calls := [.OnIdlePeriodStarted] }

/-- A call made off the controller thread of a build with assertions compiled in. -/
def other_thread : Caller :=
  { dcheck_is_on := true, on_valid_thread := false }

/-- A sample history: a short idle period that overruns its deadline, a long idle period whose
work runs out, and an idle task posted from another thread and delivered to the controller. -/
def sample_calls : List (Caller × Op) :=
  [ (controller_thread, .StartIdlePeriod .IN_SHORT_IDLE_PERIOD 0 10000),
    (controller_thread, .DidProcessTask ⟨20000, scenario_env 20000 none true⟩),
    (controller_thread, .EnableLongIdlePeriod (scenario_env 20000 none true)),
    (controller_thread,
      .DidProcessIdleTask ⟨false, false, 30000, scenario_env 30000 none true⟩),
    (other_thread, .OnIdleTaskPosted false),
    (controller_thread, .RunPostedTask 0 (scenario_env 30000 none true)) ]

/-- A sample history that ends outside idle periods: a long idle period is started at 20ms
and ended again. -/
def sample_calls_ended : List (Caller × Op) :=
  [ (controller_thread, .EnableLongIdlePeriod (scenario_env 20000 none true)),
    (controller_thread, .EndIdlePeriod) ]

/-- Scenario constants with a required quiescence duration of 10ms. -/
def quiescence_config : Config :=
  { kMaximumIdlePeriodMillis := 50
    kMinimumIdlePeriodDurationMillis := 1
    kRetryEnableLongIdlePeriodDelayMillis := 1
    required_quiescence_duration_before_long_idle_period_ := 10000 }

/-- Scenario environment whose delegate refuses entry, supplying the given delay or none. -/
def refusing_env (now : TimeTicks) (supplied : Option TimeDelta) : LongIdleEnv :=
  { scenario_env now none true with CanEnterLongIdlePeriod := fun _ => (false, supplied) }

/-- A sample history: a long idle period pauses for lack of work, and two idle tasks are then
posted on the controller thread before any posted task runs. -/
def sample_calls_two_posts : List (Caller × Op) :=
  [ (controller_thread, .EnableLongIdlePeriod (scenario_env 0 none false)),
    (controller_thread, .OnIdleTaskPosted true),
    (controller_thread, .OnIdleTaskPosted true) ]

/-- A sample history: a long idle period pauses for lack of work, an idle task posted on the
controller thread arms the re-enable task, and that task runs when the queue has work again. -/
def sample_calls_resumed : List (Caller × Op) :=
  [ (controller_thread, .EnableLongIdlePeriod (scenario_env 0 none false)),
    (controller_thread, .OnIdleTaskPosted true),
    (controller_thread, .RunPostedTask 0 (scenario_env 1000 none true)) ]

/-! ## The helper as an object

The definitions above hand the helper from statement to statement and drop it when an
assertion fails.  The definitions of this section run the same method bodies on an object that
the statements change in place, so that the object is still there when a call aborts: it is
the object as the statements executed before the failed assertion left it.  They also carry
what the definitions above leave out: the members of `IdleHelper::State` that serve tracing
and the tracing macros the methods execute. -/

/-- Static `IdleHelper::IdlePeriodStateToString`. -/
def IdlePeriodStateToString : IdlePeriodState → String
  | .NOT_IN_IDLE_PERIOD => "not_in_idle_period"
  | .IN_SHORT_IDLE_PERIOD => "in_short_idle_period"
  | .IN_LONG_IDLE_PERIOD => "in_long_idle_period"
  | .IN_LONG_IDLE_PERIOD_WITH_MAX_DEADLINE => "in_long_idle_period_with_max_deadline"
  | .IN_LONG_IDLE_PERIOD_PAUSED => "in_long_idle_period_paused"

/-- Tracing macros executed by the helper, with their arguments; whether the tracing system
keeps the event is its own business. -/
inductive TraceEvent where
  /-- Macro `TRACE_EVENT0(disabled_by_default_tracing_category_, name)`. -/
  | TRACE_EVENT0 (name : String)
  /-- Macro `TRACE_EVENT1(.., "ShouldWaitForQuiescence", "system_is_quiescent", ..)`. -/
  | ShouldWaitForQuiescence (system_is_quiescent : Bool)
  /-- Macro `TRACE_EVENT1(.., "NotStartingIdlePeriodBecauseDeadlineIsTooClose", ..)`; the
  argument is the duration whose milliseconds are traced. -/
  | NotStartingIdlePeriodBecauseDeadlineIsTooClose (idle_period_duration : TimeDelta)
  /-- Macro `TRACE_EVENT2(.., "SetIdlePeriodState", "old_state", .., "new_state", ..)`. -/
  | SetIdlePeriodState (old_state new_state : String)
  /-- Macro `TRACE_EVENT_ASYNC_STEP_INTO_WITH_TIMESTAMP0(.., "DeadlineOverrun", timestamp)`. -/
  | DeadlineOverrun (timestamp : TimeTicks)
  /-- Macro `TRACE_EVENT_ASYNC_BEGIN1(.., "idle_period_length_ms", ..)`. -/
  | ASYNC_BEGIN (idle_period_length : TimeDelta)
  /-- Macro `TRACE_EVENT_ASYNC_STEP_INTO0(.., step)`. -/
  | ASYNC_STEP_INTO (step : String)
  /-- Macro `TRACE_EVENT_ASYNC_END0`. -/
  | ASYNC_END
  deriving DecidableEq, Repr

/-- The helper object: what `Helper` records, the members of `IdleHelper::State` that serve
tracing, and the tracing macros executed so far, oldest first. -/
structure Object where
  helper : Helper
  /-- Member `state_.idle_period_trace_event_started_`. -/
  idle_period_trace_event_started_ : Bool
  /-- Member `state_.running_idle_task_for_tracing_`. -/
  running_idle_task_for_tracing_ : Bool
  /-- Member `state_.last_idle_task_trace_time_`. -/
  last_idle_task_trace_time_ : TimeTicks
  trace : List TraceEvent
  deriving DecidableEq, Repr

/-- Answers to the reads one method of `IdleHelper::State` makes for tracing. -/
structure TraceEnv where
  /-- Answer `TRACE_EVENT_CATEGORY_GROUP_ENABLED(tracing_category_, &is_tracing)`. -/
  is_tracing : Bool
  /-- Answer of the clock read when tracing: `NowTicks()` in `UpdateState`,
  `base::TimeTicks::Now()` in `TraceIdleIdleTaskStart` and `TraceIdleIdleTaskEnd`. -/
  Now : TimeTicks

/-- Answers for tracing during one `EnableLongIdlePeriod` call. -/
structure LongIdleTraceEnv where
  /-- Answers for the `UpdateState` call of the nested `EndIdlePeriod`. -/
  EndIdlePeriod : TraceEnv
  /-- Answers for the `UpdateState` call of the nested `StartIdlePeriod`. -/
  StartIdlePeriod : TraceEnv

/-- Answers for tracing during one `DidProcessIdleTask` call. -/
structure IdleTaskTraceEnv where
  /-- Answers for `TraceIdleIdleTaskEnd`. -/
  TraceIdleIdleTaskEnd : TraceEnv
  /-- Answers for the `UpdateState` call that pauses the long idle period. -/
  UpdateState : TraceEnv
  /-- Answers for the nested `EnableLongIdlePeriod`. -/
  enable : LongIdleTraceEnv

/-- A method body run on the object: it yields its result, or the assertion that aborted it,
and in both cases the object as the call left it. -/
def Method (α : Type) : Type :=
  Object → Except Fatal α × Object

/-- Run a method body on an object. -/
def Method.call {α : Type} (m : Method α) (obj : Object) : Except Fatal α × Object :=
  m obj

/-- Sequencing of statements: a failed assertion stops the body where it is. -/
instance Method.monad : Monad Method where
  pure a := fun obj => (.ok a, obj)
  bind m f := fun obj =>
    match m obj with
    | (.ok a, obj1) => f a obj1
    | (.error e, obj1) => (.error e, obj1)

/-- Read the object. -/
def Method.get : Method Object :=
  fun obj => (.ok obj, obj)

/-- Change the object in place. -/
def Method.modify (f : Object → Object) : Method Unit :=
  fun obj => (.ok (), f obj)

/-- An assertion (`DCHECK`, `CheckOnValidThread`): it changes nothing. -/
def Method.check (r : Except Fatal Unit) : Method Unit :=
  fun obj => (r, obj)

/-- Change what `Helper` records in place. -/
def Method.helper (f : Helper → Helper) : Method Unit :=
  Method.modify (fun obj => { obj with helper := f obj.helper })

/-- Execute a tracing macro. -/
def Method.trace (e : TraceEvent) : Method Unit :=
  Method.modify (fun obj => { obj with trace := obj.trace ++ [e] })

/-- The object after the constructors `IdleHelper::IdleHelper` and `IdleHelper::State::State`;
`last_idle_task_trace_time_` is default-constructed. -/
def constructed : Object :=
  { helper := construct
    idle_period_trace_event_started_ := false
    running_idle_task_for_tracing_ := false
    last_idle_task_trace_time_ := 0
    trace := [] }

/-- Method `IdleHelper::IdleTaskRunner` on the object. -/
def IdleTaskRunner_method (c : Caller) : Method Unit :=
  Method.check (CheckOnValidThread c)

/-- Accessor `IdleHelper::State::idle_period_state` on the object. -/
def idle_period_state_method (c : Caller) : Method IdlePeriodState := do
  Method.check (CheckOnValidThread c)
  let obj ← Method.get
  pure obj.helper.idle_period_state_

/-- Accessor `IdleHelper::State::idle_period_deadline` on the object. -/
def idle_period_deadline_method (c : Caller) : Method TimeTicks := do
  Method.check (CheckOnValidThread c)
  let obj ← Method.get
  pure obj.helper.idle_period_deadline_

/-- Method `IdleHelper::State::TraceEventIdlePeriodStateChange` on the object. It makes no
thread check; it reads `idle_period_state_` and `idle_period_deadline_` and writes tracing
members only. -/
def TraceEventIdlePeriodStateChange_method (new_state : IdlePeriodState)
    (new_running_idle_task : Bool) (new_deadline : TimeTicks) (now : TimeTicks) :
    Method Unit := do
  let obj ← Method.get
  Method.trace (.SetIdlePeriodState (IdlePeriodStateToString obj.helper.idle_period_state_)
    (IdlePeriodStateToString new_state))
  if obj.idle_period_trace_event_started_ && obj.running_idle_task_for_tracing_ &&
      !new_running_idle_task then
    Method.modify (fun o => { o with running_idle_task_for_tracing_ := false })
    if obj.helper.idle_period_deadline_ != 0 &&
        decide (now > obj.helper.idle_period_deadline_) then
      Method.trace (.DeadlineOverrun
        (max obj.helper.idle_period_deadline_ obj.last_idle_task_trace_time_))
  if IsInIdlePeriod new_state then
    if !obj.idle_period_trace_event_started_ then
      Method.modify (fun o => { o with idle_period_trace_event_started_ := true })
      Method.trace (.ASYNC_BEGIN (new_deadline - now))
    if new_running_idle_task then
      Method.modify (fun o => { o with last_idle_task_trace_time_ := now })
      Method.modify (fun o => { o with running_idle_task_for_tracing_ := true })
      Method.trace (.ASYNC_STEP_INTO "RunningIdleTask")
    else if new_state = .IN_SHORT_IDLE_PERIOD then
      Method.trace (.ASYNC_STEP_INTO "ShortIdlePeriod")
    else if IsInLongIdlePeriod new_state && new_state != .IN_LONG_IDLE_PERIOD_PAUSED then
      Method.trace (.ASYNC_STEP_INTO "LongIdlePeriod")
    else if new_state = .IN_LONG_IDLE_PERIOD_PAUSED then
      Method.trace (.ASYNC_STEP_INTO "LongIdlePeriodPaused")
  else if obj.idle_period_trace_event_started_ then
    Method.modify (fun o => { o with idle_period_trace_event_started_ := false })
    Method.trace .ASYNC_END

/-- Method `IdleHelper::State::UpdateState` on the object. -/
def UpdateState_method (c : Caller) (new_state : IdlePeriodState) (new_deadline : TimeTicks)
    (optional_now : TimeTicks) (tr : TraceEnv) : Method Unit := do
  let entry ← Method.get
  let old_idle_period_state := entry.helper.idle_period_state_
  Method.check (CheckOnValidThread c)
  if new_state = entry.helper.idle_period_state_ then
    Method.check (DCHECK c (new_deadline == entry.helper.idle_period_deadline_))
  else
    if tr.is_tracing then
      let now := if optional_now = 0 then tr.Now else optional_now
      TraceEventIdlePeriodStateChange_method new_state entry.running_idle_task_for_tracing_
        entry.helper.idle_period_deadline_ now
    Method.helper (fun h => { h with idle_period_state_ := new_state })
    Method.helper (fun h => { h with idle_period_deadline_ := new_deadline })
    if IsInIdlePeriod new_state && !IsInIdlePeriod old_idle_period_state then
      Method.helper (fun h => { h with calls := h.calls ++ [.OnIdlePeriodStarted] })
    else if !IsInIdlePeriod new_state && IsInIdlePeriod old_idle_period_state then
      Method.helper (fun h => { h with calls := h.calls ++ [.OnIdlePeriodEnded] })

/-- Method `IdleHelper::State::TraceIdleIdleTaskStart` on the object. -/
def TraceIdleIdleTaskStart_method (c : Caller) (tr : TraceEnv) : Method Unit := do
  Method.check (CheckOnValidThread c)
  if tr.is_tracing then
    let obj ← Method.get
    TraceEventIdlePeriodStateChange_method obj.helper.idle_period_state_ true
      obj.helper.idle_period_deadline_ tr.Now

/-- Method `IdleHelper::State::TraceIdleIdleTaskEnd` on the object. -/
def TraceIdleIdleTaskEnd_method (c : Caller) (tr : TraceEnv) : Method Unit := do
  Method.check (CheckOnValidThread c)
  if tr.is_tracing then
    let obj ← Method.get
    TraceEventIdlePeriodStateChange_method obj.helper.idle_period_state_ false
      obj.helper.idle_period_deadline_ tr.Now

/-- Method `IdleHelper::ComputeNewLongIdlePeriodState` on the object; the second component of
the result is the value left in `*next_long_idle_period_delay_out`. -/
def ComputeNewLongIdlePeriodState_method (cfg : Config) (c : Caller) (env : LongIdleEnv)
    (now : TimeTicks) (next_long_idle_period_delay_in : TimeDelta) :
    Method (IdlePeriodState × TimeDelta) := do
  Method.check (CheckOnValidThread c)
  let answer := env.CanEnterLongIdlePeriod now
  Method.helper (fun h => { h with calls := h.calls ++ [.CanEnterLongIdlePeriod now] })
  let delay_after_delegate := answer.2.getD next_long_idle_period_delay_in
  if !answer.1 then
    pure (.NOT_IN_IDLE_PERIOD, delay_after_delegate)
  else
    let max_long_idle_period_duration := FromMilliseconds cfg.kMaximumIdlePeriodMillis
    let duration := long_idle_period_duration cfg env now
    if duration ≥ FromMilliseconds cfg.kMinimumIdlePeriodDurationMillis then
      if !env.HasPendingImmediateWork then
        pure (.IN_LONG_IDLE_PERIOD_PAUSED, duration)
      else if duration = max_long_idle_period_duration then
        pure (.IN_LONG_IDLE_PERIOD_WITH_MAX_DEADLINE, duration)
      else
        pure (.IN_LONG_IDLE_PERIOD, duration)
    else
      pure (.NOT_IN_IDLE_PERIOD, FromMilliseconds cfg.kRetryEnableLongIdlePeriodDelayMillis)

/-- Method `IdleHelper::ShouldWaitForQuiescence` on the object. -/
def ShouldWaitForQuiescence_method (cfg : Config) (c : Caller) (env : LongIdleEnv) :
    Method Bool := do
  Method.check (CheckOnValidThread c)
  if env.IsShutdown_quiescence then
    pure false
  else if cfg.required_quiescence_duration_before_long_idle_period_ = 0 then
    pure false
  else
    let system_is_quiescent := env.system_is_quiescent
    Method.helper (fun h => { h with calls := h.calls ++ [.GetAndClearSystemIsQuiescentBit] })
    Method.trace (.ShouldWaitForQuiescence system_is_quiescent)
    pure (!system_is_quiescent)

/-- Method `IdleHelper::StartIdlePeriod` on the object. -/
def StartIdlePeriod_method (cfg : Config) (c : Caller) (new_state : IdlePeriodState)
    (now : TimeTicks) (idle_period_deadline : TimeTicks) (tr : TraceEnv) : Method Unit := do
  Method.check (DCHECK c (decide (idle_period_deadline > now)))
  Method.check (CheckOnValidThread c)
  Method.check (DCHECK c (IsInIdlePeriod new_state))
  let idle_period_duration := idle_period_deadline - now
  if idle_period_duration < FromMilliseconds cfg.kMinimumIdlePeriodDurationMillis then
    Method.trace (.NotStartingIdlePeriodBecauseDeadlineIsTooClose idle_period_duration)
  else
    Method.trace (.TRACE_EVENT0 "StartIdlePeriod")
    Method.helper (fun h => { h with idle_queue_enabled := true })
    Method.helper (fun h => { h with fences_inserted := h.fences_inserted + 1 })
    UpdateState_method c new_state idle_period_deadline now tr

/-- Method `IdleHelper::EndIdlePeriod` on the object. -/
def EndIdlePeriod_method (c : Caller) (tr : TraceEnv) : Method Unit := do
  Method.check (CheckOnValidThread c)
  Method.trace (.TRACE_EVENT0 "EndIdlePeriod")
  Method.helper (Cancel .enable_next_long_idle_period_closure_)
  Method.helper (Cancel .on_idle_task_posted_closure_)
  let state ← idle_period_state_method c
  if !IsInIdlePeriod state then
    pure ()
  else
    Method.helper (fun h => { h with idle_queue_enabled := false })
    UpdateState_method c .NOT_IN_IDLE_PERIOD 0 0 tr

/-- Method `IdleHelper::EnableLongIdlePeriod` on the object. -/
def EnableLongIdlePeriod_method (cfg : Config) (c : Caller) (env : LongIdleEnv)
    (tr : LongIdleTraceEnv) : Method Unit := do
  Method.trace (.TRACE_EVENT0 "EnableLongIdlePeriod")
  Method.check (CheckOnValidThread c)
  if env.IsShutdown then
    pure ()
  else
    EndIdlePeriod_method c tr.EndIdlePeriod
    let wait ← ShouldWaitForQuiescence_method cfg c env
    if wait then
      Method.helper (PostDelayedTask .enable_next_long_idle_period_closure_
        cfg.required_quiescence_duration_before_long_idle_period_)
      Method.helper (fun h => { h with calls := h.calls ++ [.IsNotQuiescent] })
    else
      let now := env.NowTicks
      let computed ← ComputeNewLongIdlePeriodState_method cfg c env now 0
      let new_idle_period_state := computed.1
      let next_long_idle_period_delay := computed.2
      if IsInIdlePeriod new_idle_period_state then
        StartIdlePeriod_method cfg c new_idle_period_state now
          (now + next_long_idle_period_delay) tr.StartIdlePeriod
      else
        Method.helper (PostDelayedTask .enable_next_long_idle_period_closure_
          next_long_idle_period_delay)

/-- Method `IdleHelper::WillProcessTask` on the object (empty body). -/
def WillProcessTask_method : Method Unit :=
  pure ()

/-- Method `IdleHelper::DidProcessTask` on the object; the thread checks inside the accessors
repeat the check made on entry. -/
def DidProcessTask_method (cfg : Config) (c : Caller) (env : TaskEnv)
    (tr : LongIdleTraceEnv) : Method Unit := do
  Method.check (CheckOnValidThread c)
  Method.trace (.TRACE_EVENT0 "DidProcessTask")
  let state ← idle_period_state_method c
  let deadline ← idle_period_deadline_method c
  if IsInIdlePeriod state && state != .IN_LONG_IDLE_PERIOD_PAUSED &&
      decide (env.NowTicks ≥ deadline) then
    if IsInLongIdlePeriod state then
      EnableLongIdlePeriod_method cfg c env.enable tr
    else
      Method.check (DCHECK c (IdlePeriodState.IN_SHORT_IDLE_PERIOD == state))
      EndIdlePeriod_method c tr.EndIdlePeriod

/-- Method `IdleHelper::UpdateLongIdlePeriodStateAfterIdleTask` on the object; the thread
checks inside the accessors repeat the check made on entry. -/
def UpdateLongIdlePeriodStateAfterIdleTask_method (cfg : Config) (c : Caller)
    (env : IdleTaskEnv) (tr : IdleTaskTraceEnv) : Method Unit := do
  Method.check (CheckOnValidThread c)
  let state ← idle_period_state_method c
  Method.check (DCHECK c (IsInLongIdlePeriod state))
  Method.trace (.TRACE_EVENT0 "UpdateLongIdlePeriodStateAfterIdleTask")
  if !env.HasPendingImmediateWork then
    let deadline ← idle_period_deadline_method c
    UpdateState_method c .IN_LONG_IDLE_PERIOD_PAUSED deadline 0 tr.UpdateState
  else if env.BlockedByFence then
    let deadline ← idle_period_deadline_method c
    let next_long_idle_period_delay : TimeDelta :=
      if state = .IN_LONG_IDLE_PERIOD_WITH_MAX_DEADLINE then 0
      else max 0 (deadline - env.NowTicks)
    if next_long_idle_period_delay = 0 then
      EnableLongIdlePeriod_method cfg c env.enable tr.enable
    else
      Method.helper (PostDelayedTask .enable_next_long_idle_period_closure_
        next_long_idle_period_delay)

/-- Method `IdleHelper::CurrentIdleTaskDeadline` on the object (const). -/
def CurrentIdleTaskDeadline_method (c : Caller) : Method TimeTicks := do
  Method.check (CheckOnValidThread c)
  idle_period_deadline_method c

/-- Method `IdleHelper::OnIdleTaskPostedOnMainThread` on the object. -/
def OnIdleTaskPostedOnMainThread_method (c : Caller) : Method Unit := do
  Method.trace (.TRACE_EVENT0 "OnIdleTaskPostedOnMainThread")
  let state ← idle_period_state_method c
  if state = .IN_LONG_IDLE_PERIOD_PAUSED then
    Method.helper (PostTask .enable_next_long_idle_period_closure_)

/-- Method `IdleHelper::OnIdleTaskPosted` on the object; `runs_tasks_on_current_thread`
answers `idle_task_runner_->RunsTasksOnCurrentThread()`. -/
def OnIdleTaskPosted_method (c : Caller) (runs_tasks_on_current_thread : Bool) :
    Method Unit := do
  Method.trace (.TRACE_EVENT0 "OnIdleTaskPosted")
  if runs_tasks_on_current_thread then
    OnIdleTaskPostedOnMainThread_method c
  else
    Method.helper (PostTask .on_idle_task_posted_closure_)

/-- Method `IdleHelper::WillProcessIdleTask` on the object: returns the deadline handed to the
idle task. -/
def WillProcessIdleTask_method (c : Caller) (tr : TraceEnv) : Method TimeTicks := do
  Method.check (CheckOnValidThread c)
  TraceIdleIdleTaskStart_method c tr
  CurrentIdleTaskDeadline_method c

/-- Method `IdleHelper::DidProcessIdleTask` on the object. -/
def DidProcessIdleTask_method (cfg : Config) (c : Caller) (env : IdleTaskEnv)
    (tr : IdleTaskTraceEnv) : Method Unit := do
  Method.check (CheckOnValidThread c)
  TraceIdleIdleTaskEnd_method c tr.TraceIdleIdleTaskEnd
  let state ← idle_period_state_method c
  if IsInLongIdlePeriod state then
    UpdateLongIdlePeriodStateAfterIdleTask_method cfg c env tr

/-- Method `IdleHelper::CanExceedIdleDeadlineIfRequired` on the object (const). -/
def CanExceedIdleDeadlineIfRequired_method (c : Caller) : Method Bool := do
  Method.trace (.TRACE_EVENT0 "CanExceedIdleDeadlineIfRequired")
  Method.check (CheckOnValidThread c)
  let state ← idle_period_state_method c
  pure (state == .IN_LONG_IDLE_PERIOD_WITH_MAX_DEADLINE)

/-- Method `IdleHelper::SchedulerIdlePeriodState` on the object (const). -/
def SchedulerIdlePeriodState_method (c : Caller) : Method IdlePeriodState :=
  idle_period_state_method c

/-- An object holding the given helper, with tracing not started and no macro executed. -/
def object_of (h : Helper) : Object :=
  { helper := h
    idle_period_trace_event_started_ := false
    running_idle_task_for_tracing_ := false
    last_idle_task_trace_time_ := 0
    trace := [] }

/-- Tracing switched off. -/
def tracing_off : TraceEnv :=
  { is_tracing := false, Now := 0 }

/-- Tracing switched on, with the clock at `now`. -/
def tracing_on (now : TimeTicks) : TraceEnv :=
  { is_tracing := true, Now := now }

/-- A method body that always returns, leaves what `Helper` records as it is, and only adds
to the tracing macros executed. -/
def Method.tracing_only (m : Method Unit) : Prop :=
  ∀ obj, (m.call obj).1 = .ok () ∧ (m.call obj).2.helper = obj.helper ∧
    ∃ rest, (m.call obj).2.trace = obj.trace ++ rest

/-- What a call on the object amounts to once tracing is forgotten and the object of an
aborted call is dropped: the result together with what `Helper` records, or the failed
assertion. -/
def Method.erase {α : Type} (m : Method α) (obj : Object) : Except Fatal (α × Helper) :=
  match m.call obj with
  | (.ok a, obj1) => .ok (a, obj1.helper)
  | (.error e, _) => .error e

/-- An object in a short idle period ending at 10ms, with one re-enable task pending. -/
def short_period_object : Object :=
  object_of { helper_in .IN_SHORT_IDLE_PERIOD 10000 with
    posted := [⟨.enable_next_long_idle_period_closure_, 7000⟩] }

/-! ## Elementary facts about the checks -/

theorem CheckOnValidThread_ok (c : Caller) (hc : c.passes) : CheckOnValidThread c = .ok () := by
  rcases c with ⟨d, t⟩
  cases d <;> cases t <;> simp_all [Caller.passes, CheckOnValidThread, DCHECK]

theorem CheckOnValidThread_error (c : Caller) (hc : ¬ c.passes) :
    CheckOnValidThread c = .error .DCHECK := by
  rcases c with ⟨d, t⟩
  cases d <;> cases t <;> simp_all [Caller.passes, CheckOnValidThread, DCHECK]

theorem DCHECK_cases (c : Caller) (b : Bool) :
    DCHECK c b = .ok () ∨ (DCHECK c b = .error .DCHECK ∧ c.dcheck_is_on = true ∧ b = false) := by
  rcases c with ⟨d, t⟩
  cases d <;> cases b <;> simp [DCHECK]

theorem DCHECK_true (c : Caller) : DCHECK c true = .ok () := by
  simp [DCHECK]

theorem DCHECK_off (c : Caller) (b : Bool) (hc : c.dcheck_is_on = false) :
    DCHECK c b = .ok () := by
  simp [DCHECK, hc]

theorem passes_of_off (c : Caller) (hc : c.dcheck_is_on = false) : c.passes := by
  intro h; rw [hc] at h; cases h

theorem idle_period_state_ok (c : Caller) (h : Helper) (hc : c.passes) :
    idle_period_state c h = .ok h.idle_period_state_ := by
  simp [idle_period_state, CheckOnValidThread_ok c hc, bind, Except.bind, pure, Except.pure]

theorem idle_period_deadline_ok (c : Caller) (h : Helper) (hc : c.passes) :
    idle_period_deadline c h = .ok h.idle_period_deadline_ := by
  simp [idle_period_deadline, CheckOnValidThread_ok c hc, bind, Except.bind, pure, Except.pure]

theorem IsInIdlePeriod_iff (state : IdlePeriodState) :
    IsInIdlePeriod state = true ↔ state ≠ .NOT_IN_IDLE_PERIOD := by
  cases state <;> simp [IsInIdlePeriod]

theorem IsInIdlePeriod_of_long (state : IdlePeriodState)
    (h : IsInLongIdlePeriod state = true) : IsInIdlePeriod state = true := by
  cases state <;> simp_all [IsInIdlePeriod, IsInLongIdlePeriod]

/-! ## `UpdateState` -/

theorem UpdateState_summary (c : Caller) (ns : IdlePeriodState) (nd t0 : TimeTicks)
    (h h' : Helper) (hok : UpdateState c ns nd t0 h = .ok h') :
    h'.idle_queue_enabled = h.idle_queue_enabled ∧ h'.fences_inserted = h.fences_inserted ∧
    h'.posted = h.posted ∧
    ((ns = h.idle_period_state_ ∧ h' = h) ∨
     (ns ≠ h.idle_period_state_ ∧ h'.idle_period_state_ = ns ∧
      h'.idle_period_deadline_ = nd)) := by
  unfold UpdateState at hok
  rcases DCHECK_cases c c.on_valid_thread with h1 | ⟨h1, _, _⟩ <;>
    simp only [CheckOnValidThread, h1, bind, Except.bind, pure, Except.pure] at hok
  · split at hok
    · rcases DCHECK_cases c (nd == h.idle_period_deadline_) with h2 | ⟨h2, _, _⟩ <;>
        simp only [h2] at hok
      · cases hok; simp_all
      · cases hok
    · split at hok
      · cases hok; simp_all
      · split at hok <;> (cases hok; simp_all)
  · cases hok

theorem UpdateState_to_not_idle (c : Caller) (t0 : TimeTicks) (h : Helper) (hc : c.passes)
    (hs : h.idle_period_state_ ≠ .NOT_IN_IDLE_PERIOD) :
    UpdateState c .NOT_IN_IDLE_PERIOD 0 t0 h =
      .ok { h with idle_period_state_ := .NOT_IN_IDLE_PERIOD, idle_period_deadline_ := 0,
                   calls := h.calls ++ [.OnIdlePeriodEnded] } := by
  unfold UpdateState
  simp only [CheckOnValidThread_ok c hc, bind, Except.bind, pure, Except.pure]
  rw [if_neg (Ne.symm hs)]
  have : IsInIdlePeriod h.idle_period_state_ = true := (IsInIdlePeriod_iff _).2 hs
  simp [IsInIdlePeriod, this, hs]

theorem UpdateState_from_not_idle (c : Caller) (ns : IdlePeriodState) (nd t0 : TimeTicks)
    (h : Helper) (hc : c.passes) (hs : h.idle_period_state_ = .NOT_IN_IDLE_PERIOD)
    (hn : ns ≠ .NOT_IN_IDLE_PERIOD) :
    UpdateState c ns nd t0 h =
      .ok { h with idle_period_state_ := ns, idle_period_deadline_ := nd,
                   calls := h.calls ++ [.OnIdlePeriodStarted] } := by
  unfold UpdateState
  simp only [CheckOnValidThread_ok c hc, bind, Except.bind, pure, Except.pure]
  rw [if_neg (by rw [hs]; exact hn)]
  have : IsInIdlePeriod ns = true := (IsInIdlePeriod_iff _).2 hn
  simp [this, hs, hn, IsInIdlePeriod]

/-! ## `EndIdlePeriod` -/

theorem Cancel_both_posted (h : Helper) :
    (Cancel .on_idle_task_posted_closure_
      (Cancel .enable_next_long_idle_period_closure_ h)).posted = [] := by
  simp only [Cancel, List.filter_filter]
  rw [List.filter_eq_nil_iff]
  intro t _
  rcases t with ⟨k, d⟩
  cases k <;> simp

theorem EndIdlePeriod_error (c : Caller) (h : Helper) (hc : ¬ c.passes) :
    EndIdlePeriod c h = .error .DCHECK := by
  simp [EndIdlePeriod, CheckOnValidThread_error c hc, bind, Except.bind]

theorem EndIdlePeriod_not_idle (c : Caller) (h : Helper) (hc : c.passes)
    (hs : h.idle_period_state_ = .NOT_IN_IDLE_PERIOD) :
    EndIdlePeriod c h = .ok { h with posted := [] } := by
  have hp := Cancel_both_posted h
  unfold EndIdlePeriod
  simp only [CheckOnValidThread_ok c hc, idle_period_state_ok c _ hc, bind, Except.bind,
    pure, Except.pure]
  simp only [Cancel] at hp ⊢
  simp [hs, IsInIdlePeriod, hp]

theorem EndIdlePeriod_idle (c : Caller) (h : Helper) (hc : c.passes)
    (hs : h.idle_period_state_ ≠ .NOT_IN_IDLE_PERIOD) :
    EndIdlePeriod c h =
      .ok { h with idle_period_state_ := .NOT_IN_IDLE_PERIOD, idle_period_deadline_ := 0,
                   idle_queue_enabled := false, posted := [],
                   calls := h.calls ++ [.OnIdlePeriodEnded] } := by
  have hp := Cancel_both_posted h
  unfold EndIdlePeriod
  simp only [CheckOnValidThread_ok c hc, idle_period_state_ok c _ hc, bind, Except.bind,
    pure, Except.pure]
  simp only [Cancel] at hp ⊢
  have hi : IsInIdlePeriod h.idle_period_state_ = true := (IsInIdlePeriod_iff _).2 hs
  simp only [hi, Bool.not_true, Bool.false_eq_true, if_false]
  rw [UpdateState_to_not_idle c 0 _ hc (by simpa using hs)]
  simp [hp]

theorem EndIdlePeriod_summary (c : Caller) (h h' : Helper) (hok : EndIdlePeriod c h = .ok h') :
    c.passes ∧ h'.idle_period_state_ = .NOT_IN_IDLE_PERIOD ∧ h'.posted = [] ∧
    h'.fences_inserted = h.fences_inserted ∧
    (h.idle_period_state_ = .NOT_IN_IDLE_PERIOD →
      h'.idle_period_deadline_ = h.idle_period_deadline_ ∧
      h'.idle_queue_enabled = h.idle_queue_enabled ∧ h'.calls = h.calls) ∧
    (h.idle_period_state_ ≠ .NOT_IN_IDLE_PERIOD →
      h'.idle_period_deadline_ = 0 ∧ h'.idle_queue_enabled = false ∧
      h'.calls = h.calls ++ [.OnIdlePeriodEnded]) := by
  by_cases hc : c.passes
  · by_cases hs : h.idle_period_state_ = .NOT_IN_IDLE_PERIOD
    · rw [EndIdlePeriod_not_idle c h hc hs] at hok
      cases hok
      simp [hc, hs]
    · rw [EndIdlePeriod_idle c h hc hs] at hok
      cases hok
      simp [hc, hs]
  · rw [EndIdlePeriod_error c h hc] at hok
    cases hok

/-! ## `ShouldWaitForQuiescence`, `ComputeNewLongIdlePeriodState`, `StartIdlePeriod` -/

theorem ShouldWaitForQuiescence_ok (cfg : Config) (c : Caller) (env : LongIdleEnv)
    (h : Helper) (hc : c.passes) :
    ShouldWaitForQuiescence cfg c env h =
      .ok (if env.IsShutdown_quiescence = true ∨
              cfg.required_quiescence_duration_before_long_idle_period_ = 0
           then (false, h)
           else (!env.system_is_quiescent,
                 { h with calls := h.calls ++ [.GetAndClearSystemIsQuiescentBit] })) := by
  unfold ShouldWaitForQuiescence
  simp only [CheckOnValidThread_ok c hc, bind, Except.bind, pure, Except.pure]
  by_cases h1 : env.IsShutdown_quiescence = true
  · simp [h1]
  · by_cases h2 : cfg.required_quiescence_duration_before_long_idle_period_ = 0
    · simp [h1, h2]
    · simp [h1, h2]

theorem ComputeNewLongIdlePeriodState_ok (cfg : Config) (c : Caller) (env : LongIdleEnv)
    (now : TimeTicks) (d0 : TimeDelta) (h : Helper) (hc : c.passes) :
    ComputeNewLongIdlePeriodState cfg c env now d0 h =
      .ok ((if (env.CanEnterLongIdlePeriod now).1 = false then
              (.NOT_IN_IDLE_PERIOD, (env.CanEnterLongIdlePeriod now).2.getD d0)
            else if long_idle_period_duration cfg env now ≥
                FromMilliseconds cfg.kMinimumIdlePeriodDurationMillis then
              (if env.HasPendingImmediateWork = false then .IN_LONG_IDLE_PERIOD_PAUSED
               else if long_idle_period_duration cfg env now =
                   FromMilliseconds cfg.kMaximumIdlePeriodMillis then
                 .IN_LONG_IDLE_PERIOD_WITH_MAX_DEADLINE
               else .IN_LONG_IDLE_PERIOD,
               long_idle_period_duration cfg env now)
            else
              (.NOT_IN_IDLE_PERIOD,
               FromMilliseconds cfg.kRetryEnableLongIdlePeriodDelayMillis)),
           { h with calls := h.calls ++ [.CanEnterLongIdlePeriod now] }) := by
  unfold ComputeNewLongIdlePeriodState
  simp only [CheckOnValidThread_ok c hc, bind, Except.bind, pure, Except.pure]
  by_cases h1 : (env.CanEnterLongIdlePeriod now).1 = false
  · simp [h1]
  · have h1' : (env.CanEnterLongIdlePeriod now).1 = true := by simpa using h1
    by_cases h2 : long_idle_period_duration cfg env now ≥
        FromMilliseconds cfg.kMinimumIdlePeriodDurationMillis
    · by_cases h3 : env.HasPendingImmediateWork = false
      · simp [h1', h2, h3]
      · have h3' : env.HasPendingImmediateWork = true := by simpa using h3
        by_cases h4 : long_idle_period_duration cfg env now =
            FromMilliseconds cfg.kMaximumIdlePeriodMillis
        · have h2' := h2
          rw [h4] at h2'
          simp [h1', h2', h3', h4]
        · simp [h1', h2, h3', h4]
    · simp [h1', h2]

theorem StartIdlePeriod_summary (cfg : Config) (c : Caller) (ns : IdlePeriodState)
    (now deadline : TimeTicks) (h h' : Helper)
    (hok : StartIdlePeriod cfg c ns now deadline h = .ok h') :
    (deadline - now < FromMilliseconds cfg.kMinimumIdlePeriodDurationMillis ∧ h' = h) ∨
    (¬ deadline - now < FromMilliseconds cfg.kMinimumIdlePeriodDurationMillis ∧
      h'.idle_queue_enabled = true ∧ h'.fences_inserted = h.fences_inserted + 1 ∧
      h'.posted = h.posted ∧
      ((ns = h.idle_period_state_ ∧ h'.idle_period_state_ = h.idle_period_state_ ∧
          h'.idle_period_deadline_ = h.idle_period_deadline_ ∧ h'.calls = h.calls) ∨
       (ns ≠ h.idle_period_state_ ∧ h'.idle_period_state_ = ns ∧
          h'.idle_period_deadline_ = deadline))) := by
  unfold StartIdlePeriod at hok
  rcases DCHECK_cases c (decide (deadline > now)) with h1 | ⟨h1, _, _⟩ <;>
    simp only [h1, bind, Except.bind, pure, Except.pure] at hok
  swap
  · cases hok
  rcases DCHECK_cases c c.on_valid_thread with h2 | ⟨h2, _, _⟩ <;>
    simp only [CheckOnValidThread, h2] at hok
  swap
  · cases hok
  rcases DCHECK_cases c (IsInIdlePeriod ns) with h3 | ⟨h3, _, _⟩ <;>
    simp only [h3] at hok
  swap
  · cases hok
  split at hok
  · cases hok
    left
    exact ⟨by assumption, rfl⟩
  · right
    refine ⟨by assumption, ?_⟩
    have hu := UpdateState_summary c ns deadline now _ h' hok
    rcases hu with ⟨hq, hf, hp, hcase⟩
    refine ⟨by simpa using hq, by simpa using hf, by simpa using hp, ?_⟩
    rcases hcase with ⟨he, hh⟩ | ⟨hne, hs, hd⟩
    · left
      subst hh
      exact ⟨by simpa using he, rfl, rfl, rfl⟩
    · right
      exact ⟨by simpa using hne, hs, hd⟩

theorem StartIdlePeriod_from_not_idle (cfg : Config) (c : Caller) (ns : IdlePeriodState)
    (now deadline : TimeTicks) (h : Helper) (hc : c.passes)
    (hgt : deadline > now) (hns : ns ≠ .NOT_IN_IDLE_PERIOD)
    (hs : h.idle_period_state_ = .NOT_IN_IDLE_PERIOD)
    (hmin : ¬ deadline - now < FromMilliseconds cfg.kMinimumIdlePeriodDurationMillis) :
    StartIdlePeriod cfg c ns now deadline h =
      .ok { h with idle_period_state_ := ns, idle_period_deadline_ := deadline,
                   idle_queue_enabled := true, fences_inserted := h.fences_inserted + 1,
                   calls := h.calls ++ [.OnIdlePeriodStarted] } := by
  unfold StartIdlePeriod
  have h1 : DCHECK c (decide (deadline > now)) = .ok () := by
    rw [decide_eq_true hgt]; exact DCHECK_true c
  have h3 : DCHECK c (IsInIdlePeriod ns) = .ok () := by
    rw [(IsInIdlePeriod_iff ns).2 hns]; exact DCHECK_true c
  simp only [h1, h3, CheckOnValidThread_ok c hc, bind, Except.bind, pure, Except.pure]
  rw [if_neg hmin]
  rw [UpdateState_from_not_idle c ns deadline now _ hc (by simpa using hs) hns]

theorem ShouldWaitForQuiescence_summary (cfg : Config) (c : Caller) (env : LongIdleEnv)
    (h h2 : Helper) (w : Bool) (hok : ShouldWaitForQuiescence cfg c env h = .ok (w, h2)) :
    h2.idle_period_state_ = h.idle_period_state_ ∧
    h2.idle_period_deadline_ = h.idle_period_deadline_ ∧
    h2.idle_queue_enabled = h.idle_queue_enabled ∧
    h2.fences_inserted = h.fences_inserted ∧ h2.posted = h.posted ∧
    ((w = false ∧ h2 = h ∧ (env.IsShutdown_quiescence = true ∨
        cfg.required_quiescence_duration_before_long_idle_period_ = 0)) ∨
     (env.IsShutdown_quiescence = false ∧
        cfg.required_quiescence_duration_before_long_idle_period_ ≠ 0 ∧
        w = !env.system_is_quiescent ∧
        h2.calls = h.calls ++ [.GetAndClearSystemIsQuiescentBit])) := by
  by_cases hc : c.passes
  swap
  · simp [ShouldWaitForQuiescence, CheckOnValidThread_error c hc, bind, Except.bind] at hok
  rw [ShouldWaitForQuiescence_ok cfg c env h hc] at hok
  by_cases hq : env.IsShutdown_quiescence = true ∨
      cfg.required_quiescence_duration_before_long_idle_period_ = 0
  · rw [if_pos hq] at hok
    cases hok
    simp [hq]
  · rw [if_neg hq] at hok
    cases hok
    simp only [not_or] at hq
    simp [hq]

theorem ComputeNewLongIdlePeriodState_summary (cfg : Config) (c : Caller) (env : LongIdleEnv)
    (now : TimeTicks) (d0 d : TimeDelta) (st : IdlePeriodState) (h h3 : Helper)
    (hok : ComputeNewLongIdlePeriodState cfg c env now d0 h = .ok ((st, d), h3)) :
    h3 = { h with calls := h.calls ++ [.CanEnterLongIdlePeriod now] } ∧
    (((env.CanEnterLongIdlePeriod now).1 = false ∧ st = .NOT_IN_IDLE_PERIOD ∧
        d = (env.CanEnterLongIdlePeriod now).2.getD d0) ∨
     ((env.CanEnterLongIdlePeriod now).1 = true ∧
        long_idle_period_duration cfg env now ≥
          FromMilliseconds cfg.kMinimumIdlePeriodDurationMillis ∧
        d = long_idle_period_duration cfg env now ∧
        st ≠ .NOT_IN_IDLE_PERIOD ∧ IsInLongIdlePeriod st = true ∧
        st = (if env.HasPendingImmediateWork = false then .IN_LONG_IDLE_PERIOD_PAUSED
              else if long_idle_period_duration cfg env now =
                  FromMilliseconds cfg.kMaximumIdlePeriodMillis then
                .IN_LONG_IDLE_PERIOD_WITH_MAX_DEADLINE
              else .IN_LONG_IDLE_PERIOD)) ∨
     ((env.CanEnterLongIdlePeriod now).1 = true ∧
        ¬ long_idle_period_duration cfg env now ≥
          FromMilliseconds cfg.kMinimumIdlePeriodDurationMillis ∧
        st = .NOT_IN_IDLE_PERIOD ∧
        d = FromMilliseconds cfg.kRetryEnableLongIdlePeriodDelayMillis)) := by
  by_cases hc : c.passes
  swap
  · simp [ComputeNewLongIdlePeriodState, CheckOnValidThread_error c hc, bind, Except.bind]
      at hok
  rw [ComputeNewLongIdlePeriodState_ok cfg c env now d0 h hc] at hok
  by_cases h1 : (env.CanEnterLongIdlePeriod now).1 = false
  · rw [if_pos h1] at hok
    cases hok
    exact ⟨rfl, Or.inl ⟨h1, rfl, rfl⟩⟩
  · have h1' : (env.CanEnterLongIdlePeriod now).1 = true := by simpa using h1
    rw [if_neg h1] at hok
    by_cases h2 : long_idle_period_duration cfg env now ≥
        FromMilliseconds cfg.kMinimumIdlePeriodDurationMillis
    · rw [if_pos h2] at hok
      cases hok
      refine ⟨rfl, Or.inr (Or.inl ⟨h1', h2, rfl, ?_, ?_, rfl⟩)⟩
      · split <;> [simp; (split <;> simp)]
      · split <;> [rfl; (split <;> rfl)]
    · rw [if_neg h2] at hok
      cases hok
      exact ⟨rfl, Or.inr (Or.inr ⟨h1', h2, rfl, rfl⟩)⟩

/-! ## `EnableLongIdlePeriod` -/

theorem EnableLongIdlePeriod_error (cfg : Config) (c : Caller) (env : LongIdleEnv)
    (h : Helper) (hc : ¬ c.passes) :
    EnableLongIdlePeriod cfg c env h = .error .DCHECK := by
  simp [EnableLongIdlePeriod, CheckOnValidThread_error c hc, bind, Except.bind]

theorem EnableLongIdlePeriod_shutdown (cfg : Config) (c : Caller) (env : LongIdleEnv)
    (h : Helper) (hc : c.passes) (hsd : env.IsShutdown = true) :
    EnableLongIdlePeriod cfg c env h = .ok h := by
  simp [EnableLongIdlePeriod, CheckOnValidThread_ok c hc, bind, Except.bind, hsd, pure,
    Except.pure]

theorem EnableLongIdlePeriod_steps (cfg : Config) (c : Caller) (env : LongIdleEnv)
    (h h1 h2 h3 : Helper) (w : Bool) (st : IdlePeriodState) (d : TimeDelta)
    (hc : c.passes) (hsd : env.IsShutdown = false)
    (hend : EndIdlePeriod c h = .ok h1)
    (hwait : ShouldWaitForQuiescence cfg c env h1 = .ok (w, h2))
    (hcomp : ComputeNewLongIdlePeriodState cfg c env env.NowTicks 0 h2 = .ok ((st, d), h3)) :
    EnableLongIdlePeriod cfg c env h =
      if w = true then
        .ok { h2 with
          posted := h2.posted ++ [⟨.enable_next_long_idle_period_closure_,
            cfg.required_quiescence_duration_before_long_idle_period_⟩],
          calls := h2.calls ++ [.IsNotQuiescent] }
      else if IsInIdlePeriod st = true then
        StartIdlePeriod cfg c st env.NowTicks (env.NowTicks + d) h3
      else
        .ok { h3 with posted := h3.posted ++ [⟨.enable_next_long_idle_period_closure_, d⟩] } := by
  unfold EnableLongIdlePeriod
  simp only [CheckOnValidThread_ok c hc, hsd, hend, hwait, bind, Except.bind, pure,
    Except.pure, PostDelayedTask]
  cases w
  · simp [hcomp]
  · simp

theorem EnableLongIdlePeriod_summary (cfg : Config) (c : Caller) (env : LongIdleEnv)
    (h h' : Helper) (hok : EnableLongIdlePeriod cfg c env h = .ok h') :
    c.passes ∧
    ((env.IsShutdown = true ∧ h' = h) ∨
     (env.IsShutdown = false ∧ ∃ h1, EndIdlePeriod c h = .ok h1 ∧
       ((h'.idle_period_state_ = .NOT_IN_IDLE_PERIOD ∧
         h'.idle_period_deadline_ = h1.idle_period_deadline_ ∧
         h'.idle_queue_enabled = h1.idle_queue_enabled ∧
         h'.fences_inserted = h1.fences_inserted ∧
         ∃ d, h'.posted = [⟨.enable_next_long_idle_period_closure_, d⟩]) ∨
        (h'.idle_period_state_ ≠ .NOT_IN_IDLE_PERIOD ∧
         IsInLongIdlePeriod h'.idle_period_state_ = true ∧
         h'.idle_period_deadline_ =
           env.NowTicks + long_idle_period_duration cfg env env.NowTicks ∧
         long_idle_period_duration cfg env env.NowTicks ≥
           FromMilliseconds cfg.kMinimumIdlePeriodDurationMillis ∧
         h'.idle_queue_enabled = true ∧
         h'.fences_inserted = h1.fences_inserted + 1 ∧
         h'.posted = [])))) := by
  by_cases hc : c.passes
  swap
  · rw [EnableLongIdlePeriod_error cfg c env h hc] at hok
    cases hok
  refine ⟨hc, ?_⟩
  cases hsd : env.IsShutdown
  swap
  · rw [EnableLongIdlePeriod_shutdown cfg c env h hc hsd] at hok
    cases hok
    exact Or.inl ⟨rfl, rfl⟩
  right
  refine ⟨rfl, ?_⟩
  cases hend : EndIdlePeriod c h with
  | error e =>
    simp [EnableLongIdlePeriod, CheckOnValidThread_ok c hc, hsd, hend, bind, Except.bind]
      at hok
  | ok h1 =>
    refine ⟨h1, rfl, ?_⟩
    obtain ⟨_, hs1, hp1, _, _, _⟩ := EndIdlePeriod_summary c h h1 hend
    have hwait := ShouldWaitForQuiescence_ok cfg c env h1 hc
    generalize hr : (if env.IsShutdown_quiescence = true ∨
      cfg.required_quiescence_duration_before_long_idle_period_ = 0 then (false, h1)
      else (!env.system_is_quiescent,
        { h1 with calls := h1.calls ++ [.GetAndClearSystemIsQuiescentBit] })) = r at hwait
    obtain ⟨w, h2⟩ := r
    obtain ⟨ws, wd, wq, wf, wp, _⟩ := ShouldWaitForQuiescence_summary cfg c env h1 h2 w hwait
    have hcomp := ComputeNewLongIdlePeriodState_ok cfg c env env.NowTicks 0 h2 hc
    generalize hr2 : (if (env.CanEnterLongIdlePeriod env.NowTicks).1 = false then
              (IdlePeriodState.NOT_IN_IDLE_PERIOD,
                (env.CanEnterLongIdlePeriod env.NowTicks).2.getD 0)
            else if long_idle_period_duration cfg env env.NowTicks ≥
                FromMilliseconds cfg.kMinimumIdlePeriodDurationMillis then
              (if env.HasPendingImmediateWork = false then
                 IdlePeriodState.IN_LONG_IDLE_PERIOD_PAUSED
               else if long_idle_period_duration cfg env env.NowTicks =
                   FromMilliseconds cfg.kMaximumIdlePeriodMillis then
                 IdlePeriodState.IN_LONG_IDLE_PERIOD_WITH_MAX_DEADLINE
               else IdlePeriodState.IN_LONG_IDLE_PERIOD,
               long_idle_period_duration cfg env env.NowTicks)
            else
              (IdlePeriodState.NOT_IN_IDLE_PERIOD,
               FromMilliseconds cfg.kRetryEnableLongIdlePeriodDelayMillis)) = r2 at hcomp
    obtain ⟨st, d⟩ := r2
    obtain ⟨h3eq, hcase⟩ :=
      ComputeNewLongIdlePeriodState_summary cfg c env env.NowTicks 0 d st h2 _ hcomp
    rw [EnableLongIdlePeriod_steps cfg c env h h1 h2 _ w st d hc hsd hend hwait hcomp] at hok
    split at hok
    · -- waiting for quiescence
      cases hok
      left
      simp [ws, wd, wq, wf, wp, hs1, hp1]
    · split at hok
      · -- an idle period is started
        rename_i hw hidle
        have hst := StartIdlePeriod_summary cfg c _ _ _ _ h' hok
        have hne : st ≠ .NOT_IN_IDLE_PERIOD := (IsInIdlePeriod_iff st).1 hidle
        rcases hcase with ⟨_, hn, _⟩ | ⟨_, hdur, hd, _, hlong, _⟩ | ⟨_, _, hn, _⟩
        · exact absurd hn hne
        · subst hd
          have hsub : env.NowTicks + long_idle_period_duration cfg env env.NowTicks
              - env.NowTicks = long_idle_period_duration cfg env env.NowTicks := by ring
          rw [hsub] at hst
          rcases hst with ⟨hlt, _⟩ | ⟨_, hq, hf, hp, hcase2⟩
          · exact absurd hlt (not_lt.2 hdur)
          · right
            simp only [ws, hs1] at hcase2
            rcases hcase2 with ⟨he, _⟩ | ⟨_, hs, hdl⟩
            · exact absurd he hne
            · rw [hs]
              refine ⟨hne, hlong, hdl, hdur, hq, ?_, ?_⟩
              · rw [hf]; simp [wf]
              · rw [hp]; simp [wp, hp1]
        · exact absurd hn hne
      · -- retry later
        cases hok
        left
        simp [ws, wd, wq, wf, wp, hs1, hp1]

/-! ## Preservation of the two invariants by every call -/

theorem invariants_congr (h h' : Helper)
    (hs : h'.idle_period_state_ = h.idle_period_state_)
    (hd : h'.idle_period_deadline_ = h.idle_period_deadline_)
    (hq : h'.idle_queue_enabled = h.idle_queue_enabled)
    (hinv : QueueInvariant h ∧ DeadlineInvariant h) :
    QueueInvariant h' ∧ DeadlineInvariant h' := by
  unfold QueueInvariant DeadlineInvariant at *
  rw [hs, hd, hq]
  exact hinv

theorem invariants_construct : QueueInvariant construct ∧ DeadlineInvariant construct := by
  simp [QueueInvariant, DeadlineInvariant, construct]

theorem EndIdlePeriod_invariants (c : Caller) (h h' : Helper)
    (hok : EndIdlePeriod c h = .ok h') (hinv : QueueInvariant h ∧ DeadlineInvariant h) :
    QueueInvariant h' ∧ DeadlineInvariant h' := by
  obtain ⟨_, hs, _, _, h0, h1⟩ := EndIdlePeriod_summary c h h' hok
  unfold QueueInvariant DeadlineInvariant at *
  by_cases hn : h.idle_period_state_ = .NOT_IN_IDLE_PERIOD
  · obtain ⟨hd, hq, _⟩ := h0 hn
    rw [hs, hd, hq]
    rw [hn] at hinv
    exact hinv
  · obtain ⟨hd, hq, _⟩ := h1 hn
    rw [hs, hd, hq]
    simp

theorem StartIdlePeriod_invariants (cfg : Config) (c : Caller) (ns : IdlePeriodState)
    (now deadline : TimeTicks) (h h' : Helper)
    (hok : StartIdlePeriod cfg c ns now deadline h = .ok h')
    (hns : IsInIdlePeriod ns = true) (hinv : QueueInvariant h ∧ DeadlineInvariant h) :
    QueueInvariant h' ∧ DeadlineInvariant h' := by
  have hne : ns ≠ .NOT_IN_IDLE_PERIOD := (IsInIdlePeriod_iff ns).1 hns
  rcases StartIdlePeriod_summary cfg c ns now deadline h h' hok with
    ⟨_, he⟩ | ⟨_, hq, _, _, hcase⟩
  · rw [he]; exact hinv
  · unfold QueueInvariant DeadlineInvariant at *
    rcases hcase with ⟨he, hs, _, _⟩ | ⟨_, hs, _⟩
    · rw [hs, hq, ← he]
      simp [hne]
    · rw [hs, hq]
      simp [hne]

theorem EnableLongIdlePeriod_invariants (cfg : Config) (c : Caller) (env : LongIdleEnv)
    (h h' : Helper) (hok : EnableLongIdlePeriod cfg c env h = .ok h')
    (hinv : QueueInvariant h ∧ DeadlineInvariant h) :
    QueueInvariant h' ∧ DeadlineInvariant h' := by
  obtain ⟨_, hcase⟩ := EnableLongIdlePeriod_summary cfg c env h h' hok
  rcases hcase with ⟨_, he⟩ | ⟨_, h1, hend, hcase⟩
  · rw [he]; exact hinv
  · have hinv1 := EndIdlePeriod_invariants c h h1 hend hinv
    obtain ⟨_, hs1, _⟩ := EndIdlePeriod_summary c h h1 hend
    rcases hcase with ⟨hs, hd, hq, _⟩ | ⟨hs, _, _, _, hq, _⟩
    · exact invariants_congr h1 h' (by rw [hs, hs1]) hd hq hinv1
    · unfold QueueInvariant DeadlineInvariant
      simp [hs, hq]

theorem DidProcessTask_cases (cfg : Config) (c : Caller) (env : TaskEnv) (h : Helper)
    (hc : c.passes) :
    DidProcessTask cfg c env h =
      if IsInIdlePeriod h.idle_period_state_ = true ∧
          h.idle_period_state_ ≠ .IN_LONG_IDLE_PERIOD_PAUSED ∧
          env.NowTicks ≥ h.idle_period_deadline_ then
        if IsInLongIdlePeriod h.idle_period_state_ = true then
          EnableLongIdlePeriod cfg c env.enable h
        else
          EndIdlePeriod c h
      else
        .ok h := by
  unfold DidProcessTask
  simp only [CheckOnValidThread_ok c hc, idle_period_state_ok c h hc,
    idle_period_deadline_ok c h hc, bind, Except.bind, pure, Except.pure]
  by_cases hd : env.NowTicks ≥ h.idle_period_deadline_
  · cases hs : h.idle_period_state_ <;>
      simp [IsInIdlePeriod, IsInLongIdlePeriod, hd, DCHECK_true]
  · cases hs : h.idle_period_state_ <;>
      simp [IsInIdlePeriod, IsInLongIdlePeriod, hd]

theorem DidProcessTask_error (cfg : Config) (c : Caller) (env : TaskEnv) (h : Helper)
    (hc : ¬ c.passes) : DidProcessTask cfg c env h = .error .DCHECK := by
  simp [DidProcessTask, CheckOnValidThread_error c hc, bind, Except.bind]

theorem DidProcessTask_invariants (cfg : Config) (c : Caller) (env : TaskEnv)
    (h h' : Helper) (hok : DidProcessTask cfg c env h = .ok h')
    (hinv : QueueInvariant h ∧ DeadlineInvariant h) :
    QueueInvariant h' ∧ DeadlineInvariant h' := by
  by_cases hc : c.passes
  swap
  · rw [DidProcessTask_error cfg c env h hc] at hok
    cases hok
  rw [DidProcessTask_cases cfg c env h hc] at hok
  split at hok
  · split at hok
    · exact EnableLongIdlePeriod_invariants cfg c env.enable h h' hok hinv
    · exact EndIdlePeriod_invariants c h h' hok hinv
  · cases hok
    exact hinv

theorem OnIdleTaskPostedOnMainThread_cases (c : Caller) (h : Helper) (hc : c.passes) :
    OnIdleTaskPostedOnMainThread c h =
      if h.idle_period_state_ = .IN_LONG_IDLE_PERIOD_PAUSED then
        .ok { h with posted := h.posted ++ [⟨.enable_next_long_idle_period_closure_, 0⟩] }
      else
        .ok h := by
  unfold OnIdleTaskPostedOnMainThread
  simp only [idle_period_state_ok c h hc, bind, Except.bind, pure, Except.pure, PostTask,
    PostDelayedTask]

theorem OnIdleTaskPostedOnMainThread_error (c : Caller) (h : Helper) (hc : ¬ c.passes) :
    OnIdleTaskPostedOnMainThread c h = .error .DCHECK := by
  simp [OnIdleTaskPostedOnMainThread, idle_period_state, CheckOnValidThread_error c hc, bind,
    Except.bind]

theorem OnIdleTaskPostedOnMainThread_summary (c : Caller) (h h' : Helper)
    (hok : OnIdleTaskPostedOnMainThread c h = .ok h') :
    h'.idle_period_state_ = h.idle_period_state_ ∧
    h'.idle_period_deadline_ = h.idle_period_deadline_ ∧
    h'.idle_queue_enabled = h.idle_queue_enabled ∧
    h'.fences_inserted = h.fences_inserted ∧ h'.calls = h.calls := by
  by_cases hc : c.passes
  swap
  · rw [OnIdleTaskPostedOnMainThread_error c h hc] at hok
    cases hok
  rw [OnIdleTaskPostedOnMainThread_cases c h hc] at hok
  split at hok <;> (cases hok; simp)

theorem OnIdleTaskPosted_summary (c : Caller) (b : Bool) (h h' : Helper)
    (hok : OnIdleTaskPosted c b h = .ok h') :
    h'.idle_period_state_ = h.idle_period_state_ ∧
    h'.idle_period_deadline_ = h.idle_period_deadline_ ∧
    h'.idle_queue_enabled = h.idle_queue_enabled ∧
    h'.fences_inserted = h.fences_inserted ∧ h'.calls = h.calls := by
  cases b
  · simp only [OnIdleTaskPosted, PostTask, PostDelayedTask, pure, Except.pure] at hok
    simp at hok
    cases hok
    simp
  · simp only [OnIdleTaskPosted, if_true] at hok
    exact OnIdleTaskPostedOnMainThread_summary c h h' hok

theorem UpdateLongIdlePeriodStateAfterIdleTask_cases (cfg : Config) (c : Caller)
    (env : IdleTaskEnv) (h : Helper) (hc : c.passes)
    (hlong : IsInLongIdlePeriod h.idle_period_state_ = true) :
    UpdateLongIdlePeriodStateAfterIdleTask cfg c env h =
      if env.HasPendingImmediateWork = false then
        UpdateState c .IN_LONG_IDLE_PERIOD_PAUSED h.idle_period_deadline_ 0 h
      else if env.BlockedByFence = true then
        if h.idle_period_state_ = .IN_LONG_IDLE_PERIOD_WITH_MAX_DEADLINE ∨
            h.idle_period_deadline_ - env.NowTicks ≤ 0 then
          EnableLongIdlePeriod cfg c env.enable h
        else
          .ok { h with posted := h.posted ++
            [⟨.enable_next_long_idle_period_closure_, h.idle_period_deadline_ - env.NowTicks⟩] }
      else
        .ok h := by
  unfold UpdateLongIdlePeriodStateAfterIdleTask
  simp only [CheckOnValidThread_ok c hc, idle_period_state_ok c h hc,
    idle_period_deadline_ok c h hc, hlong, DCHECK_true, bind, Except.bind, pure,
    Except.pure, PostDelayedTask]
  cases hw : env.HasPendingImmediateWork
  · simp
  · cases hb : env.BlockedByFence
    · simp
    · by_cases hm : h.idle_period_state_ = .IN_LONG_IDLE_PERIOD_WITH_MAX_DEADLINE
      · simp [hm]
      · by_cases hd : h.idle_period_deadline_ - env.NowTicks ≤ 0
        · have h0 : max 0 (h.idle_period_deadline_ - env.NowTicks) = 0 := max_eq_left hd
          simp [hm, hd, h0]
        · have h0 : max 0 (h.idle_period_deadline_ - env.NowTicks) =
              h.idle_period_deadline_ - env.NowTicks := max_eq_right (le_of_lt (not_le.1 hd))
          have h1 : ¬ h.idle_period_deadline_ - env.NowTicks = 0 := fun he => hd (le_of_eq he)
          simp [hm, hd, h0, h1]

theorem UpdateLongIdlePeriodStateAfterIdleTask_invariants (cfg : Config) (c : Caller)
    (env : IdleTaskEnv) (h h' : Helper)
    (hok : UpdateLongIdlePeriodStateAfterIdleTask cfg c env h = .ok h')
    (hlong : IsInLongIdlePeriod h.idle_period_state_ = true)
    (hinv : QueueInvariant h ∧ DeadlineInvariant h) :
    QueueInvariant h' ∧ DeadlineInvariant h' := by
  by_cases hc : c.passes
  swap
  · simp [UpdateLongIdlePeriodStateAfterIdleTask, CheckOnValidThread_error c hc, bind,
      Except.bind] at hok
  rw [UpdateLongIdlePeriodStateAfterIdleTask_cases cfg c env h hc hlong] at hok
  split at hok
  · obtain ⟨hq, _, _, hcase⟩ := UpdateState_summary c _ _ _ h h' hok
    rcases hcase with ⟨_, he⟩ | ⟨_, hs, _⟩
    · rw [he]; exact hinv
    · have hne : h.idle_period_state_ ≠ .NOT_IN_IDLE_PERIOD :=
        (IsInIdlePeriod_iff _).1 (IsInIdlePeriod_of_long _ hlong)
      unfold QueueInvariant DeadlineInvariant at *
      rw [hs, hq]
      simp
      exact hinv.1.2 hne
  · split at hok
    · split at hok
      · exact EnableLongIdlePeriod_invariants cfg c env.enable h h' hok hinv
      · cases hok
        exact invariants_congr h _ rfl rfl rfl hinv
    · cases hok
      exact hinv

theorem DidProcessIdleTask_invariants (cfg : Config) (c : Caller) (env : IdleTaskEnv)
    (h h' : Helper) (hok : DidProcessIdleTask cfg c env h = .ok h')
    (hinv : QueueInvariant h ∧ DeadlineInvariant h) :
    QueueInvariant h' ∧ DeadlineInvariant h' := by
  by_cases hc : c.passes
  swap
  · simp [DidProcessIdleTask, CheckOnValidThread_error c hc, bind, Except.bind] at hok
  unfold DidProcessIdleTask at hok
  simp only [CheckOnValidThread_ok c hc, idle_period_state_ok c h hc, bind, Except.bind,
    pure, Except.pure] at hok
  split at hok
  · rename_i hlong
    exact UpdateLongIdlePeriodStateAfterIdleTask_invariants cfg c env h h' hok hlong hinv
  · cases hok
    exact hinv

theorem map_const_ok {α : Type} (x : Except Fatal α) (h h' : Helper)
    (hok : x.map (fun _ => h) = .ok h') : h' = h := by
  cases x with
  | error e => simp [Except.map] at hok
  | ok a => simp [Except.map] at hok; exact hok.symm

theorem RunPostedTask_invariants (cfg : Config) (c : Caller) (index : Nat)
    (env : LongIdleEnv) (h h' : Helper) (hok : RunPostedTask cfg c index env h = .ok h')
    (hinv : QueueInvariant h ∧ DeadlineInvariant h) :
    QueueInvariant h' ∧ DeadlineInvariant h' := by
  unfold RunPostedTask at hok
  split at hok
  · cases hok
    exact hinv
  · have hinv1 : QueueInvariant { h with posted := h.posted.eraseIdx index } ∧
        DeadlineInvariant { h with posted := h.posted.eraseIdx index } :=
      invariants_congr h _ rfl rfl rfl hinv
    split at hok
    · exact EnableLongIdlePeriod_invariants cfg c env _ h' hok hinv1
    · obtain ⟨hs, hd, hq, _⟩ := OnIdleTaskPostedOnMainThread_summary c _ h' hok
      exact invariants_congr _ h' hs hd hq hinv1

theorem step_invariants (cfg : Config) (c : Caller) (op : Op) (h h' : Helper)
    (hpre : op.precondition) (hok : step cfg c op h = .ok h')
    (hinv : QueueInvariant h ∧ DeadlineInvariant h) :
    QueueInvariant h' ∧ DeadlineInvariant h' := by
  cases op with
  | EnableLongIdlePeriod env => exact EnableLongIdlePeriod_invariants cfg c env h h' hok hinv
  | StartIdlePeriod ns now deadline =>
    exact StartIdlePeriod_invariants cfg c ns now deadline h h' hok hpre.2 hinv
  | EndIdlePeriod => exact EndIdlePeriod_invariants c h h' hok hinv
  | WillProcessTask =>
    simp only [step, WillProcessTask, pure, Except.pure] at hok
    cases hok
    exact hinv
  | DidProcessTask env => exact DidProcessTask_invariants cfg c env h h' hok hinv
  | WillProcessIdleTask => rw [map_const_ok _ h h' hok]; exact hinv
  | DidProcessIdleTask env => exact DidProcessIdleTask_invariants cfg c env h h' hok hinv
  | OnIdleTaskPosted b =>
    obtain ⟨hs, hd, hq, _⟩ := OnIdleTaskPosted_summary c b h h' hok
    exact invariants_congr h h' hs hd hq hinv
  | CurrentIdleTaskDeadline => rw [map_const_ok _ h h' hok]; exact hinv
  | CanExceedIdleDeadlineIfRequired => rw [map_const_ok _ h h' hok]; exact hinv
  | SchedulerIdlePeriodState => rw [map_const_ok _ h h' hok]; exact hinv
  | RunPostedTask index env => exact RunPostedTask_invariants cfg c index env h h' hok hinv

theorem run_invariants (cfg : Config) (calls : List (Caller × Op)) :
    ∀ (h h' : Helper), (∀ p ∈ calls, p.2.precondition) → run cfg calls h = .ok h' →
      QueueInvariant h ∧ DeadlineInvariant h → QueueInvariant h' ∧ DeadlineInvariant h' := by
  induction calls with
  | nil =>
    intro h h' _ hok hinv
    simp only [run, pure, Except.pure] at hok
    cases hok
    exact hinv
  | cons p rest ih =>
    intro h h' hpre hok hinv
    obtain ⟨c, op⟩ := p
    simp only [run] at hok
    cases hstep : step cfg c op h with
    | error e => rw [hstep] at hok; simp [Except.bind] at hok
    | ok h1 =>
      rw [hstep] at hok
      simp only [Except.bind] at hok
      have hinv1 := step_invariants cfg c op h h1
        (hpre (c, op) (List.mem_cons_self _ _)) hstep hinv
      exact ih h1 h' (fun p hp => hpre p (List.mem_cons_of_mem _ hp)) hok hinv1

/-! ## Exact results of `EnableLongIdlePeriod` when it does not wait for quiescence -/

theorem EndIdlePeriod_total (c : Caller) (h : Helper) (hc : c.passes) :
    ∃ h1, EndIdlePeriod c h = .ok h1 := by
  by_cases hs : h.idle_period_state_ = .NOT_IN_IDLE_PERIOD
  · exact ⟨_, EndIdlePeriod_not_idle c h hc hs⟩
  · exact ⟨_, EndIdlePeriod_idle c h hc hs⟩

theorem EnableLongIdlePeriod_no_wait (cfg : Config) (c : Caller) (env : LongIdleEnv)
    (h : Helper) (hc : c.passes) (hsd : env.IsShutdown = false)
    (hnowait : env.IsShutdown_quiescence = true ∨
      cfg.required_quiescence_duration_before_long_idle_period_ = 0 ∨
      env.system_is_quiescent = true) :
    ∃ h2 : Helper,
      EnableLongIdlePeriod cfg c env h =
        (if (env.CanEnterLongIdlePeriod env.NowTicks).1 = true ∧
            long_idle_period_duration cfg env env.NowTicks ≥
              FromMilliseconds cfg.kMinimumIdlePeriodDurationMillis then
          StartIdlePeriod cfg c
            (if env.HasPendingImmediateWork = false then .IN_LONG_IDLE_PERIOD_PAUSED
             else if long_idle_period_duration cfg env env.NowTicks =
                 FromMilliseconds cfg.kMaximumIdlePeriodMillis then
               .IN_LONG_IDLE_PERIOD_WITH_MAX_DEADLINE
             else .IN_LONG_IDLE_PERIOD)
            env.NowTicks (env.NowTicks + long_idle_period_duration cfg env env.NowTicks) h2
        else
          .ok { h2 with posted := h2.posted ++ [⟨.enable_next_long_idle_period_closure_,
            if (env.CanEnterLongIdlePeriod env.NowTicks).1 = false then
              (env.CanEnterLongIdlePeriod env.NowTicks).2.getD 0
            else FromMilliseconds cfg.kRetryEnableLongIdlePeriodDelayMillis⟩] }) ∧
      h2.idle_period_state_ = .NOT_IN_IDLE_PERIOD ∧
      h2.idle_period_deadline_ =
        (if h.idle_period_state_ = .NOT_IN_IDLE_PERIOD then h.idle_period_deadline_ else 0) ∧
      h2.idle_queue_enabled =
        (if h.idle_period_state_ = .NOT_IN_IDLE_PERIOD then h.idle_queue_enabled else false) ∧
      h2.fences_inserted = h.fences_inserted ∧ h2.posted = [] ∧
      ∃ l, h2.calls = h.calls ++ l ++ [.CanEnterLongIdlePeriod env.NowTicks] ∧
        Call.OnIdlePeriodStarted ∉ l := by
  obtain ⟨h1, hend⟩ := EndIdlePeriod_total c h hc
  obtain ⟨_, hs1, hp1, hf1, hnot, hidle⟩ := EndIdlePeriod_summary c h h1 hend
  have hwait := ShouldWaitForQuiescence_ok cfg c env h1 hc
  generalize hr : (if env.IsShutdown_quiescence = true ∨
      cfg.required_quiescence_duration_before_long_idle_period_ = 0 then (false, h1)
      else (!env.system_is_quiescent,
        { h1 with calls := h1.calls ++ [.GetAndClearSystemIsQuiescentBit] })) = r at hwait
  obtain ⟨w, h2⟩ := r
  obtain ⟨ws, wd, wq, wf, wp, wcase⟩ :=
    ShouldWaitForQuiescence_summary cfg c env h1 h2 w hwait
  have hw : w = false := by
    rcases wcase with ⟨hw, _⟩ | ⟨hq1, hq2, hw, _⟩
    · exact hw
    · rcases hnowait with hq | hq | hq
      · rw [hq] at hq1; cases hq1
      · exact absurd hq hq2
      · rw [hw, hq]; rfl
  have hcalls : ∃ l0, h2.calls = h.calls ++ l0 ∧ Call.OnIdlePeriodStarted ∉ l0 := by
    have h21 : ∃ l1, h2.calls = h1.calls ++ l1 ∧ Call.OnIdlePeriodStarted ∉ l1 := by
      rcases wcase with ⟨_, he, _⟩ | ⟨_, _, _, hcl⟩
      · exact ⟨[], by rw [he]; simp, by simp⟩
      · exact ⟨[.GetAndClearSystemIsQuiescentBit], hcl, by simp⟩
    obtain ⟨l1, hl1, hn1⟩ := h21
    by_cases hs : h.idle_period_state_ = .NOT_IN_IDLE_PERIOD
    · exact ⟨l1, by rw [hl1, (hnot hs).2.2], hn1⟩
    · refine ⟨[.OnIdlePeriodEnded] ++ l1, by rw [hl1, (hidle hs).2.2]; simp, ?_⟩
      simp [hn1]
  obtain ⟨l0, hl0, hn0⟩ := hcalls
  have hcomp := ComputeNewLongIdlePeriodState_ok cfg c env env.NowTicks 0 h2 hc
  generalize hr2 : (if (env.CanEnterLongIdlePeriod env.NowTicks).1 = false then
            (IdlePeriodState.NOT_IN_IDLE_PERIOD,
              (env.CanEnterLongIdlePeriod env.NowTicks).2.getD 0)
          else if long_idle_period_duration cfg env env.NowTicks ≥
              FromMilliseconds cfg.kMinimumIdlePeriodDurationMillis then
            (if env.HasPendingImmediateWork = false then
               IdlePeriodState.IN_LONG_IDLE_PERIOD_PAUSED
             else if long_idle_period_duration cfg env env.NowTicks =
                 FromMilliseconds cfg.kMaximumIdlePeriodMillis then
               IdlePeriodState.IN_LONG_IDLE_PERIOD_WITH_MAX_DEADLINE
             else IdlePeriodState.IN_LONG_IDLE_PERIOD,
             long_idle_period_duration cfg env env.NowTicks)
          else
            (IdlePeriodState.NOT_IN_IDLE_PERIOD,
             FromMilliseconds cfg.kRetryEnableLongIdlePeriodDelayMillis)) = r2 at hcomp
  obtain ⟨st, d⟩ := r2
  obtain ⟨_, hcase⟩ :=
    ComputeNewLongIdlePeriodState_summary cfg c env env.NowTicks 0 d st h2 _ hcomp
  refine ⟨{ h2 with calls := h2.calls ++ [.CanEnterLongIdlePeriod env.NowTicks] },
    ?_, ?_, ?_, ?_, ?_, ?_, ?_⟩
  · rw [EnableLongIdlePeriod_steps cfg c env h h1 h2 _ w st d hc hsd hend hwait hcomp]
    rw [hw]
    simp only [Bool.false_eq_true, if_false]
    rcases hcase with ⟨hcan, hst, hd⟩ | ⟨hcan, hdur, hd, hne, _, hst⟩ | ⟨hcan, hdur, hst, hd⟩
    · rw [hst, hd]
      simp [IsInIdlePeriod, hcan]
    · rw [if_pos ((IsInIdlePeriod_iff st).2 hne), if_pos ⟨hcan, hdur⟩, ← hst, hd]
    · rw [hst, hd]
      simp [IsInIdlePeriod, hcan, hdur]
  · simpa using ws.trans hs1
  · simp only [wd]
    by_cases hs : h.idle_period_state_ = .NOT_IN_IDLE_PERIOD
    · rw [if_pos hs]; exact (hnot hs).1
    · rw [if_neg hs]; exact (hidle hs).1
  · simp only [wq]
    by_cases hs : h.idle_period_state_ = .NOT_IN_IDLE_PERIOD
    · rw [if_pos hs]; exact (hnot hs).2.1
    · rw [if_neg hs]; exact (hidle hs).2.1
  · simpa using wf.trans hf1
  · simpa using wp.trans hp1
  · exact ⟨l0, by simp [hl0], hn0⟩

/-! ## Every call returns when assertions are compiled out -/

theorem UpdateState_total (c : Caller) (ns : IdlePeriodState) (nd t0 : TimeTicks)
    (h : Helper) (hc : c.dcheck_is_on = false) : ∃ h', UpdateState c ns nd t0 h = .ok h' := by
  unfold UpdateState
  simp only [CheckOnValidThread, DCHECK_off c _ hc, bind, Except.bind, pure, Except.pure]
  split
  · exact ⟨_, rfl⟩
  · split
    · exact ⟨_, rfl⟩
    · split <;> exact ⟨_, rfl⟩

theorem StartIdlePeriod_total (cfg : Config) (c : Caller) (ns : IdlePeriodState)
    (now deadline : TimeTicks) (h : Helper) (hc : c.dcheck_is_on = false) :
    ∃ h', StartIdlePeriod cfg c ns now deadline h = .ok h' := by
  unfold StartIdlePeriod
  simp only [CheckOnValidThread, DCHECK_off c _ hc, bind, Except.bind, pure, Except.pure]
  split
  · exact ⟨_, rfl⟩
  · exact UpdateState_total c ns deadline now _ hc

theorem EnableLongIdlePeriod_total (cfg : Config) (c : Caller) (env : LongIdleEnv)
    (h : Helper) (hc : c.dcheck_is_on = false) :
    ∃ h', EnableLongIdlePeriod cfg c env h = .ok h' := by
  have hp := passes_of_off c hc
  cases hsd : env.IsShutdown
  · obtain ⟨h1, hend⟩ := EndIdlePeriod_total c h hp
    cases hw : ShouldWaitForQuiescence cfg c env h1 with
    | error e => rw [ShouldWaitForQuiescence_ok cfg c env h1 hp] at hw; cases hw
    | ok r =>
      obtain ⟨w, h2⟩ := r
      cases hcm : ComputeNewLongIdlePeriodState cfg c env env.NowTicks 0 h2 with
      | error e =>
        rw [ComputeNewLongIdlePeriodState_ok cfg c env env.NowTicks 0 h2 hp] at hcm
        cases hcm
      | ok r2 =>
        obtain ⟨⟨st, d⟩, h3⟩ := r2
        rw [EnableLongIdlePeriod_steps cfg c env h h1 h2 h3 w st d hp hsd hend hw hcm]
        split
        · exact ⟨_, rfl⟩
        · split
          · exact StartIdlePeriod_total cfg c st _ _ h3 hc
          · exact ⟨_, rfl⟩
  · exact ⟨h, EnableLongIdlePeriod_shutdown cfg c env h hp hsd⟩

theorem DidProcessTask_total (cfg : Config) (c : Caller) (env : TaskEnv) (h : Helper)
    (hc : c.dcheck_is_on = false) : ∃ h', DidProcessTask cfg c env h = .ok h' := by
  rw [DidProcessTask_cases cfg c env h (passes_of_off c hc)]
  split
  · split
    · exact EnableLongIdlePeriod_total cfg c env.enable h hc
    · exact EndIdlePeriod_total c h (passes_of_off c hc)
  · exact ⟨_, rfl⟩

theorem DidProcessIdleTask_total (cfg : Config) (c : Caller) (env : IdleTaskEnv)
    (h : Helper) (hc : c.dcheck_is_on = false) :
    ∃ h', DidProcessIdleTask cfg c env h = .ok h' := by
  have hp := passes_of_off c hc
  unfold DidProcessIdleTask
  simp only [CheckOnValidThread_ok c hp, idle_period_state_ok c h hp, bind, Except.bind,
    pure, Except.pure]
  split
  · rename_i hlong
    rw [UpdateLongIdlePeriodStateAfterIdleTask_cases cfg c env h hp hlong]
    split
    · exact UpdateState_total c _ _ _ h hc
    · split
      · split
        · exact EnableLongIdlePeriod_total cfg c env.enable h hc
        · exact ⟨_, rfl⟩
      · exact ⟨_, rfl⟩
  · exact ⟨_, rfl⟩

theorem OnIdleTaskPostedOnMainThread_total (c : Caller) (h : Helper) (hc : c.passes) :
    ∃ h', OnIdleTaskPostedOnMainThread c h = .ok h' := by
  rw [OnIdleTaskPostedOnMainThread_cases c h hc]
  split <;> exact ⟨_, rfl⟩

theorem step_total (cfg : Config) (c : Caller) (op : Op) (h : Helper)
    (hc : c.dcheck_is_on = false) : ∃ h', step cfg c op h = .ok h' := by
  have hp := passes_of_off c hc
  cases op with
  | EnableLongIdlePeriod env => exact EnableLongIdlePeriod_total cfg c env h hc
  | StartIdlePeriod ns now deadline => exact StartIdlePeriod_total cfg c ns now deadline h hc
  | EndIdlePeriod => exact EndIdlePeriod_total c h hp
  | WillProcessTask => exact ⟨h, rfl⟩
  | DidProcessTask env => exact DidProcessTask_total cfg c env h hc
  | WillProcessIdleTask =>
    refine ⟨h, ?_⟩
    simp [step, WillProcessIdleTask, CurrentIdleTaskDeadline, CheckOnValidThread_ok c hp,
      idle_period_deadline_ok c h hp, bind, Except.bind, Except.map]
  | DidProcessIdleTask env => exact DidProcessIdleTask_total cfg c env h hc
  | OnIdleTaskPosted b =>
    cases b
    · exact ⟨_, rfl⟩
    · exact OnIdleTaskPostedOnMainThread_total c h hp
  | CurrentIdleTaskDeadline =>
    refine ⟨h, ?_⟩
    simp [step, CurrentIdleTaskDeadline, CheckOnValidThread_ok c hp,
      idle_period_deadline_ok c h hp, bind, Except.bind, Except.map]
  | CanExceedIdleDeadlineIfRequired =>
    refine ⟨h, ?_⟩
    simp [step, CanExceedIdleDeadlineIfRequired, CheckOnValidThread_ok c hp,
      idle_period_state_ok c h hp, bind, Except.bind, Except.map, pure, Except.pure]
  | SchedulerIdlePeriodState =>
    refine ⟨h, ?_⟩
    simp [step, SchedulerIdlePeriodState, idle_period_state_ok c h hp, Except.map]
  | RunPostedTask index env =>
    simp only [step, RunPostedTask]
    split
    · exact ⟨_, rfl⟩
    · split
      · exact EnableLongIdlePeriod_total cfg c env _ hc
      · exact OnIdleTaskPostedOnMainThread_total c _ hp

theorem run_total (cfg : Config) (calls : List (Caller × Op)) :
    ∀ (h : Helper), (∀ p ∈ calls, p.1.dcheck_is_on = false) →
      ∃ h', run cfg calls h = .ok h' := by
  induction calls with
  | nil => intro h _; exact ⟨h, rfl⟩
  | cons p rest ih =>
    intro h hoff
    obtain ⟨c, op⟩ := p
    obtain ⟨h1, hstep⟩ := step_total cfg c op h (hoff (c, op) (List.mem_cons_self _ _))
    obtain ⟨h', hrest⟩ := ih h1 (fun p hp => hoff p (List.mem_cons_of_mem _ hp))
    exact ⟨h', by simp only [run, hstep, Except.bind]; exact hrest⟩

/-! ## The claims -/

/-- Claim C1. After every call of every sequence of calls applied to a freshly constructed
helper (with `StartIdlePeriod` called with a deadline after `now` and an idle new state, and
whatever the collaborators answer), the state is one of the five `IdlePeriodState` values and
the idle queue is enabled if and only if the state is not `NOT_IN_IDLE_PERIOD`; and when
assertions are compiled out every such sequence runs to its end. -/
theorem C1_queue_enabled_iff_in_idle_period (cfg : Config) (calls : List (Caller × Op))
    (hpre : ∀ p ∈ calls, p.2.precondition) :
    (∀ (n : Nat) (h : Helper), run cfg (calls.take n) construct = .ok h →
      (h.idle_period_state_ = .NOT_IN_IDLE_PERIOD ∨
       h.idle_period_state_ = .IN_SHORT_IDLE_PERIOD ∨
       h.idle_period_state_ = .IN_LONG_IDLE_PERIOD ∨
       h.idle_period_state_ = .IN_LONG_IDLE_PERIOD_WITH_MAX_DEADLINE ∨
       h.idle_period_state_ = .IN_LONG_IDLE_PERIOD_PAUSED) ∧
      (h.idle_queue_enabled = true ↔ h.idle_period_state_ ≠ .NOT_IN_IDLE_PERIOD)) ∧
    ((∀ p ∈ calls, p.1.dcheck_is_on = false) → ∃ h, run cfg calls construct = .ok h) := by
  refine ⟨?_, fun hoff => run_total cfg calls construct hoff⟩
  intro n h hrun
  constructor
  · cases h.idle_period_state_ <;> simp
  · exact (run_invariants cfg (calls.take n) construct h
      (fun p hp => hpre p (List.mem_of_mem_take hp)) hrun invariants_construct).1

/-- Witness of C1 on the sample history, which ends paused with the idle queue enabled. -/
theorem C1_queue_enabled_iff_in_idle_period_witness :
    (∀ p ∈ sample_calls, p.2.precondition) ∧
    ∃ h, run scenario_config sample_calls construct = .ok h ∧
      h.idle_period_state_ = .IN_LONG_IDLE_PERIOD_PAUSED ∧
      (h.idle_queue_enabled = true ↔ h.idle_period_state_ ≠ .NOT_IN_IDLE_PERIOD) := by
  have hpre : ∀ p ∈ sample_calls, p.2.precondition := by
    intro p hp
    simp only [sample_calls, List.mem_cons, List.mem_singleton, List.not_mem_nil,
      or_false] at hp
    rcases hp with rfl | rfl | rfl | rfl | rfl | rfl <;>
      simp [Op.precondition, IsInIdlePeriod]
  exact ⟨hpre, _, rfl, rfl,
    ((C1_queue_enabled_iff_in_idle_period scenario_config sample_calls hpre).1 6 _ rfl).2⟩

/-- Claim C2. For every state, `EndIdlePeriod` (called on the controller thread, or with
assertions compiled out) returns, leaving no posted task of either cancelable closure; from an
idle state it disables the idle queue and sets the state to `NOT_IN_IDLE_PERIOD` with the null
deadline, notifying `OnIdlePeriodEnded` once; from `NOT_IN_IDLE_PERIOD` it leaves state,
deadline and enabled flag unchanged and calls nothing on the delegate. -/
theorem C2_EndIdlePeriod_effect (c : Caller) (h : Helper) (hc : c.passes) :
    ∃ h', EndIdlePeriod c h = .ok h' ∧
      h'.posted = [] ∧
      (IsInIdlePeriod h.idle_period_state_ = true →
        h'.idle_queue_enabled = false ∧
        h'.idle_period_state_ = .NOT_IN_IDLE_PERIOD ∧
        h'.idle_period_deadline_ = 0 ∧
        h'.calls = h.calls ++ [.OnIdlePeriodEnded]) ∧
      (h.idle_period_state_ = .NOT_IN_IDLE_PERIOD →
        h'.idle_period_state_ = h.idle_period_state_ ∧
        h'.idle_period_deadline_ = h.idle_period_deadline_ ∧
        h'.idle_queue_enabled = h.idle_queue_enabled ∧
        h'.calls = h.calls) := by
  obtain ⟨h', hend⟩ := EndIdlePeriod_total c h hc
  obtain ⟨_, hs, hp, _, hnot, hidle⟩ := EndIdlePeriod_summary c h h' hend
  refine ⟨h', hend, hp, ?_, ?_⟩
  · intro hin
    obtain ⟨hd, hq, hcl⟩ := hidle ((IsInIdlePeriod_iff _).1 hin)
    exact ⟨hq, hs, hd, hcl⟩
  · intro hn
    obtain ⟨hd, hq, hcl⟩ := hnot hn
    exact ⟨hs.trans hn.symm, hd, hq, hcl⟩

/-- Witness of C2: ending a long idle period with deadline 50ms and two posted tasks. -/
theorem C2_EndIdlePeriod_effect_witness :
    controller_thread.passes ∧
    ∃ h', EndIdlePeriod controller_thread
        { helper_in .IN_LONG_IDLE_PERIOD 50000 with
          posted := [⟨.enable_next_long_idle_period_closure_, 7000⟩,
                     ⟨.on_idle_task_posted_closure_, 0⟩] } = .ok h' ∧
      h'.posted = [] ∧ h'.idle_queue_enabled = false ∧
      h'.idle_period_state_ = .NOT_IN_IDLE_PERIOD ∧ h'.idle_period_deadline_ = 0 ∧
      h'.calls = [.OnIdlePeriodStarted, .OnIdlePeriodEnded] := by
  have hc : controller_thread.passes := fun _ => rfl
  obtain ⟨h', hend, hp, hidle, _⟩ := C2_EndIdlePeriod_effect controller_thread
    { helper_in .IN_LONG_IDLE_PERIOD 50000 with
      posted := [⟨.enable_next_long_idle_period_closure_, 7000⟩,
                 ⟨.on_idle_task_posted_closure_, 0⟩] } hc
  obtain ⟨hq, hs, hd, hcl⟩ := hidle rfl
  exact ⟨hc, h', hend, hp, hq, hs, hd, hcl⟩

/-- Claim C3. `EndIdlePeriod` is idempotent: for every helper state and caller, two calls in a
row give the result of one call; and on the controller thread (or with assertions compiled out)
both calls return and the second leaves the whole helper, including the posted tasks and the
record of delegate calls, as the first left it. -/
theorem C3_EndIdlePeriod_idempotent (c : Caller) (h : Helper) :
    (EndIdlePeriod c h).bind (EndIdlePeriod c) = EndIdlePeriod c h ∧
    (c.passes → ∃ h1, EndIdlePeriod c h = .ok h1 ∧ EndIdlePeriod c h1 = .ok h1) := by
  have key : c.passes → ∃ h1, EndIdlePeriod c h = .ok h1 ∧ EndIdlePeriod c h1 = .ok h1 := by
    intro hc
    obtain ⟨h1, hend⟩ := EndIdlePeriod_total c h hc
    obtain ⟨_, hs, hp, _⟩ := EndIdlePeriod_summary c h h1 hend
    refine ⟨h1, hend, ?_⟩
    rw [EndIdlePeriod_not_idle c h1 hc hs]
    rcases h1 with ⟨s1, d1, q1, f1, p1, c1⟩
    simp only at hp
    rw [hp]
  refine ⟨?_, key⟩
  by_cases hc : c.passes
  · obtain ⟨h1, hend, hend2⟩ := key hc
    rw [hend]
    exact hend2
  · rw [EndIdlePeriod_error c h hc]
    rfl

/-- Witness of C3: ending a short idle period twice. -/
theorem C3_EndIdlePeriod_idempotent_witness :
    controller_thread.passes ∧
    ∃ h1, EndIdlePeriod controller_thread (helper_in .IN_SHORT_IDLE_PERIOD 10000) = .ok h1 ∧
      EndIdlePeriod controller_thread h1 = .ok h1 :=
  ⟨fun _ => rfl,
    (C3_EndIdlePeriod_idempotent controller_thread
      (helper_in .IN_SHORT_IDLE_PERIOD 10000)).2 (fun _ => rfl)⟩

/-- Claim C4. For every state and clock reading, `DidProcessTask` (on the controller thread,
or with assertions compiled out) does the following: when the state is an idle state other than
`IN_LONG_IDLE_PERIOD_PAUSED` and `now >= deadline` (equality included) it is
`EnableLongIdlePeriod` in a long idle state and `EndIdlePeriod` in `IN_SHORT_IDLE_PERIOD`; in
every other case (not in an idle period, paused, or `now < deadline`) it changes nothing. -/
theorem C4_DidProcessTask_deadline_check (cfg : Config) (c : Caller) (env : TaskEnv)
    (h : Helper) (hc : c.passes) :
    (IsInIdlePeriod h.idle_period_state_ = true ∧
      h.idle_period_state_ ≠ .IN_LONG_IDLE_PERIOD_PAUSED ∧
      env.NowTicks ≥ h.idle_period_deadline_ →
        (IsInLongIdlePeriod h.idle_period_state_ = true →
          DidProcessTask cfg c env h = EnableLongIdlePeriod cfg c env.enable h) ∧
        (h.idle_period_state_ = .IN_SHORT_IDLE_PERIOD →
          DidProcessTask cfg c env h = EndIdlePeriod c h)) ∧
    (h.idle_period_state_ = .NOT_IN_IDLE_PERIOD ∨
      h.idle_period_state_ = .IN_LONG_IDLE_PERIOD_PAUSED ∨
      env.NowTicks < h.idle_period_deadline_ →
        DidProcessTask cfg c env h = .ok h) := by
  rw [DidProcessTask_cases cfg c env h hc]
  constructor
  · intro hcond
    rw [if_pos hcond]
    constructor
    · intro hlong
      rw [if_pos hlong]
    · intro hshort
      rw [if_neg (by rw [hshort]; simp [IsInLongIdlePeriod])]
  · intro hcond
    rw [if_neg]
    rintro ⟨hin, hnp, hge⟩
    rcases hcond with hn | hp | hlt
    · exact (IsInIdlePeriod_iff _).1 hin hn
    · exact hnp hp
    · exact absurd hge (not_le.2 hlt)

/-- Witness of C4 (scenario E): at 60ms, with deadline 50ms in `IN_LONG_IDLE_PERIOD`,
`DidProcessTask` runs `EnableLongIdlePeriod`, which starts a fresh period ending at 110ms. -/
theorem C4_DidProcessTask_deadline_check_witness :
    controller_thread.passes ∧
    DidProcessTask scenario_config controller_thread ⟨60000, scenario_env 60000 none true⟩
        (helper_in .IN_LONG_IDLE_PERIOD 50000) =
      EnableLongIdlePeriod scenario_config controller_thread (scenario_env 60000 none true)
        (helper_in .IN_LONG_IDLE_PERIOD 50000) ∧
    EnableLongIdlePeriod scenario_config controller_thread (scenario_env 60000 none true)
        (helper_in .IN_LONG_IDLE_PERIOD 50000) =
      .ok { idle_period_state_ := .IN_LONG_IDLE_PERIOD_WITH_MAX_DEADLINE
            idle_period_deadline_ := 110000
            idle_queue_enabled := true
            fences_inserted := 2
            posted := []
            calls := [.OnIdlePeriodStarted, .OnIdlePeriodEnded,
                      .CanEnterLongIdlePeriod 60000, .OnIdlePeriodStarted] } :=
  ⟨fun _ => rfl,
    ((C4_DidProcessTask_deadline_check scenario_config controller_thread
      ⟨60000, scenario_env 60000 none true⟩ (helper_in .IN_LONG_IDLE_PERIOD 50000)
      (fun _ => rfl)).1 ⟨rfl, by decide, by decide⟩).1 rfl,
    rfl⟩

/-- Claim C5. `OnIdleTaskPosted` never changes the idle period state, the deadline or the
queue enabled flag. When `RunsTasksOnCurrentThread()` holds (a call on the controller thread)
it posts exactly one zero-delay task of the re-enable closure in `IN_LONG_IDLE_PERIOD_PAUSED`
and changes nothing in every other state; otherwise it only posts one task of the
idle-task-posted closure on the control task runner. -/
theorem C5_OnIdleTaskPosted_effect (c : Caller) (h : Helper) (hc : c.passes) :
    OnIdleTaskPosted c true h =
      .ok (if h.idle_period_state_ = .IN_LONG_IDLE_PERIOD_PAUSED then
             { h with posted := h.posted ++ [⟨.enable_next_long_idle_period_closure_, 0⟩] }
           else h) ∧
    (∀ c' : Caller, OnIdleTaskPosted c' false h =
      .ok { h with posted := h.posted ++ [⟨.on_idle_task_posted_closure_, 0⟩] }) ∧
    (∀ (c' : Caller) (b : Bool) (h' : Helper), OnIdleTaskPosted c' b h = .ok h' →
      h'.idle_period_state_ = h.idle_period_state_ ∧
      h'.idle_period_deadline_ = h.idle_period_deadline_ ∧
      h'.idle_queue_enabled = h.idle_queue_enabled) := by
  refine ⟨?_, ?_, ?_⟩
  · simp only [OnIdleTaskPosted, if_true]
    rw [OnIdleTaskPostedOnMainThread_cases c h hc]
    split <;> rfl
  · intro c'
    rfl
  · intro c' b h' hok
    obtain ⟨hs, hd, hq, _⟩ := OnIdleTaskPosted_summary c' b h h' hok
    exact ⟨hs, hd, hq⟩

/-- Witness of C5: a paused long idle period receives one zero-delay re-enable task. -/
theorem C5_OnIdleTaskPosted_effect_witness :
    controller_thread.passes ∧
    OnIdleTaskPosted controller_thread true (helper_in .IN_LONG_IDLE_PERIOD_PAUSED 50000) =
      .ok { helper_in .IN_LONG_IDLE_PERIOD_PAUSED 50000 with
            posted := [⟨.enable_next_long_idle_period_closure_, 0⟩] } :=
  ⟨fun _ => rfl,
    (C5_OnIdleTaskPosted_effect controller_thread
      (helper_in .IN_LONG_IDLE_PERIOD_PAUSED 50000) (fun _ => rfl)).1⟩

/-- Claim C6. For every state, `CanExceedIdleDeadlineIfRequired` (on the controller thread, or
with assertions compiled out) returns true if and only if the idle period state is
`IN_LONG_IDLE_PERIOD_WITH_MAX_DEADLINE`, and the call leaves the helper as it was. -/
theorem C6_CanExceedIdleDeadlineIfRequired (cfg : Config) (c : Caller) (h : Helper)
    (hc : c.passes) :
    (∃ b, CanExceedIdleDeadlineIfRequired c h = .ok b ∧
      (b = true ↔ h.idle_period_state_ = .IN_LONG_IDLE_PERIOD_WITH_MAX_DEADLINE)) ∧
    step cfg c .CanExceedIdleDeadlineIfRequired h = .ok h := by
  have hval : CanExceedIdleDeadlineIfRequired c h =
      .ok (h.idle_period_state_ == .IN_LONG_IDLE_PERIOD_WITH_MAX_DEADLINE) := by
    simp [CanExceedIdleDeadlineIfRequired, CheckOnValidThread_ok c hc,
      idle_period_state_ok c h hc, bind, Except.bind, pure, Except.pure]
  refine ⟨⟨_, hval, by simp⟩, ?_⟩
  simp [step, hval, Except.map]

/-- Witness of C6: true in the max-deadline state. -/
theorem C6_CanExceedIdleDeadlineIfRequired_witness :
    controller_thread.passes ∧
    (∃ b, CanExceedIdleDeadlineIfRequired controller_thread
        (helper_in .IN_LONG_IDLE_PERIOD_WITH_MAX_DEADLINE 50000) = .ok b ∧
      (b = true ↔ (helper_in .IN_LONG_IDLE_PERIOD_WITH_MAX_DEADLINE 50000).idle_period_state_
        = .IN_LONG_IDLE_PERIOD_WITH_MAX_DEADLINE)) ∧
    step scenario_config controller_thread .CanExceedIdleDeadlineIfRequired
        (helper_in .IN_LONG_IDLE_PERIOD_WITH_MAX_DEADLINE 50000) =
      .ok (helper_in .IN_LONG_IDLE_PERIOD_WITH_MAX_DEADLINE 50000) :=
  ⟨fun _ => rfl,
    C6_CanExceedIdleDeadlineIfRequired scenario_config controller_thread
      (helper_in .IN_LONG_IDLE_PERIOD_WITH_MAX_DEADLINE 50000) (fun _ => rfl)⟩

/-- Claim C7. In every state reached from a freshly constructed helper by a sequence of calls
(with `StartIdlePeriod` called within its precondition), whenever the state is
`NOT_IN_IDLE_PERIOD` the stored deadline is null, so `CurrentIdleTaskDeadline` and
`WillProcessIdleTask` return the null deadline there. -/
theorem C7_null_deadline_outside_idle_period (cfg : Config) (calls : List (Caller × Op))
    (hpre : ∀ p ∈ calls, p.2.precondition) (n : Nat) (h : Helper)
    (hrun : run cfg (calls.take n) construct = .ok h)
    (hs : h.idle_period_state_ = .NOT_IN_IDLE_PERIOD) :
    h.idle_period_deadline_ = 0 ∧
    ∀ c : Caller, c.passes →
      CurrentIdleTaskDeadline c h = .ok 0 ∧ WillProcessIdleTask c h = .ok 0 := by
  have hd : h.idle_period_deadline_ = 0 :=
    (run_invariants cfg (calls.take n) construct h
      (fun p hp => hpre p (List.mem_of_mem_take hp)) hrun invariants_construct).2 hs
  refine ⟨hd, fun c hc => ?_⟩
  simp [CurrentIdleTaskDeadline, WillProcessIdleTask, CheckOnValidThread_ok c hc,
    idle_period_deadline_ok c h hc, bind, Except.bind, hd]

/-- Witness of C7: after a long idle period is started at 20ms and ended, the deadline read
by an idle task is null. -/
theorem C7_null_deadline_outside_idle_period_witness :
    (∀ p ∈ sample_calls_ended, p.2.precondition) ∧
    ∃ h, run scenario_config (sample_calls_ended.take 2) construct = .ok h ∧
      h.idle_period_state_ = .NOT_IN_IDLE_PERIOD ∧ h.idle_period_deadline_ = 0 ∧
      CurrentIdleTaskDeadline controller_thread h = .ok 0 ∧
      WillProcessIdleTask controller_thread h = .ok 0 := by
  have hpre : ∀ p ∈ sample_calls_ended, p.2.precondition := by
    intro p hp
    simp only [sample_calls_ended, List.mem_cons, List.mem_singleton, List.not_mem_nil,
      or_false] at hp
    rcases hp with rfl | rfl <;> simp [Op.precondition]
  have hall := C7_null_deadline_outside_idle_period scenario_config sample_calls_ended hpre 2
    _ rfl rfl
  exact ⟨hpre, _, rfl, rfl, hall.1, hall.2 controller_thread (fun _ => rfl)⟩

/-- Claim C8. Whenever `EnableLongIdlePeriod`, reading the clock at `N` on a helper that is not
shut down, starts an idle period, the resulting deadline is `N + min (T - N) maximum` if a
non-idle task is scheduled at `T`, and `N + maximum` if none is scheduled; hence the deadline
is never later than `T` and never later than `N + maximum`. -/
theorem C8_long_idle_deadline_capped (cfg : Config) (c : Caller) (env : LongIdleEnv)
    (h h' : Helper) (hok : EnableLongIdlePeriod cfg c env h = .ok h')
    (hsd : env.IsShutdown = false) (hstarted : IsInIdlePeriod h'.idle_period_state_ = true) :
    (∀ T, env.NextScheduledRunTime = some T →
      h'.idle_period_deadline_ =
        env.NowTicks + min (T - env.NowTicks) (FromMilliseconds cfg.kMaximumIdlePeriodMillis) ∧
      h'.idle_period_deadline_ ≤ T) ∧
    (env.NextScheduledRunTime = none →
      h'.idle_period_deadline_ =
        env.NowTicks + FromMilliseconds cfg.kMaximumIdlePeriodMillis) ∧
    h'.idle_period_deadline_ ≤ env.NowTicks + FromMilliseconds cfg.kMaximumIdlePeriodMillis := by
  have hne : h'.idle_period_state_ ≠ .NOT_IN_IDLE_PERIOD := (IsInIdlePeriod_iff _).1 hstarted
  obtain ⟨_, hcase⟩ := EnableLongIdlePeriod_summary cfg c env h h' hok
  rcases hcase with ⟨hs, _⟩ | ⟨_, h1, _, hcase⟩
  · rw [hsd] at hs; cases hs
  rcases hcase with ⟨hs, _⟩ | ⟨_, _, hd, _⟩
  · exact absurd hs hne
  rw [hd]
  unfold long_idle_period_duration
  refine ⟨?_, ?_, ?_⟩
  · intro T hT
    rw [hT]
    refine ⟨rfl, ?_⟩
    have hle : min (T - env.NowTicks) (FromMilliseconds cfg.kMaximumIdlePeriodMillis) ≤
        T - env.NowTicks := min_le_left _ _
    show env.NowTicks + min (T - env.NowTicks)
      (FromMilliseconds cfg.kMaximumIdlePeriodMillis) ≤ T
    linarith
  · intro hN
    rw [hN]
  · cases hN : env.NextScheduledRunTime with
    | none => simp
    | some T =>
      have hle : min (T - env.NowTicks) (FromMilliseconds cfg.kMaximumIdlePeriodMillis) ≤
          FromMilliseconds cfg.kMaximumIdlePeriodMillis := min_le_right _ _
      show env.NowTicks + min (T - env.NowTicks)
        (FromMilliseconds cfg.kMaximumIdlePeriodMillis) ≤
          env.NowTicks + FromMilliseconds cfg.kMaximumIdlePeriodMillis
      linarith

/-- Witness of C8 (scenario B): maximum 50ms, a task scheduled at 10ms and the clock at 0 give
`IN_LONG_IDLE_PERIOD` with deadline 10ms. -/
theorem C8_long_idle_deadline_capped_witness :
    ∃ h', EnableLongIdlePeriod scenario_config controller_thread
        (scenario_env 0 (some 10000) true) construct = .ok h' ∧
      h'.idle_period_state_ = .IN_LONG_IDLE_PERIOD ∧
      (h'.idle_period_deadline_ = 0 + min (10000 - 0) (FromMilliseconds 50) ∧
        h'.idle_period_deadline_ ≤ 10000) ∧
      h'.idle_period_deadline_ = 10000 :=
  ⟨_, rfl, rfl,
    (C8_long_idle_deadline_capped scenario_config controller_thread
      (scenario_env 0 (some 10000) true) construct _ rfl rfl rfl).1 10000 rfl,
    rfl⟩

/-- Claim C9. Whenever the delegate permits entry and the candidate duration (the time to the
next scheduled task capped by the maximum, possibly zero or negative) is below the minimum
viable duration, `ComputeNewLongIdlePeriodState` returns `NOT_IN_IDLE_PERIOD` with the
configured retry delay; and `EnableLongIdlePeriod`, called in any state the helper can reach
while it is not shut down and does not wait for quiescence, ends in `NOT_IN_IDLE_PERIOD` with
the idle queue disabled, without an `OnIdlePeriodStarted` notification, and with exactly one
posted task, of the re-enable closure, delayed by the retry delay. -/
theorem C9_below_minimum_retries (cfg : Config) (c : Caller) (env : LongIdleEnv)
    (now : TimeTicks) (calls : List (Caller × Op)) (h : Helper) (hc : c.passes)
    (hcan : (env.CanEnterLongIdlePeriod now).1 = true)
    (hshort : long_idle_period_duration cfg env now <
      FromMilliseconds cfg.kMinimumIdlePeriodDurationMillis)
    (hpre : ∀ p ∈ calls, p.2.precondition)
    (hrun : run cfg calls construct = .ok h) :
    (∀ (d0 : TimeDelta) (h0 : Helper),
      ComputeNewLongIdlePeriodState cfg c env now d0 h0 =
        .ok ((.NOT_IN_IDLE_PERIOD,
              FromMilliseconds cfg.kRetryEnableLongIdlePeriodDelayMillis),
             { h0 with calls := h0.calls ++ [.CanEnterLongIdlePeriod now] })) ∧
    (env.NowTicks = now → env.IsShutdown = false →
      (env.IsShutdown_quiescence = true ∨
        cfg.required_quiescence_duration_before_long_idle_period_ = 0 ∨
        env.system_is_quiescent = true) →
      ∃ h', EnableLongIdlePeriod cfg c env h = .ok h' ∧
        h'.idle_period_state_ = .NOT_IN_IDLE_PERIOD ∧
        h'.idle_queue_enabled = false ∧
        (∃ l, h'.calls = h.calls ++ l ∧ Call.OnIdlePeriodStarted ∉ l) ∧
        h'.posted = [⟨.enable_next_long_idle_period_closure_,
          FromMilliseconds cfg.kRetryEnableLongIdlePeriodDelayMillis⟩]) := by
  have hnot : ¬ long_idle_period_duration cfg env now ≥
      FromMilliseconds cfg.kMinimumIdlePeriodDurationMillis := not_le.2 hshort
  have hq : QueueInvariant h :=
    (run_invariants cfg calls construct h hpre hrun invariants_construct).1
  constructor
  · intro d0 h0
    rw [ComputeNewLongIdlePeriodState_ok cfg c env now d0 h0 hc]
    simp [hcan, hnot]
  · intro hnow hsd hnowait
    subst hnow
    obtain ⟨h2, heq, hs2, _, hq2, _, hp2, l, hl, hnl⟩ :=
      EnableLongIdlePeriod_no_wait cfg c env h hc hsd hnowait
    rw [if_neg (fun hand => hnot hand.2)] at heq
    refine ⟨_, heq, hs2, ?_, ⟨l ++ [.CanEnterLongIdlePeriod env.NowTicks], ?_, ?_⟩, ?_⟩
    · simp only [hq2]
      by_cases hs : h.idle_period_state_ = .NOT_IN_IDLE_PERIOD
      · rw [if_pos hs]
        cases hqe : h.idle_queue_enabled
        · rfl
        · exact absurd hs (hq.1 hqe)
      · rw [if_neg hs]
    · simp [hl]
    · simp [hnl]
    · simp [hp2, hcan]

/-- Witness of C9 (scenario C): minimum 1ms and a task scheduled at 0.5ms, on a freshly
constructed helper. -/
theorem C9_below_minimum_retries_witness :
    controller_thread.passes ∧
    ComputeNewLongIdlePeriodState scenario_config controller_thread
        (scenario_env 0 (some 500) true) 0 0 construct =
      .ok ((.NOT_IN_IDLE_PERIOD, FromMilliseconds 1),
           { construct with calls := construct.calls ++ [.CanEnterLongIdlePeriod 0] }) ∧
    ∃ h', EnableLongIdlePeriod scenario_config controller_thread
        (scenario_env 0 (some 500) true) construct = .ok h' ∧
      h'.idle_period_state_ = .NOT_IN_IDLE_PERIOD ∧
      h'.idle_queue_enabled = false ∧
      (∃ l, h'.calls = construct.calls ++ l ∧ Call.OnIdlePeriodStarted ∉ l) ∧
      h'.posted = [⟨.enable_next_long_idle_period_closure_, FromMilliseconds 1⟩] := by
  have hc : controller_thread.passes := fun _ => rfl
  have hall := C9_below_minimum_retries scenario_config controller_thread
    (scenario_env 0 (some 500) true) 0 [] construct hc rfl (by decide)
    (fun _ hp => absurd hp (List.not_mem_nil _)) rfl
  exact ⟨hc, hall.1 0 construct, hall.2 rfl rfl (Or.inr (Or.inl rfl))⟩

/-- Counterexample to C10 as stated: in scenario A with an idle queue that has no pending
immediate work, `EnableLongIdlePeriod` at `t = 0` yields `IN_LONG_IDLE_PERIOD_PAUSED`, not
`IN_LONG_IDLE_PERIOD_WITH_MAX_DEADLINE`. -/
theorem C10_scenario_A_counterexample :
    EnableLongIdlePeriod scenario_config controller_thread (scenario_env 0 none false)
        construct =
      .ok { idle_period_state_ := .IN_LONG_IDLE_PERIOD_PAUSED
            idle_period_deadline_ := 50000
            idle_queue_enabled := true
            fences_inserted := 1
            posted := []
            calls := [.CanEnterLongIdlePeriod 0, .OnIdlePeriodStarted] } ∧
    ¬ ∃ h', EnableLongIdlePeriod scenario_config controller_thread (scenario_env 0 none false)
        construct = .ok h' ∧
      h'.idle_period_state_ = .IN_LONG_IDLE_PERIOD_WITH_MAX_DEADLINE := by
  have heq : EnableLongIdlePeriod scenario_config controller_thread
      (scenario_env 0 none false) construct =
      .ok { idle_period_state_ := .IN_LONG_IDLE_PERIOD_PAUSED
            idle_period_deadline_ := 50000
            idle_queue_enabled := true
            fences_inserted := 1
            posted := []
            calls := [.CanEnterLongIdlePeriod 0, .OnIdlePeriodStarted] } := rfl
  refine ⟨heq, ?_⟩
  rintro ⟨h', hok, hs⟩
  rw [heq] at hok
  cases hok
  cases hs

/-- Claim C10, amended. With maximum 50ms, minimum 1ms, no scheduled non-idle task, no
quiescence required, the delegate permitting entry and the helper not shut down,
`EnableLongIdlePeriod` at `t = 0` records the deadline 50ms and yields
`IN_LONG_IDLE_PERIOD_WITH_MAX_DEADLINE` when the idle queue has pending immediate work, and
`IN_LONG_IDLE_PERIOD_PAUSED` when it has none. -/
theorem C10_scenario_A_amended (cfg : Config) (c : Caller) (env : LongIdleEnv) (h : Helper)
    (hc : c.passes)
    (hmax : cfg.kMaximumIdlePeriodMillis = 50)
    (hmin : cfg.kMinimumIdlePeriodDurationMillis = 1)
    (hquiet : cfg.required_quiescence_duration_before_long_idle_period_ = 0)
    (hsd : env.IsShutdown = false) (hnow : env.NowTicks = 0)
    (hcan : (env.CanEnterLongIdlePeriod 0).1 = true)
    (hnext : env.NextScheduledRunTime = none) :
    ∃ h', EnableLongIdlePeriod cfg c env h = .ok h' ∧
      h'.idle_period_deadline_ = 50000 ∧
      h'.idle_period_state_ =
        (if env.HasPendingImmediateWork = true then .IN_LONG_IDLE_PERIOD_WITH_MAX_DEADLINE
         else .IN_LONG_IDLE_PERIOD_PAUSED) := by
  obtain ⟨h2, heq, hs2, _⟩ :=
    EnableLongIdlePeriod_no_wait cfg c env h hc hsd (Or.inr (Or.inl hquiet))
  have hdur : long_idle_period_duration cfg env env.NowTicks = 50000 := by
    simp [long_idle_period_duration, hnext, hmax, FromMilliseconds]
  have hmaxd : FromMilliseconds cfg.kMaximumIdlePeriodMillis = 50000 := by
    simp [hmax, FromMilliseconds]
  have hmind : FromMilliseconds cfg.kMinimumIdlePeriodDurationMillis = 1000 := by
    simp [hmin, FromMilliseconds]
  rw [hdur, hmaxd, hmind, hnow] at heq
  rw [if_pos ⟨hcan, by decide⟩] at heq
  cases hw : env.HasPendingImmediateWork
  · rw [hw] at heq
    simp only [if_true] at heq
    rw [StartIdlePeriod_from_not_idle cfg c _ 0 (0 + 50000) h2 hc (by decide) (by simp) hs2
      (by rw [hmind]; decide)] at heq
    exact ⟨_, heq, by simp, by simp⟩
  · rw [hw] at heq
    simp only [Bool.true_eq_false, if_false, if_true] at heq
    rw [StartIdlePeriod_from_not_idle cfg c _ 0 (0 + 50000) h2 hc (by decide) (by simp) hs2
      (by rw [hmind]; decide)] at heq
    exact ⟨_, heq, by simp, by simp⟩

/-- Witness of C10, amended: scenario A with pending idle work gives the max-deadline state
with deadline 50ms. -/
theorem C10_scenario_A_amended_witness :
    controller_thread.passes ∧
    ∃ h', EnableLongIdlePeriod scenario_config controller_thread (scenario_env 0 none true)
        construct = .ok h' ∧
      h'.idle_period_deadline_ = 50000 ∧
      h'.idle_period_state_ =
        (if (scenario_env 0 none true).HasPendingImmediateWork = true then
           .IN_LONG_IDLE_PERIOD_WITH_MAX_DEADLINE
         else .IN_LONG_IDLE_PERIOD_PAUSED) :=
  ⟨fun _ => rfl,
    C10_scenario_A_amended scenario_config controller_thread (scenario_env 0 none true)
      construct (fun _ => rfl) rfl rfl rfl rfl rfl rfl rfl⟩

/-! ## Exact results of `UpdateState`, `StartIdlePeriod` and `EnableLongIdlePeriod` -/

theorem UpdateState_error (c : Caller) (ns : IdlePeriodState) (nd t0 : TimeTicks) (h : Helper)
    (hc : ¬ c.passes) : UpdateState c ns nd t0 h = .error .DCHECK := by
  simp [UpdateState, CheckOnValidThread_error c hc, bind, Except.bind]

theorem UpdateState_changed (c : Caller) (ns : IdlePeriodState) (nd t0 : TimeTicks)
    (h : Helper) (hc : c.passes) (hne : ns ≠ h.idle_period_state_) :
    UpdateState c ns nd t0 h =
      .ok { h with
        idle_period_state_ := ns, idle_period_deadline_ := nd,
        calls := h.calls ++
          (if h.idle_period_state_ = .NOT_IN_IDLE_PERIOD then [.OnIdlePeriodStarted]
           else if ns = .NOT_IN_IDLE_PERIOD then [.OnIdlePeriodEnded]
           else []) } := by
  unfold UpdateState
  simp only [CheckOnValidThread_ok c hc, bind, Except.bind, pure, Except.pure]
  rw [if_neg hne]
  by_cases ho : h.idle_period_state_ = .NOT_IN_IDLE_PERIOD
  · have hn : ns ≠ .NOT_IN_IDLE_PERIOD := fun hh => hne (hh.trans ho.symm)
    have hi : IsInIdlePeriod ns = true := (IsInIdlePeriod_iff ns).2 hn
    simp [ho, hi, hn, IsInIdlePeriod]
  · have hio : IsInIdlePeriod h.idle_period_state_ = true := (IsInIdlePeriod_iff _).2 ho
    by_cases hn : ns = .NOT_IN_IDLE_PERIOD
    · simp [ho, hio, hn, IsInIdlePeriod]
    · have hi : IsInIdlePeriod ns = true := (IsInIdlePeriod_iff ns).2 hn
      simp [ho, hio, hn, hi]

theorem UpdateState_same (c : Caller) (ns : IdlePeriodState) (nd t0 : TimeTicks)
    (h : Helper) (hc : c.passes) (he : ns = h.idle_period_state_)
    (hd : nd = h.idle_period_deadline_ ∨ c.dcheck_is_on = false) :
    UpdateState c ns nd t0 h = .ok h := by
  unfold UpdateState
  simp only [CheckOnValidThread_ok c hc, bind, Except.bind, pure, Except.pure]
  rw [if_pos he]
  have hD : DCHECK c (nd == h.idle_period_deadline_) = .ok () := by
    rcases hd with hd | hd
    · rw [hd]; simp [DCHECK]
    · exact DCHECK_off c _ hd
  rw [hD]

theorem StartIdlePeriod_abandoned (cfg : Config) (c : Caller) (ns : IdlePeriodState)
    (now deadline : TimeTicks) (h : Helper) (hc : c.passes)
    (hpre : (deadline > now ∧ IsInIdlePeriod ns = true) ∨ c.dcheck_is_on = false)
    (hshort : deadline - now < FromMilliseconds cfg.kMinimumIdlePeriodDurationMillis) :
    StartIdlePeriod cfg c ns now deadline h = .ok h := by
  unfold StartIdlePeriod
  have h1 : DCHECK c (decide (deadline > now)) = .ok () := by
    rcases hpre with ⟨hgt, _⟩ | hoff
    · rw [decide_eq_true hgt]; exact DCHECK_true c
    · exact DCHECK_off c _ hoff
  have h3 : DCHECK c (IsInIdlePeriod ns) = .ok () := by
    rcases hpre with ⟨_, hns⟩ | hoff
    · rw [hns]; exact DCHECK_true c
    · exact DCHECK_off c _ hoff
  simp only [h1, h3, CheckOnValidThread_ok c hc, bind, Except.bind, pure, Except.pure]
  rw [if_pos hshort]

theorem StartIdlePeriod_proceeds (cfg : Config) (c : Caller) (ns : IdlePeriodState)
    (now deadline : TimeTicks) (h : Helper) (hc : c.passes)
    (hpre : (deadline > now ∧ IsInIdlePeriod ns = true) ∨ c.dcheck_is_on = false)
    (hlong : ¬ deadline - now < FromMilliseconds cfg.kMinimumIdlePeriodDurationMillis) :
    StartIdlePeriod cfg c ns now deadline h =
      UpdateState c ns deadline now
        { h with idle_queue_enabled := true, fences_inserted := h.fences_inserted + 1 } := by
  unfold StartIdlePeriod
  have h1 : DCHECK c (decide (deadline > now)) = .ok () := by
    rcases hpre with ⟨hgt, _⟩ | hoff
    · rw [decide_eq_true hgt]; exact DCHECK_true c
    · exact DCHECK_off c _ hoff
  have h3 : DCHECK c (IsInIdlePeriod ns) = .ok () := by
    rcases hpre with ⟨_, hns⟩ | hoff
    · rw [hns]; exact DCHECK_true c
    · exact DCHECK_off c _ hoff
  simp only [h1, h3, CheckOnValidThread_ok c hc, bind, Except.bind, pure, Except.pure]
  rw [if_neg hlong]

theorem StartIdlePeriod_error (cfg : Config) (c : Caller) (ns : IdlePeriodState)
    (now deadline : TimeTicks) (h : Helper) (hc : ¬ c.passes) :
    StartIdlePeriod cfg c ns now deadline h = .error .DCHECK := by
  unfold StartIdlePeriod
  rcases DCHECK_cases c (decide (deadline > now)) with h1 | ⟨h1, _, _⟩ <;>
    simp [h1, CheckOnValidThread_error c hc, bind, Except.bind]

theorem StartIdlePeriod_precondition_of_ok (cfg : Config) (c : Caller) (ns : IdlePeriodState)
    (now deadline : TimeTicks) (h h' : Helper)
    (hok : StartIdlePeriod cfg c ns now deadline h = .ok h') :
    c.passes ∧ ((deadline > now ∧ IsInIdlePeriod ns = true) ∨ c.dcheck_is_on = false) := by
  by_cases hc : c.passes
  swap
  · rw [StartIdlePeriod_error cfg c ns now deadline h hc] at hok
    cases hok
  refine ⟨hc, ?_⟩
  cases hd : c.dcheck_is_on
  · exact Or.inr rfl
  · left
    unfold StartIdlePeriod at hok
    rcases DCHECK_cases c (decide (deadline > now)) with h1 | ⟨h1, _, _⟩ <;>
      simp only [h1, bind, Except.bind] at hok
    swap
    · cases hok
    rcases DCHECK_cases c (IsInIdlePeriod ns) with h3 | ⟨h3, _, _⟩ <;>
      simp only [h3, CheckOnValidThread_ok c hc] at hok
    swap
    · cases hok
    constructor
    · by_contra hgt
      simp [DCHECK, hd, hgt] at h1
    · by_contra hns
      simp [DCHECK, hd, hns] at h3

theorem EnableLongIdlePeriod_exact (cfg : Config) (c : Caller) (env : LongIdleEnv)
    (h h1 : Helper) (hc : c.passes) (hsd : env.IsShutdown = false)
    (hend : EndIdlePeriod c h = .ok h1) :
    EnableLongIdlePeriod cfg c env h =
      if env.IsShutdown_quiescence = false ∧
          cfg.required_quiescence_duration_before_long_idle_period_ ≠ 0 ∧
          env.system_is_quiescent = false then
        .ok { h1 with
          posted := h1.posted ++ [⟨.enable_next_long_idle_period_closure_,
            cfg.required_quiescence_duration_before_long_idle_period_⟩],
          calls := h1.calls ++ [.GetAndClearSystemIsQuiescentBit, .IsNotQuiescent] }
      else if (env.CanEnterLongIdlePeriod env.NowTicks).1 = true ∧
          long_idle_period_duration cfg env env.NowTicks ≥
            FromMilliseconds cfg.kMinimumIdlePeriodDurationMillis then
        StartIdlePeriod cfg c
          (if env.HasPendingImmediateWork = false then .IN_LONG_IDLE_PERIOD_PAUSED
           else if long_idle_period_duration cfg env env.NowTicks =
               FromMilliseconds cfg.kMaximumIdlePeriodMillis then
             .IN_LONG_IDLE_PERIOD_WITH_MAX_DEADLINE
           else .IN_LONG_IDLE_PERIOD)
          env.NowTicks (env.NowTicks + long_idle_period_duration cfg env env.NowTicks)
          { h1 with calls := h1.calls ++
              (if env.IsShutdown_quiescence = true ∨
                  cfg.required_quiescence_duration_before_long_idle_period_ = 0 then []
               else [.GetAndClearSystemIsQuiescentBit]) ++
              [.CanEnterLongIdlePeriod env.NowTicks] }
      else
        .ok { h1 with
          posted := h1.posted ++ [⟨.enable_next_long_idle_period_closure_,
            if (env.CanEnterLongIdlePeriod env.NowTicks).1 = false then
              (env.CanEnterLongIdlePeriod env.NowTicks).2.getD 0
            else FromMilliseconds cfg.kRetryEnableLongIdlePeriodDelayMillis⟩],
          calls := h1.calls ++
              (if env.IsShutdown_quiescence = true ∨
                  cfg.required_quiescence_duration_before_long_idle_period_ = 0 then []
               else [.GetAndClearSystemIsQuiescentBit]) ++
              [.CanEnterLongIdlePeriod env.NowTicks] } := by
  have hwait := ShouldWaitForQuiescence_ok cfg c env h1 hc
  have hcomp := fun h2 => ComputeNewLongIdlePeriodState_ok cfg c env env.NowTicks 0 h2 hc
  by_cases hq : env.IsShutdown_quiescence = true ∨
      cfg.required_quiescence_duration_before_long_idle_period_ = 0
  · rw [if_pos hq] at hwait
    have hnw : ¬ (env.IsShutdown_quiescence = false ∧
        cfg.required_quiescence_duration_before_long_idle_period_ ≠ 0 ∧
        env.system_is_quiescent = false) := by
      rintro ⟨h1', h2', _⟩
      rcases hq with hq | hq
      · rw [hq] at h1'; cases h1'
      · exact h2' hq
    rw [if_neg hnw, if_pos hq]
    by_cases hcan : (env.CanEnterLongIdlePeriod env.NowTicks).1 = false
    · have hcm := hcomp h1
      rw [if_pos hcan] at hcm
      rw [EnableLongIdlePeriod_steps cfg c env h h1 h1 _ false _ _ hc hsd hend hwait hcm]
      simp [hcan, IsInIdlePeriod]
    · have hcan' : (env.CanEnterLongIdlePeriod env.NowTicks).1 = true := by simpa using hcan
      by_cases hdur : long_idle_period_duration cfg env env.NowTicks ≥
          FromMilliseconds cfg.kMinimumIdlePeriodDurationMillis
      · have hcm := hcomp h1
        rw [if_neg hcan, if_pos hdur] at hcm
        rw [EnableLongIdlePeriod_steps cfg c env h h1 h1 _ false _ _ hc hsd hend hwait hcm]
        have hidle : IsInIdlePeriod
            (if env.HasPendingImmediateWork = false then
               IdlePeriodState.IN_LONG_IDLE_PERIOD_PAUSED
             else if long_idle_period_duration cfg env env.NowTicks =
                 FromMilliseconds cfg.kMaximumIdlePeriodMillis then
               IdlePeriodState.IN_LONG_IDLE_PERIOD_WITH_MAX_DEADLINE
             else IdlePeriodState.IN_LONG_IDLE_PERIOD) = true := by
          split <;> [rfl; (split <;> rfl)]
        rw [if_neg (show ¬ (false = true) by simp), if_pos hidle,
          if_pos (show (env.CanEnterLongIdlePeriod env.NowTicks).1 = true ∧
            long_idle_period_duration cfg env env.NowTicks ≥
              FromMilliseconds cfg.kMinimumIdlePeriodDurationMillis from ⟨hcan', hdur⟩)]
        simp
      · have hcm := hcomp h1
        rw [if_neg hcan, if_neg hdur] at hcm
        rw [EnableLongIdlePeriod_steps cfg c env h h1 h1 _ false _ _ hc hsd hend hwait hcm]
        simp [hcan', hdur, IsInIdlePeriod]
  · rw [if_neg hq] at hwait
    have hq' := hq
    simp only [not_or] at hq'
    obtain ⟨hq1, hq2⟩ := hq'
    have hq1' : env.IsShutdown_quiescence = false := by simpa using hq1
    cases hsq : env.system_is_quiescent
    · -- the system is not quiescent: wait
      rw [hsq] at hwait
      rw [if_pos (show env.IsShutdown_quiescence = false ∧
          cfg.required_quiescence_duration_before_long_idle_period_ ≠ 0 ∧
          false = false from ⟨hq1', hq2, rfl⟩)]
      have hcm := hcomp { h1 with calls := h1.calls ++ [.GetAndClearSystemIsQuiescentBit] }
      generalize hr2 : (if (env.CanEnterLongIdlePeriod env.NowTicks).1 = false then
            (IdlePeriodState.NOT_IN_IDLE_PERIOD,
              (env.CanEnterLongIdlePeriod env.NowTicks).2.getD 0)
          else if long_idle_period_duration cfg env env.NowTicks ≥
              FromMilliseconds cfg.kMinimumIdlePeriodDurationMillis then
            (if env.HasPendingImmediateWork = false then
               IdlePeriodState.IN_LONG_IDLE_PERIOD_PAUSED
             else if long_idle_period_duration cfg env env.NowTicks =
                 FromMilliseconds cfg.kMaximumIdlePeriodMillis then
               IdlePeriodState.IN_LONG_IDLE_PERIOD_WITH_MAX_DEADLINE
             else IdlePeriodState.IN_LONG_IDLE_PERIOD,
             long_idle_period_duration cfg env env.NowTicks)
          else
            (IdlePeriodState.NOT_IN_IDLE_PERIOD,
             FromMilliseconds cfg.kRetryEnableLongIdlePeriodDelayMillis)) = r2 at hcm
      obtain ⟨st, d⟩ := r2
      rw [EnableLongIdlePeriod_steps cfg c env h h1 _ _ (!false) st d hc hsd hend hwait hcm]
      simp
    · rw [hsq] at hwait
      have hnw : ¬ (env.IsShutdown_quiescence = false ∧
          cfg.required_quiescence_duration_before_long_idle_period_ ≠ 0 ∧
          true = false) := by
        rintro ⟨_, _, h3'⟩
        cases h3'
      rw [if_neg hnw, if_neg hq]
      by_cases hcan : (env.CanEnterLongIdlePeriod env.NowTicks).1 = false
      · have hcm := hcomp { h1 with calls := h1.calls ++ [.GetAndClearSystemIsQuiescentBit] }
        rw [if_pos hcan] at hcm
        rw [EnableLongIdlePeriod_steps cfg c env h h1 _ _ (!true) _ _ hc hsd hend hwait hcm]
        simp [hcan, IsInIdlePeriod]
      · have hcan' : (env.CanEnterLongIdlePeriod env.NowTicks).1 = true := by
          simpa using hcan
        by_cases hdur : long_idle_period_duration cfg env env.NowTicks ≥
            FromMilliseconds cfg.kMinimumIdlePeriodDurationMillis
        · have hcm := hcomp { h1 with calls := h1.calls ++ [.GetAndClearSystemIsQuiescentBit] }
          rw [if_neg hcan, if_pos hdur] at hcm
          rw [EnableLongIdlePeriod_steps cfg c env h h1 _ _ (!true) _ _ hc hsd hend hwait hcm]
          have hidle : IsInIdlePeriod
              (if env.HasPendingImmediateWork = false then
                 IdlePeriodState.IN_LONG_IDLE_PERIOD_PAUSED
               else if long_idle_period_duration cfg env env.NowTicks =
                   FromMilliseconds cfg.kMaximumIdlePeriodMillis then
                 IdlePeriodState.IN_LONG_IDLE_PERIOD_WITH_MAX_DEADLINE
               else IdlePeriodState.IN_LONG_IDLE_PERIOD) = true := by
            split <;> [rfl; (split <;> rfl)]
          rw [if_neg (show ¬ ((!true) = true) by simp), if_pos hidle,
            if_pos (show (env.CanEnterLongIdlePeriod env.NowTicks).1 = true ∧
              long_idle_period_duration cfg env env.NowTicks ≥
                FromMilliseconds cfg.kMinimumIdlePeriodDurationMillis from ⟨hcan', hdur⟩)]
        · have hcm := hcomp { h1 with calls := h1.calls ++ [.GetAndClearSystemIsQuiescentBit] }
          rw [if_neg hcan, if_neg hdur] at hcm
          rw [EnableLongIdlePeriod_steps cfg c env h h1 _ _ (!true) _ _ hc hsd hend hwait hcm]
          simp [hcan', hdur, IsInIdlePeriod]

theorem StartIdlePeriod_from_not_idle_exact (cfg : Config) (c : Caller) (ns : IdlePeriodState)
    (now deadline : TimeTicks) (h : Helper) (hc : c.passes)
    (hpre : (deadline > now ∧ IsInIdlePeriod ns = true) ∨ c.dcheck_is_on = false)
    (hns : ns ≠ .NOT_IN_IDLE_PERIOD) (hs : h.idle_period_state_ = .NOT_IN_IDLE_PERIOD)
    (hlong : ¬ deadline - now < FromMilliseconds cfg.kMinimumIdlePeriodDurationMillis) :
    StartIdlePeriod cfg c ns now deadline h =
      .ok { h with idle_period_state_ := ns, idle_period_deadline_ := deadline,
                   idle_queue_enabled := true, fences_inserted := h.fences_inserted + 1,
                   calls := h.calls ++ [.OnIdlePeriodStarted] } := by
  rw [StartIdlePeriod_proceeds cfg c ns now deadline h hc hpre hlong]
  rw [UpdateState_changed c ns deadline now _ hc (by rw [hs]; exact hns)]
  simp [hs]

theorem EnableLongIdlePeriod_of_ok (cfg : Config) (c : Caller) (env : LongIdleEnv)
    (h h' : Helper) (hok : EnableLongIdlePeriod cfg c env h = .ok h')
    (hsd : env.IsShutdown = false) :
    c.passes ∧ ∃ h1, EndIdlePeriod c h = .ok h1 ∧
      (((env.IsShutdown_quiescence = false ∧
          cfg.required_quiescence_duration_before_long_idle_period_ ≠ 0 ∧
          env.system_is_quiescent = false) ∧
        h' = { h1 with
          posted := h1.posted ++ [⟨.enable_next_long_idle_period_closure_,
            cfg.required_quiescence_duration_before_long_idle_period_⟩],
          calls := h1.calls ++ [.GetAndClearSystemIsQuiescentBit, .IsNotQuiescent] }) ∨
       (¬ (env.IsShutdown_quiescence = false ∧
          cfg.required_quiescence_duration_before_long_idle_period_ ≠ 0 ∧
          env.system_is_quiescent = false) ∧
        ((env.CanEnterLongIdlePeriod env.NowTicks).1 = true ∧
          long_idle_period_duration cfg env env.NowTicks ≥
            FromMilliseconds cfg.kMinimumIdlePeriodDurationMillis) ∧
        (long_idle_period_duration cfg env env.NowTicks > 0 ∨ c.dcheck_is_on = false) ∧
        h' = { h1 with
          idle_period_state_ :=
            (if env.HasPendingImmediateWork = false then .IN_LONG_IDLE_PERIOD_PAUSED
             else if long_idle_period_duration cfg env env.NowTicks =
                 FromMilliseconds cfg.kMaximumIdlePeriodMillis then
               .IN_LONG_IDLE_PERIOD_WITH_MAX_DEADLINE
             else .IN_LONG_IDLE_PERIOD),
          idle_period_deadline_ :=
            env.NowTicks + long_idle_period_duration cfg env env.NowTicks,
          idle_queue_enabled := true,
          fences_inserted := h1.fences_inserted + 1,
          calls := h1.calls ++
              (if env.IsShutdown_quiescence = true ∨
                  cfg.required_quiescence_duration_before_long_idle_period_ = 0 then []
               else [.GetAndClearSystemIsQuiescentBit]) ++
              [.CanEnterLongIdlePeriod env.NowTicks] ++ [.OnIdlePeriodStarted] }) ∨
       (¬ (env.IsShutdown_quiescence = false ∧
          cfg.required_quiescence_duration_before_long_idle_period_ ≠ 0 ∧
          env.system_is_quiescent = false) ∧
        ¬ ((env.CanEnterLongIdlePeriod env.NowTicks).1 = true ∧
          long_idle_period_duration cfg env env.NowTicks ≥
            FromMilliseconds cfg.kMinimumIdlePeriodDurationMillis) ∧
        h' = { h1 with
          posted := h1.posted ++ [⟨.enable_next_long_idle_period_closure_,
            if (env.CanEnterLongIdlePeriod env.NowTicks).1 = false then
              (env.CanEnterLongIdlePeriod env.NowTicks).2.getD 0
            else FromMilliseconds cfg.kRetryEnableLongIdlePeriodDelayMillis⟩],
          calls := h1.calls ++
              (if env.IsShutdown_quiescence = true ∨
                  cfg.required_quiescence_duration_before_long_idle_period_ = 0 then []
               else [.GetAndClearSystemIsQuiescentBit]) ++
              [.CanEnterLongIdlePeriod env.NowTicks] })) := by
  obtain ⟨hc, _⟩ := EnableLongIdlePeriod_summary cfg c env h h' hok
  obtain ⟨h1, hend⟩ := EndIdlePeriod_total c h hc
  obtain ⟨_, hs1, _⟩ := EndIdlePeriod_summary c h h1 hend
  refine ⟨hc, h1, hend, ?_⟩
  rw [EnableLongIdlePeriod_exact cfg c env h h1 hc hsd hend] at hok
  split at hok
  · rename_i hw
    cases hok
    exact Or.inl ⟨hw, rfl⟩
  · rename_i hw
    split at hok
    · rename_i hstart
      right; left
      have hst : (if env.HasPendingImmediateWork = false then
            IdlePeriodState.IN_LONG_IDLE_PERIOD_PAUSED
          else if long_idle_period_duration cfg env env.NowTicks =
              FromMilliseconds cfg.kMaximumIdlePeriodMillis then
            IdlePeriodState.IN_LONG_IDLE_PERIOD_WITH_MAX_DEADLINE
          else IdlePeriodState.IN_LONG_IDLE_PERIOD) ≠ .NOT_IN_IDLE_PERIOD := by
        split <;> [simp; (split <;> simp)]
      obtain ⟨_, hpre⟩ := StartIdlePeriod_precondition_of_ok cfg c _ _ _ _ h' hok
      have hsub : env.NowTicks + long_idle_period_duration cfg env env.NowTicks
          - env.NowTicks = long_idle_period_duration cfg env env.NowTicks := by ring
      have hlong : ¬ env.NowTicks + long_idle_period_duration cfg env env.NowTicks
          - env.NowTicks < FromMilliseconds cfg.kMinimumIdlePeriodDurationMillis := by
        rw [hsub]; exact not_lt.2 hstart.2
      rw [StartIdlePeriod_from_not_idle_exact cfg c _ _ _ _ hc hpre hst
        (by simpa using hs1) hlong] at hok
      cases hok
      refine ⟨hw, hstart, ?_, ?_⟩
      · rcases hpre with ⟨hgt, _⟩ | hoff
        · left
          have : env.NowTicks + long_idle_period_duration cfg env env.NowTicks >
              env.NowTicks := hgt
          linarith
        · exact Or.inr hoff
      · simp
    · rename_i hstart
      cases hok
      exact Or.inr (Or.inr ⟨hw, hstart, rfl⟩)

theorem EnableLongIdlePeriod_returns (cfg : Config) (c : Caller) (env : LongIdleEnv)
    (h : Helper) (hc : c.passes)
    (hpos : long_idle_period_duration cfg env env.NowTicks > 0 ∨ c.dcheck_is_on = false ∨
      ¬ ((env.CanEnterLongIdlePeriod env.NowTicks).1 = true ∧
        long_idle_period_duration cfg env env.NowTicks ≥
          FromMilliseconds cfg.kMinimumIdlePeriodDurationMillis)) :
    ∃ h', EnableLongIdlePeriod cfg c env h = .ok h' := by
  cases hsd : env.IsShutdown
  swap
  · exact ⟨h, EnableLongIdlePeriod_shutdown cfg c env h hc hsd⟩
  obtain ⟨h1, hend⟩ := EndIdlePeriod_total c h hc
  obtain ⟨_, hs1, _⟩ := EndIdlePeriod_summary c h h1 hend
  rw [EnableLongIdlePeriod_exact cfg c env h h1 hc hsd hend]
  split
  · exact ⟨_, rfl⟩
  · split
    · rename_i hstart
      have hst : (if env.HasPendingImmediateWork = false then
            IdlePeriodState.IN_LONG_IDLE_PERIOD_PAUSED
          else if long_idle_period_duration cfg env env.NowTicks =
              FromMilliseconds cfg.kMaximumIdlePeriodMillis then
            IdlePeriodState.IN_LONG_IDLE_PERIOD_WITH_MAX_DEADLINE
          else IdlePeriodState.IN_LONG_IDLE_PERIOD) ≠ .NOT_IN_IDLE_PERIOD := by
        split <;> [simp; (split <;> simp)]
      have hpre : (env.NowTicks + long_idle_period_duration cfg env env.NowTicks >
            env.NowTicks ∧ IsInIdlePeriod
              (if env.HasPendingImmediateWork = false then
                IdlePeriodState.IN_LONG_IDLE_PERIOD_PAUSED
              else if long_idle_period_duration cfg env env.NowTicks =
                  FromMilliseconds cfg.kMaximumIdlePeriodMillis then
                IdlePeriodState.IN_LONG_IDLE_PERIOD_WITH_MAX_DEADLINE
              else IdlePeriodState.IN_LONG_IDLE_PERIOD) = true) ∨
          c.dcheck_is_on = false := by
        rcases hpos with hp | hoff | hn
        · left
          refine ⟨?_, (IsInIdlePeriod_iff _).2 hst⟩
          show env.NowTicks + long_idle_period_duration cfg env env.NowTicks > env.NowTicks
          linarith
        · exact Or.inr hoff
        · exact absurd hstart hn
      have hsub : env.NowTicks + long_idle_period_duration cfg env env.NowTicks
          - env.NowTicks = long_idle_period_duration cfg env env.NowTicks := by ring
      have hlong : ¬ env.NowTicks + long_idle_period_duration cfg env env.NowTicks
          - env.NowTicks < FromMilliseconds cfg.kMinimumIdlePeriodDurationMillis := by
        rw [hsub]; exact not_lt.2 hstart.2
      exact ⟨_, StartIdlePeriod_from_not_idle_exact cfg c _ _ _ _ hc hpre hst
        (by simpa using hs1) hlong⟩
    · exact ⟨_, rfl⟩

/-! ## The claims, continued -/

/-- Claim C11. For every old state, new state and deadline, whenever `State::UpdateState`
returns it has notified `OnIdlePeriodStarted` exactly when the old state is
`NOT_IN_IDLE_PERIOD` and the new state is an idle state, `OnIdlePeriodEnded` exactly when the
old state is an idle state and the new one is `NOT_IN_IDLE_PERIOD`, and nothing otherwise (so
nothing on transitions among idle sub-states); it returns on the controller thread whenever the
new state differs, installing the new state and deadline; and a call with the same state and
deadline changes nothing and notifies nothing. -/
theorem C11_UpdateState_notifications (c : Caller) (ns : IdlePeriodState) (nd t0 : TimeTicks)
    (h : Helper) :
    (∀ h', UpdateState c ns nd t0 h = .ok h' →
      h'.calls = h.calls ++
        (if h.idle_period_state_ = .NOT_IN_IDLE_PERIOD ∧ ns ≠ .NOT_IN_IDLE_PERIOD then
           [.OnIdlePeriodStarted]
         else if h.idle_period_state_ ≠ .NOT_IN_IDLE_PERIOD ∧ ns = .NOT_IN_IDLE_PERIOD then
           [.OnIdlePeriodEnded]
         else [])) ∧
    (c.passes → ns ≠ h.idle_period_state_ →
      ∃ h', UpdateState c ns nd t0 h = .ok h' ∧
        h'.idle_period_state_ = ns ∧ h'.idle_period_deadline_ = nd) ∧
    (c.passes → ns = h.idle_period_state_ →
      nd = h.idle_period_deadline_ ∨ c.dcheck_is_on = false →
      UpdateState c ns nd t0 h = .ok h) := by
  refine ⟨?_, ?_, ?_⟩
  · intro h' hok
    by_cases hc : c.passes
    swap
    · rw [UpdateState_error c ns nd t0 h hc] at hok
      cases hok
    by_cases he : ns = h.idle_period_state_
    · obtain ⟨_, _, _, hcase⟩ := UpdateState_summary c ns nd t0 h h' hok
      rcases hcase with ⟨_, hh⟩ | ⟨hne, _⟩
      · rw [hh, he]
        by_cases hn : h.idle_period_state_ = .NOT_IN_IDLE_PERIOD <;> simp [hn]
      · exact absurd he hne
    · rw [UpdateState_changed c ns nd t0 h hc he] at hok
      cases hok
      by_cases ho : h.idle_period_state_ = .NOT_IN_IDLE_PERIOD
      · have hn : ns ≠ .NOT_IN_IDLE_PERIOD := fun hh => he (hh.trans ho.symm)
        simp [ho, hn]
      · by_cases hn : ns = .NOT_IN_IDLE_PERIOD <;> simp [ho, hn]
  · intro hc hne
    exact ⟨_, UpdateState_changed c ns nd t0 h hc hne, rfl, rfl⟩
  · intro hc he hd
    exact UpdateState_same c ns nd t0 h hc he hd

/-- Witness of C11: entering `IN_LONG_IDLE_PERIOD` from a fresh helper notifies
`OnIdlePeriodStarted` once; pausing a long idle period notifies nothing; repeating the current
state and deadline changes nothing. -/
theorem C11_UpdateState_notifications_witness :
    UpdateState controller_thread .IN_LONG_IDLE_PERIOD 50000 0 construct =
      .ok { construct with idle_period_state_ := .IN_LONG_IDLE_PERIOD,
                           idle_period_deadline_ := 50000,
                           calls := [.OnIdlePeriodStarted] } ∧
    (∀ h', UpdateState controller_thread .IN_LONG_IDLE_PERIOD_PAUSED 50000 0
        (helper_in .IN_LONG_IDLE_PERIOD 50000) = .ok h' →
      h'.calls = (helper_in .IN_LONG_IDLE_PERIOD 50000).calls ++ []) ∧
    UpdateState controller_thread .IN_LONG_IDLE_PERIOD 50000 0
        (helper_in .IN_LONG_IDLE_PERIOD 50000) = .ok (helper_in .IN_LONG_IDLE_PERIOD 50000) :=
  ⟨rfl,
    (C11_UpdateState_notifications controller_thread .IN_LONG_IDLE_PERIOD_PAUSED 50000 0
      (helper_in .IN_LONG_IDLE_PERIOD 50000)).1,
    (C11_UpdateState_notifications controller_thread .IN_LONG_IDLE_PERIOD 50000 0
      (helper_in .IN_LONG_IDLE_PERIOD 50000)).2.2 (fun _ => rfl) rfl (Or.inl rfl)⟩

/-- Claim C12. On a helper that is not shut down, in any state it can reach: if a non-zero
quiescence duration is required and the system-is-quiescent bit reads false,
`EnableLongIdlePeriod` ends any active idle period (state `NOT_IN_IDLE_PERIOD`, queue
disabled), notifies `IsNotQuiescent` exactly once, leaves exactly one posted task, of the
re-enable closure, delayed by the required quiescence duration, and neither calls the
delegate's `CanEnterLongIdlePeriod` (whose answer does not matter) nor starts an idle period;
if the required quiescence duration is zero the quiescent bit is never read. -/
theorem C12_waits_for_quiescence (cfg : Config) (c : Caller) (env : LongIdleEnv)
    (calls : List (Caller × Op)) (h : Helper) (hc : c.passes)
    (hpre : ∀ p ∈ calls, p.2.precondition) (hrun : run cfg calls construct = .ok h)
    (hsd : env.IsShutdown = false) :
    (cfg.required_quiescence_duration_before_long_idle_period_ ≠ 0 →
      env.IsShutdown_quiescence = false → env.system_is_quiescent = false →
      ∃ h', EnableLongIdlePeriod cfg c env h = .ok h' ∧
        h'.idle_period_state_ = .NOT_IN_IDLE_PERIOD ∧
        h'.idle_queue_enabled = false ∧
        h'.posted = [⟨.enable_next_long_idle_period_closure_,
          cfg.required_quiescence_duration_before_long_idle_period_⟩] ∧
        (∃ l, h'.calls = h.calls ++ l ∧ l.count .IsNotQuiescent = 1 ∧
          Call.OnIdlePeriodStarted ∉ l ∧ ∀ t, Call.CanEnterLongIdlePeriod t ∉ l) ∧
        (∀ f, EnableLongIdlePeriod cfg c { env with CanEnterLongIdlePeriod := f } h =
          .ok h')) ∧
    (cfg.required_quiescence_duration_before_long_idle_period_ = 0 →
      ShouldWaitForQuiescence cfg c env h = .ok (false, h) ∧
      ∀ h', EnableLongIdlePeriod cfg c env h = .ok h' →
        ∃ l, h'.calls = h.calls ++ l ∧ Call.GetAndClearSystemIsQuiescentBit ∉ l ∧
          Call.IsNotQuiescent ∉ l) := by
  have hq : QueueInvariant h :=
    (run_invariants cfg calls construct h hpre hrun invariants_construct).1
  obtain ⟨h1, hend⟩ := EndIdlePeriod_total c h hc
  obtain ⟨_, hs1, hp1, _, hnot, hidle⟩ := EndIdlePeriod_summary c h h1 hend
  have hq1 : h1.idle_queue_enabled = false := by
    by_cases hs : h.idle_period_state_ = .NOT_IN_IDLE_PERIOD
    · rw [(hnot hs).2.1]
      cases hqe : h.idle_queue_enabled
      · rfl
      · exact absurd hs (hq.1 hqe)
    · exact (hidle hs).2.1
  have hcalls1 : ∃ l1, h1.calls = h.calls ++ l1 ∧ (l1 = [] ∨ l1 = [.OnIdlePeriodEnded]) := by
    by_cases hs : h.idle_period_state_ = .NOT_IN_IDLE_PERIOD
    · exact ⟨[], by rw [(hnot hs).2.2]; simp, Or.inl rfl⟩
    · exact ⟨[.OnIdlePeriodEnded], (hidle hs).2.2, Or.inr rfl⟩
  obtain ⟨l1, hl1, hl1c⟩ := hcalls1
  constructor
  · intro hreq hsdq hnq
    have hw : env.IsShutdown_quiescence = false ∧
        cfg.required_quiescence_duration_before_long_idle_period_ ≠ 0 ∧
        env.system_is_quiescent = false := ⟨hsdq, hreq, hnq⟩
    have heq := EnableLongIdlePeriod_exact cfg c env h h1 hc hsd hend
    rw [if_pos hw] at heq
    refine ⟨_, heq, hs1, hq1, by simp [hp1], ?_, ?_⟩
    · refine ⟨l1 ++ [.GetAndClearSystemIsQuiescentBit, .IsNotQuiescent], by simp [hl1], ?_⟩
      rcases hl1c with rfl | rfl <;> simp
    · intro f
      have heq2 := EnableLongIdlePeriod_exact cfg c { env with CanEnterLongIdlePeriod := f }
        h h1 hc hsd hend
      rw [if_pos (show
        ({ env with CanEnterLongIdlePeriod := f } : LongIdleEnv).IsShutdown_quiescence = false ∧
        cfg.required_quiescence_duration_before_long_idle_period_ ≠ 0 ∧
        ({ env with CanEnterLongIdlePeriod := f } : LongIdleEnv).system_is_quiescent = false
        from hw)] at heq2
      exact heq2
  · intro hzero
    constructor
    · rw [ShouldWaitForQuiescence_ok cfg c env h hc, if_pos (Or.inr hzero)]
    · intro h' hok
      obtain ⟨_, h1', hend', hcase⟩ := EnableLongIdlePeriod_of_ok cfg c env h h' hok hsd
      rw [hend] at hend'
      cases hend'
      rcases hcase with ⟨⟨_, hne, _⟩, _⟩ | ⟨_, _, _, he⟩ | ⟨_, _, he⟩
      · exact absurd hzero hne
      · rw [he, if_pos (Or.inr hzero)]
        refine ⟨l1 ++ [.CanEnterLongIdlePeriod env.NowTicks, .OnIdlePeriodStarted],
          by simp [hl1], ?_, ?_⟩ <;> (rcases hl1c with rfl | rfl <;> simp)
      · rw [he, if_pos (Or.inr hzero)]
        refine ⟨l1 ++ [.CanEnterLongIdlePeriod env.NowTicks], by simp [hl1], ?_, ?_⟩ <;>
          (rcases hl1c with rfl | rfl <;> simp)

/-- Witness of C12: with 10ms of quiescence required and the quiescent bit reading false,
`EnableLongIdlePeriod` called during a short idle period ends it and retries after 10ms. -/
theorem C12_waits_for_quiescence_witness :
    controller_thread.passes ∧
    run quiescence_config [(controller_thread, .StartIdlePeriod .IN_SHORT_IDLE_PERIOD 0 10000)]
        construct = .ok (helper_in .IN_SHORT_IDLE_PERIOD 10000) ∧
    ∃ h', EnableLongIdlePeriod quiescence_config controller_thread (scenario_env 10000 none true)
        (helper_in .IN_SHORT_IDLE_PERIOD 10000) = .ok h' ∧
      h'.idle_period_state_ = .NOT_IN_IDLE_PERIOD ∧
      h'.idle_queue_enabled = false ∧
      h'.posted = [⟨.enable_next_long_idle_period_closure_, 10000⟩] ∧
      h'.calls = [.OnIdlePeriodStarted, .OnIdlePeriodEnded, .GetAndClearSystemIsQuiescentBit,
        .IsNotQuiescent] := by
  have hc : controller_thread.passes := fun _ => rfl
  have hpre : ∀ p ∈ [(controller_thread, Op.StartIdlePeriod .IN_SHORT_IDLE_PERIOD 0 10000)],
      p.2.precondition := by
    intro p hp
    simp only [List.mem_singleton] at hp
    subst hp
    simp [Op.precondition, IsInIdlePeriod]
  obtain ⟨h', hok, hs, hq, hp, _, _⟩ :=
    (C12_waits_for_quiescence quiescence_config controller_thread
      (scenario_env 10000 none true) _ (helper_in .IN_SHORT_IDLE_PERIOD 10000) hc hpre rfl
      rfl).1 (by decide) rfl rfl
  have hval : EnableLongIdlePeriod quiescence_config controller_thread
      (scenario_env 10000 none true) (helper_in .IN_SHORT_IDLE_PERIOD 10000) =
      .ok { idle_period_state_ := .NOT_IN_IDLE_PERIOD
            idle_period_deadline_ := 0
            idle_queue_enabled := false
            fences_inserted := 1
            posted := [⟨.enable_next_long_idle_period_closure_, 10000⟩]
            calls := [.OnIdlePeriodStarted, .OnIdlePeriodEnded,
              .GetAndClearSystemIsQuiescentBit, .IsNotQuiescent] } := rfl
  refine ⟨hc, rfl, h', hok, hs, hq, hp, ?_⟩
  rw [hval] at hok
  cases hok
  rfl

/-- Claim C13. `EnableLongIdlePeriod` is idempotent: for every helper state, whenever a call
returns, a second call with the same clock reading and the same collaborator answers returns
too and yields the same idle period state, deadline, queue enabled flag and posted tasks as the
first; and a call on the controller thread returns whenever the candidate duration is positive,
no idle period is to be started, or assertions are compiled out. -/
theorem C13_EnableLongIdlePeriod_idempotent (cfg : Config) (c : Caller) (env : LongIdleEnv)
    (h : Helper) :
    (∀ h1, EnableLongIdlePeriod cfg c env h = .ok h1 →
      ∃ h2, EnableLongIdlePeriod cfg c env h1 = .ok h2 ∧
        h2.idle_period_state_ = h1.idle_period_state_ ∧
        h2.idle_period_deadline_ = h1.idle_period_deadline_ ∧
        h2.idle_queue_enabled = h1.idle_queue_enabled ∧
        h2.posted = h1.posted) ∧
    (c.passes →
      (long_idle_period_duration cfg env env.NowTicks > 0 ∨ c.dcheck_is_on = false ∨
        ¬ ((env.CanEnterLongIdlePeriod env.NowTicks).1 = true ∧
          long_idle_period_duration cfg env env.NowTicks ≥
            FromMilliseconds cfg.kMinimumIdlePeriodDurationMillis)) →
      ∃ h1, EnableLongIdlePeriod cfg c env h = .ok h1) := by
  refine ⟨?_, fun hc hpos => EnableLongIdlePeriod_returns cfg c env h hc hpos⟩
  intro h1 hok
  cases hsd : env.IsShutdown
  swap
  · obtain ⟨hc, _⟩ := EnableLongIdlePeriod_summary cfg c env h h1 hok
    rw [EnableLongIdlePeriod_shutdown cfg c env h hc hsd] at hok
    cases hok
    exact ⟨h, EnableLongIdlePeriod_shutdown cfg c env h hc hsd, rfl, rfl, rfl, rfl⟩
  obtain ⟨hc, h0, hend, hcase⟩ := EnableLongIdlePeriod_of_ok cfg c env h h1 hok hsd
  obtain ⟨_, hs0, hp0, _⟩ := EndIdlePeriod_summary c h h0 hend
  rcases hcase with ⟨hw, he⟩ | ⟨hw, hstart, hpos, he⟩ | ⟨hw, hstart, he⟩
  · -- both calls wait for quiescence
    have hs1 : h1.idle_period_state_ = .NOT_IN_IDLE_PERIOD := by rw [he]; exact hs0
    have hend1 := EndIdlePeriod_not_idle c h1 hc hs1
    have heq := EnableLongIdlePeriod_exact cfg c env h1 _ hc hsd hend1
    rw [if_pos hw] at heq
    refine ⟨_, heq, rfl, rfl, rfl, ?_⟩
    rw [he]
    simp [hp0]
  · -- both calls start the same idle period
    have hst : (if env.HasPendingImmediateWork = false then
          IdlePeriodState.IN_LONG_IDLE_PERIOD_PAUSED
        else if long_idle_period_duration cfg env env.NowTicks =
            FromMilliseconds cfg.kMaximumIdlePeriodMillis then
          IdlePeriodState.IN_LONG_IDLE_PERIOD_WITH_MAX_DEADLINE
        else IdlePeriodState.IN_LONG_IDLE_PERIOD) ≠ .NOT_IN_IDLE_PERIOD := by
      split <;> [simp; (split <;> simp)]
    have hs1 : h1.idle_period_state_ ≠ .NOT_IN_IDLE_PERIOD := by rw [he]; exact hst
    have hend1 := EndIdlePeriod_idle c h1 hc hs1
    have heq := EnableLongIdlePeriod_exact cfg c env h1 _ hc hsd hend1
    rw [if_neg hw, if_pos hstart] at heq
    have hpre : (env.NowTicks + long_idle_period_duration cfg env env.NowTicks >
          env.NowTicks ∧ IsInIdlePeriod
            (if env.HasPendingImmediateWork = false then
              IdlePeriodState.IN_LONG_IDLE_PERIOD_PAUSED
            else if long_idle_period_duration cfg env env.NowTicks =
                FromMilliseconds cfg.kMaximumIdlePeriodMillis then
              IdlePeriodState.IN_LONG_IDLE_PERIOD_WITH_MAX_DEADLINE
            else IdlePeriodState.IN_LONG_IDLE_PERIOD) = true) ∨
        c.dcheck_is_on = false := by
      rcases hpos with hp | hoff
      · left
        refine ⟨?_, (IsInIdlePeriod_iff _).2 hst⟩
        show env.NowTicks + long_idle_period_duration cfg env env.NowTicks > env.NowTicks
        linarith
      · exact Or.inr hoff
    have hsub : env.NowTicks + long_idle_period_duration cfg env env.NowTicks
        - env.NowTicks = long_idle_period_duration cfg env env.NowTicks := by ring
    have hlong : ¬ env.NowTicks + long_idle_period_duration cfg env env.NowTicks
        - env.NowTicks < FromMilliseconds cfg.kMinimumIdlePeriodDurationMillis := by
      rw [hsub]; exact not_lt.2 hstart.2
    rw [StartIdlePeriod_from_not_idle_exact cfg c _ _ _ _ hc hpre hst rfl hlong] at heq
    refine ⟨_, heq, ?_, ?_, ?_, ?_⟩ <;> simp [he, hp0]
  · -- both calls schedule the same retry
    have hs1 : h1.idle_period_state_ = .NOT_IN_IDLE_PERIOD := by rw [he]; exact hs0
    have hend1 := EndIdlePeriod_not_idle c h1 hc hs1
    have heq := EnableLongIdlePeriod_exact cfg c env h1 _ hc hsd hend1
    rw [if_neg hw, if_neg hstart] at heq
    refine ⟨_, heq, rfl, rfl, rfl, ?_⟩
    rw [he]
    simp [hp0]

/-- Witness of C13: scenario B called twice on a fresh helper; both calls end in
`IN_LONG_IDLE_PERIOD` with deadline 10ms and nothing posted. -/
theorem C13_EnableLongIdlePeriod_idempotent_witness :
    ∃ h1 h2, EnableLongIdlePeriod scenario_config controller_thread
        (scenario_env 0 (some 10000) true) construct = .ok h1 ∧
      EnableLongIdlePeriod scenario_config controller_thread
        (scenario_env 0 (some 10000) true) h1 = .ok h2 ∧
      h1.idle_period_state_ = .IN_LONG_IDLE_PERIOD ∧ h1.idle_period_deadline_ = 10000 ∧
      h2.idle_period_state_ = h1.idle_period_state_ ∧
      h2.idle_period_deadline_ = h1.idle_period_deadline_ ∧
      h2.idle_queue_enabled = h1.idle_queue_enabled ∧
      h2.posted = h1.posted := by
  obtain ⟨h2, hok2, hs, hd, hq, hp⟩ :=
    (C13_EnableLongIdlePeriod_idempotent scenario_config controller_thread
      (scenario_env 0 (some 10000) true) construct).1 _ rfl
  exact ⟨_, h2, rfl, hok2, rfl, rfl, hs, hd, hq, hp⟩

/-- Claim C14. For every idle `new_state` and every `now`, `deadline` with
`deadline - now >= minimum viable duration`, `StartIdlePeriod(new_state, now, deadline)` called
on the controller thread while the helper is not in an idle period leaves the idle queue
enabled, inserts one fence, sets the state to `new_state` and the deadline to the given one,
and notifies `OnIdlePeriodStarted` exactly once, changing nothing else.  The deadline is after
`now`, as the method requires: this follows from the bound whenever the minimum is positive,
and is not checked when assertions are compiled out. -/
theorem C14_StartIdlePeriod_starts (cfg : Config) (c : Caller) (new_state : IdlePeriodState)
    (now deadline : TimeTicks) (h : Helper) (hc : c.passes)
    (hidle : IsInIdlePeriod new_state = true)
    (hmin : deadline - now ≥ FromMilliseconds cfg.kMinimumIdlePeriodDurationMillis)
    (hpre : 0 < cfg.kMinimumIdlePeriodDurationMillis ∨ deadline > now ∨
      c.dcheck_is_on = false)
    (hs : h.idle_period_state_ = .NOT_IN_IDLE_PERIOD) :
    StartIdlePeriod cfg c new_state now deadline h =
      .ok { h with
        idle_period_state_ := new_state,
        idle_period_deadline_ := deadline,
        idle_queue_enabled := true,
        fences_inserted := h.fences_inserted + 1,
        calls := h.calls ++ [.OnIdlePeriodStarted] } := by
  have hpre' : (deadline > now ∧ IsInIdlePeriod new_state = true) ∨
      c.dcheck_is_on = false := by
    rcases hpre with hpos | hgt | hoff
    · left
      refine ⟨?_, hidle⟩
      have h0 : FromMilliseconds cfg.kMinimumIdlePeriodDurationMillis > 0 := by
        unfold FromMilliseconds
        positivity
      show deadline > now
      linarith
    · exact Or.inl ⟨hgt, hidle⟩
    · exact Or.inr hoff
  exact StartIdlePeriod_from_not_idle_exact cfg c new_state now deadline h hc hpre'
    ((IsInIdlePeriod_iff _).1 hidle) hs (not_lt.2 hmin)

/-- Witness of C14: a short idle period of 10ms started on a fresh helper. -/
theorem C14_StartIdlePeriod_starts_witness :
    controller_thread.passes ∧
    StartIdlePeriod scenario_config controller_thread .IN_SHORT_IDLE_PERIOD 0 10000 construct =
      .ok { idle_period_state_ := .IN_SHORT_IDLE_PERIOD
            idle_period_deadline_ := 10000
            idle_queue_enabled := true
            fences_inserted := 1
            posted := []
            calls := [.OnIdlePeriodStarted] } :=
  ⟨fun _ => rfl,
    C14_StartIdlePeriod_starts scenario_config controller_thread .IN_SHORT_IDLE_PERIOD 0 10000
      construct (fun _ => rfl) rfl (by decide) (Or.inl (by decide)) rfl⟩

/-- Counterexample to C15 as stated: a short idle period with deadline 10ms is active (queue
enabled); `StartIdlePeriod` at 9.5ms with the same deadline, 0.5ms away and below the 1ms
minimum, is abandoned and leaves the idle queue enabled, not disabled. -/
theorem C15_abandoned_start_counterexample :
    run scenario_config [(controller_thread, .StartIdlePeriod .IN_SHORT_IDLE_PERIOD 0 10000)]
        construct = .ok (helper_in .IN_SHORT_IDLE_PERIOD 10000) ∧
    IsInIdlePeriod .IN_SHORT_IDLE_PERIOD = true ∧
    (0 : Int) < 10000 - 9500 ∧
    (10000 : Int) - 9500 < FromMilliseconds scenario_config.kMinimumIdlePeriodDurationMillis ∧
    ∃ h', StartIdlePeriod scenario_config controller_thread .IN_SHORT_IDLE_PERIOD 9500 10000
        (helper_in .IN_SHORT_IDLE_PERIOD 10000) = .ok h' ∧
      h'.idle_queue_enabled = true :=
  ⟨rfl, rfl, by decide, by decide, _, rfl, rfl⟩

/-- Claim C15, amended. For every helper state and every idle `new_state`,
`StartIdlePeriod(new_state, now, deadline)` with `0 < deadline - now < minimum viable duration`
abandons the start and leaves the helper exactly as it was: state, deadline, fences, posted
tasks and delegate record are unchanged and the idle queue keeps its enabled flag, so the queue
stays disabled when the helper was not in an idle period and stays enabled when it was. -/
theorem C15_abandoned_start_amended (cfg : Config) (c : Caller) (new_state : IdlePeriodState)
    (now deadline : TimeTicks) (h : Helper) (hc : c.passes)
    (hidle : IsInIdlePeriod new_state = true)
    (hpos : 0 < deadline - now)
    (hshort : deadline - now < FromMilliseconds cfg.kMinimumIdlePeriodDurationMillis) :
    StartIdlePeriod cfg c new_state now deadline h = .ok h ∧
    (∀ h', StartIdlePeriod cfg c new_state now deadline h = .ok h' →
      h'.idle_queue_enabled = h.idle_queue_enabled) := by
  have heq : StartIdlePeriod cfg c new_state now deadline h = .ok h :=
    StartIdlePeriod_abandoned cfg c new_state now deadline h hc
      (Or.inl ⟨by show deadline > now; linarith, hidle⟩) hshort
  refine ⟨heq, ?_⟩
  intro h' hok
  rw [heq] at hok
  cases hok
  rfl

/-- Witness of C15, amended: a start 0.5ms before the deadline on a fresh helper is abandoned
and the queue stays disabled. -/
theorem C15_abandoned_start_amended_witness :
    controller_thread.passes ∧
    StartIdlePeriod scenario_config controller_thread .IN_SHORT_IDLE_PERIOD 9500 10000
        construct = .ok construct ∧
    construct.idle_queue_enabled = false :=
  ⟨fun _ => rfl,
    (C15_abandoned_start_amended scenario_config controller_thread .IN_SHORT_IDLE_PERIOD 9500
      10000 construct (fun _ => rfl) rfl (by decide) (by decide)).1,
    rfl⟩

/-- Counterexample to C16 as stated: while a long idle period is paused, two idle tasks posted
on the controller thread leave two live re-enable tasks pending; the second post cancelled
nothing. -/
theorem C16_cancellation_counterexample :
    ∃ h, run scenario_config sample_calls_two_posts construct = .ok h ∧
      h.idle_period_state_ = .IN_LONG_IDLE_PERIOD_PAUSED ∧
      h.posted = [⟨.enable_next_long_idle_period_closure_, 0⟩,
                  ⟨.enable_next_long_idle_period_closure_, 0⟩] ∧
      ¬ h.posted.length ≤ 1 :=
  ⟨_, rfl, rfl, rfl, by decide⟩

/-- Claim C16, amended. `EndIdlePeriod` cancels every previously armed re-enable and
idle-task-posted action: after it nothing is pending, so delivering a task armed before it does
nothing.  `EnableLongIdlePeriod` on a helper that is not shut down begins with `EndIdlePeriod`,
so after it at most one task is pending, the re-enable task it posted itself.  The posts made
by `OnIdleTaskPostedOnMainThread` and by `UpdateLongIdlePeriodStateAfterIdleTask` cancel
nothing: they add one re-enable task to those already pending. -/
theorem C16_cancellation_amended (cfg : Config) (c : Caller) (h : Helper) :
    (∀ h', EndIdlePeriod c h = .ok h' →
      h'.posted = [] ∧
      ∀ (c2 : Caller) (index : Nat) (env : LongIdleEnv),
        RunPostedTask cfg c2 index env h' = .ok h') ∧
    (∀ (env : LongIdleEnv) (h' : Helper), env.IsShutdown = false →
      EnableLongIdlePeriod cfg c env h = .ok h' →
      h'.posted = [] ∨ ∃ d, h'.posted = [⟨.enable_next_long_idle_period_closure_, d⟩]) ∧
    (∀ h', OnIdleTaskPostedOnMainThread c h = .ok h' →
      h'.posted = h.posted ∨
      h'.posted = h.posted ++ [⟨.enable_next_long_idle_period_closure_, 0⟩]) ∧
    (∀ (env : IdleTaskEnv) (h' : Helper), IsInLongIdlePeriod h.idle_period_state_ = true →
      UpdateLongIdlePeriodStateAfterIdleTask cfg c env h = .ok h' →
      h'.posted = h.posted ∨
      (∃ d, h'.posted = h.posted ++ [⟨.enable_next_long_idle_period_closure_, d⟩]) ∨
      EnableLongIdlePeriod cfg c env.enable h = .ok h') := by
  refine ⟨?_, ?_, ?_, ?_⟩
  · intro h' hok
    obtain ⟨_, _, hp, _⟩ := EndIdlePeriod_summary c h h' hok
    refine ⟨hp, fun c2 index env => ?_⟩
    simp [RunPostedTask, hp, pure, Except.pure]
  · intro env h' hsd hok
    obtain ⟨_, h1, hend, hcase⟩ := EnableLongIdlePeriod_of_ok cfg c env h h' hok hsd
    obtain ⟨_, _, hp1, _⟩ := EndIdlePeriod_summary c h h1 hend
    rcases hcase with ⟨_, he⟩ | ⟨_, _, _, he⟩ | ⟨_, _, he⟩
    · refine Or.inr ⟨cfg.required_quiescence_duration_before_long_idle_period_, ?_⟩
      rw [he]
      simp [hp1]
    · exact Or.inl (by rw [he]; simp [hp1])
    · refine Or.inr ⟨if (env.CanEnterLongIdlePeriod env.NowTicks).1 = false then
          (env.CanEnterLongIdlePeriod env.NowTicks).2.getD 0
        else FromMilliseconds cfg.kRetryEnableLongIdlePeriodDelayMillis, ?_⟩
      rw [he]
      simp [hp1]
  · intro h' hok
    by_cases hc : c.passes
    swap
    · rw [OnIdleTaskPostedOnMainThread_error c h hc] at hok
      cases hok
    rw [OnIdleTaskPostedOnMainThread_cases c h hc] at hok
    split at hok
    · cases hok
      exact Or.inr rfl
    · cases hok
      exact Or.inl rfl
  · intro env h' hlong hok
    by_cases hc : c.passes
    swap
    · simp [UpdateLongIdlePeriodStateAfterIdleTask, CheckOnValidThread_error c hc, bind,
        Except.bind] at hok
    rw [UpdateLongIdlePeriodStateAfterIdleTask_cases cfg c env h hc hlong] at hok
    split at hok
    · obtain ⟨_, _, hp, _⟩ := UpdateState_summary c _ _ _ h h' hok
      exact Or.inl hp
    · split at hok
      · split at hok
        · exact Or.inr (Or.inr hok)
        · cases hok
          exact Or.inr (Or.inl ⟨_, rfl⟩)
      · cases hok
        exact Or.inl rfl

/-- Witness of C16, amended: `EndIdlePeriod` after the two posts leaves nothing pending, and
delivering the first of the stale tasks then does nothing. -/
theorem C16_cancellation_amended_witness :
    ∃ h h', run scenario_config sample_calls_two_posts construct = .ok h ∧
      h.posted.length = 2 ∧
      EndIdlePeriod controller_thread h = .ok h' ∧ h'.posted = [] ∧
      RunPostedTask scenario_config controller_thread 0 (scenario_env 0 none true) h' =
        .ok h' := by
  obtain ⟨hp, hrun⟩ := (C16_cancellation_amended scenario_config controller_thread _).1 _
    (rfl : EndIdlePeriod controller_thread
      { idle_period_state_ := .IN_LONG_IDLE_PERIOD_PAUSED
        idle_period_deadline_ := 50000
        idle_queue_enabled := true
        fences_inserted := 1
        posted := [⟨.enable_next_long_idle_period_closure_, 0⟩,
                   ⟨.enable_next_long_idle_period_closure_, 0⟩]
        calls := [.CanEnterLongIdlePeriod 0, .OnIdlePeriodStarted] } = .ok _)
  exact ⟨_, _, rfl, rfl, rfl, hp, hrun controller_thread 0 (scenario_env 0 none true)⟩

theorem EnableLongIdlePeriod_ends_regime (cfg : Config) (c : Caller) (env : LongIdleEnv)
    (h h' : Helper) (hok : EnableLongIdlePeriod cfg c env h = .ok h')
    (hin : h.idle_period_state_ ≠ .NOT_IN_IDLE_PERIOD) :
    h' = h ∨ ∃ l, h'.calls = h.calls ++ l ∧ Call.OnIdlePeriodEnded ∈ l := by
  cases hsd : env.IsShutdown
  swap
  · obtain ⟨hc, _⟩ := EnableLongIdlePeriod_summary cfg c env h h' hok
    rw [EnableLongIdlePeriod_shutdown cfg c env h hc hsd] at hok
    cases hok
    exact Or.inl rfl
  right
  obtain ⟨_, h1, hend, hcase⟩ := EnableLongIdlePeriod_of_ok cfg c env h h' hok hsd
  obtain ⟨_, _, _, _, _, hidle⟩ := EndIdlePeriod_summary c h h1 hend
  have hc1 := (hidle hin).2.2
  rcases hcase with ⟨_, he⟩ | ⟨_, _, _, he⟩ | ⟨_, _, he⟩
  · exact ⟨[.OnIdlePeriodEnded] ++ [.GetAndClearSystemIsQuiescentBit, .IsNotQuiescent],
      by rw [he]; simp [hc1], by simp⟩
  · refine ⟨[.OnIdlePeriodEnded] ++ ((if env.IsShutdown_quiescence = true ∨
        cfg.required_quiescence_duration_before_long_idle_period_ = 0 then []
        else [.GetAndClearSystemIsQuiescentBit]) ++
        [.CanEnterLongIdlePeriod env.NowTicks] ++ [.OnIdlePeriodStarted]), ?_, by simp⟩
    rw [he]
    simp [hc1]
  · refine ⟨[.OnIdlePeriodEnded] ++ ((if env.IsShutdown_quiescence = true ∨
        cfg.required_quiescence_duration_before_long_idle_period_ = 0 then []
        else [.GetAndClearSystemIsQuiescentBit]) ++
        [.CanEnterLongIdlePeriod env.NowTicks]), ?_, by simp⟩
    rw [he]
    simp [hc1]

/-- Counterexample to C17 as stated: a long idle period with deadline 50ms is active; a direct
`StartIdlePeriod(IN_SHORT_IDLE_PERIOD, 1ms, 11ms)`, within its precondition, moves the helper
from one idle state to another without ending the idle period and lowers the deadline from
50ms to 11ms. -/
theorem C17_deadline_decreases_counterexample :
    ∃ h1 h2,
      run scenario_config [(controller_thread, .EnableLongIdlePeriod (scenario_env 0 none true))]
        construct = .ok h1 ∧
      (Op.StartIdlePeriod .IN_SHORT_IDLE_PERIOD 1000 11000).precondition ∧
      step scenario_config controller_thread (.StartIdlePeriod .IN_SHORT_IDLE_PERIOD 1000 11000)
        h1 = .ok h2 ∧
      IsInIdlePeriod h1.idle_period_state_ = true ∧
      IsInIdlePeriod h2.idle_period_state_ = true ∧
      h2.calls = h1.calls ∧
      h1.idle_period_deadline_ = 50000 ∧ h2.idle_period_deadline_ = 11000 ∧
      ¬ h2.idle_period_deadline_ ≥ h1.idle_period_deadline_ :=
  ⟨_, _, rfl, ⟨by decide, rfl⟩, rfl, rfl, rfl, rfl, rfl, rfl, by decide⟩

/-- Claim C17, amended. Along every sequence of helper operations, a call that takes the helper
from an idle state to an idle state leaves the stored deadline unchanged (hence not decreased),
unless the call ended the idle period in between (it notified `OnIdlePeriodEnded`, as
`EnableLongIdlePeriod` does before it starts a fresh period), or the call is a direct
`StartIdlePeriod` with a new state different from the current one, which installs the deadline
it is given, whether later or earlier. -/
theorem C17_deadline_between_idle_states_amended (cfg : Config) (c : Caller) (op : Op)
    (h h' : Helper) (hstep : step cfg c op h = .ok h')
    (hin : IsInIdlePeriod h.idle_period_state_ = true)
    (hin' : IsInIdlePeriod h'.idle_period_state_ = true) :
    h'.idle_period_deadline_ = h.idle_period_deadline_ ∨
    (∃ l, h'.calls = h.calls ++ l ∧ Call.OnIdlePeriodEnded ∈ l) ∨
    (∃ new_state now deadline, op = .StartIdlePeriod new_state now deadline ∧
      new_state ≠ h.idle_period_state_ ∧ h'.idle_period_state_ = new_state ∧
      h'.idle_period_deadline_ = deadline) := by
  have hne : h.idle_period_state_ ≠ .NOT_IN_IDLE_PERIOD := (IsInIdlePeriod_iff _).1 hin
  have hne' : h'.idle_period_state_ ≠ .NOT_IN_IDLE_PERIOD := (IsInIdlePeriod_iff _).1 hin'
  have henable : ∀ (env : LongIdleEnv) (g : Helper), g.calls = h.calls →
      g.idle_period_state_ = h.idle_period_state_ →
      g.idle_period_deadline_ = h.idle_period_deadline_ →
      EnableLongIdlePeriod cfg c env g = .ok h' →
      h'.idle_period_deadline_ = h.idle_period_deadline_ ∨
      (∃ l, h'.calls = h.calls ++ l ∧ Call.OnIdlePeriodEnded ∈ l) := by
    intro env g hgc hgs hgd hok
    rcases EnableLongIdlePeriod_ends_regime cfg c env g h' hok (by rw [hgs]; exact hne) with
      he | ⟨l, hl, hm⟩
    · left; rw [he, hgd]
    · right; exact ⟨l, by rw [hl, hgc], hm⟩
  have hend : ∀ g : Helper, EndIdlePeriod c g = .ok h' → False := by
    intro g hok
    obtain ⟨_, hs, _⟩ := EndIdlePeriod_summary c g h' hok
    exact hne' hs
  cases op with
  | EnableLongIdlePeriod env =>
    rcases henable env h rfl rfl rfl hstep with hd | hl
    · exact Or.inl hd
    · exact Or.inr (Or.inl hl)
  | StartIdlePeriod ns now deadline =>
    rcases StartIdlePeriod_summary cfg c ns now deadline h h' hstep with
      ⟨_, he⟩ | ⟨_, _, _, _, hcase⟩
    · left; rw [he]
    · rcases hcase with ⟨_, _, hd, _⟩ | ⟨hns, hs, hd⟩
      · exact Or.inl hd
      · exact Or.inr (Or.inr ⟨ns, now, deadline, rfl, hns, hs, hd⟩)
  | EndIdlePeriod => exact absurd (hend h hstep) id
  | WillProcessTask =>
    simp only [step, WillProcessTask, pure, Except.pure] at hstep
    cases hstep
    exact Or.inl rfl
  | DidProcessTask env =>
    by_cases hc : c.passes
    swap
    · simp only [step] at hstep
      rw [DidProcessTask_error cfg c env h hc] at hstep
      cases hstep
    simp only [step] at hstep
    rw [DidProcessTask_cases cfg c env h hc] at hstep
    split at hstep
    · split at hstep
      · rcases henable env.enable h rfl rfl rfl hstep with hd | hl
        · exact Or.inl hd
        · exact Or.inr (Or.inl hl)
      · exact absurd (hend h hstep) id
    · cases hstep
      exact Or.inl rfl
  | WillProcessIdleTask => rw [map_const_ok _ h h' hstep]; exact Or.inl rfl
  | DidProcessIdleTask env =>
    by_cases hc : c.passes
    swap
    · simp [step, DidProcessIdleTask, CheckOnValidThread_error c hc, bind, Except.bind]
        at hstep
    simp only [step, DidProcessIdleTask, CheckOnValidThread_ok c hc,
      idle_period_state_ok c h hc, bind, Except.bind, pure, Except.pure] at hstep
    split at hstep
    · rename_i hlong
      rw [UpdateLongIdlePeriodStateAfterIdleTask_cases cfg c env h hc hlong] at hstep
      split at hstep
      · obtain ⟨_, _, _, hcase⟩ := UpdateState_summary c _ _ _ h h' hstep
        rcases hcase with ⟨_, he⟩ | ⟨_, _, hd⟩
        · left; rw [he]
        · exact Or.inl hd
      · split at hstep
        · split at hstep
          · rcases henable env.enable h rfl rfl rfl hstep with hd | hl
            · exact Or.inl hd
            · exact Or.inr (Or.inl hl)
          · cases hstep
            exact Or.inl rfl
        · cases hstep
          exact Or.inl rfl
    · cases hstep
      exact Or.inl rfl
  | OnIdleTaskPosted b =>
    obtain ⟨_, hd, _⟩ := OnIdleTaskPosted_summary c b h h' hstep
    exact Or.inl hd
  | CurrentIdleTaskDeadline => rw [map_const_ok _ h h' hstep]; exact Or.inl rfl
  | CanExceedIdleDeadlineIfRequired => rw [map_const_ok _ h h' hstep]; exact Or.inl rfl
  | SchedulerIdlePeriodState => rw [map_const_ok _ h h' hstep]; exact Or.inl rfl
  | RunPostedTask index env =>
    simp only [step, RunPostedTask] at hstep
    split at hstep
    · cases hstep
      exact Or.inl rfl
    · split at hstep
      · rcases henable env { h with posted := h.posted.eraseIdx index } rfl rfl rfl hstep
          with hd | hl
        · exact Or.inl hd
        · exact Or.inr (Or.inl hl)
      · obtain ⟨_, hd, _⟩ := OnIdleTaskPostedOnMainThread_summary c _ h' hstep
        exact Or.inl hd

/-- Witness of C17, amended: an idle task that finds the queue empty pauses a long idle period
with deadline 50ms; the deadline stays 50ms. -/
theorem C17_deadline_between_idle_states_amended_witness :
    ∃ h', step scenario_config controller_thread
        (.DidProcessIdleTask ⟨false, false, 30000, scenario_env 30000 none true⟩)
        (helper_in .IN_LONG_IDLE_PERIOD 50000) = .ok h' ∧
      h'.idle_period_state_ = .IN_LONG_IDLE_PERIOD_PAUSED ∧
      h'.idle_period_deadline_ = 50000 ∧
      (h'.idle_period_deadline_ = (helper_in .IN_LONG_IDLE_PERIOD 50000).idle_period_deadline_ ∨
       (∃ l, h'.calls = (helper_in .IN_LONG_IDLE_PERIOD 50000).calls ++ l ∧
          Call.OnIdlePeriodEnded ∈ l) ∨
       (∃ new_state now deadline,
          Op.DidProcessIdleTask ⟨false, false, 30000, scenario_env 30000 none true⟩ =
            .StartIdlePeriod new_state now deadline ∧
          new_state ≠ (helper_in .IN_LONG_IDLE_PERIOD 50000).idle_period_state_ ∧
          h'.idle_period_state_ = new_state ∧ h'.idle_period_deadline_ = deadline)) :=
  ⟨_, rfl, rfl, rfl,
    C17_deadline_between_idle_states_amended scenario_config controller_thread
      (.DidProcessIdleTask ⟨false, false, 30000, scenario_env 30000 none true⟩)
      (helper_in .IN_LONG_IDLE_PERIOD 50000) _ rfl rfl rfl⟩

/-- Counterexample to C18 as stated: a delegate that refuses entry and supplies the delay
-5ms makes `EnableLongIdlePeriod` pass -5ms to `PostDelayedTask`. -/
theorem C18_negative_delay_counterexample :
    EnableLongIdlePeriod scenario_config controller_thread (refusing_env 0 (some (-5000)))
        construct =
      .ok { construct with
            posted := [⟨.enable_next_long_idle_period_closure_, -5000⟩]
            calls := [.CanEnterLongIdlePeriod 0] } ∧
    ¬ (0 : Int) ≤ -5000 :=
  ⟨rfl, by decide⟩

/-- Claim C18, amended. Every delay `UpdateLongIdlePeriodStateAfterIdleTask` itself passes to
`PostDelayedTask` is positive (it clamps `deadline - now` at zero and posts only a non-zero
delay).  `EnableLongIdlePeriod` clamps nothing: the delay it passes is the configured required
quiescence duration, the configured retry delay or, when the delegate refuses entry, the delay
the delegate supplied (zero if it supplied none); so it is non-negative whenever the configured
durations are non-negative and the delegate supplies no negative delay, whatever the clock
reads and also when the next scheduled task lies in the past. -/
theorem C18_posted_delays_amended (cfg : Config) (c : Caller) :
    (∀ (env : IdleTaskEnv) (h h' : Helper), IsInLongIdlePeriod h.idle_period_state_ = true →
      UpdateLongIdlePeriodStateAfterIdleTask cfg c env h = .ok h' →
      h'.posted = h.posted ∨
      (∃ d, 0 < d ∧ h'.posted = h.posted ++ [⟨.enable_next_long_idle_period_closure_, d⟩]) ∨
      EnableLongIdlePeriod cfg c env.enable h = .ok h') ∧
    (∀ (env : LongIdleEnv) (h h' : Helper), env.IsShutdown = false →
      EnableLongIdlePeriod cfg c env h = .ok h' →
      h'.posted = [] ∨
      h'.posted = [⟨.enable_next_long_idle_period_closure_,
        cfg.required_quiescence_duration_before_long_idle_period_⟩] ∨
      h'.posted = [⟨.enable_next_long_idle_period_closure_,
        FromMilliseconds cfg.kRetryEnableLongIdlePeriodDelayMillis⟩] ∨
      ((env.CanEnterLongIdlePeriod env.NowTicks).1 = false ∧
        h'.posted = [⟨.enable_next_long_idle_period_closure_,
          (env.CanEnterLongIdlePeriod env.NowTicks).2.getD 0⟩])) ∧
    (∀ (env : LongIdleEnv) (h h' : Helper), env.IsShutdown = false →
      EnableLongIdlePeriod cfg c env h = .ok h' →
      0 ≤ cfg.required_quiescence_duration_before_long_idle_period_ →
      0 ≤ cfg.kRetryEnableLongIdlePeriodDelayMillis →
      (∀ d, (env.CanEnterLongIdlePeriod env.NowTicks).2 = some d → 0 ≤ d) →
      ∀ t ∈ h'.posted, 0 ≤ t.delay) := by
  have hposted : ∀ (env : LongIdleEnv) (h h' : Helper), env.IsShutdown = false →
      EnableLongIdlePeriod cfg c env h = .ok h' →
      h'.posted = [] ∨
      h'.posted = [⟨.enable_next_long_idle_period_closure_,
        cfg.required_quiescence_duration_before_long_idle_period_⟩] ∨
      h'.posted = [⟨.enable_next_long_idle_period_closure_,
        FromMilliseconds cfg.kRetryEnableLongIdlePeriodDelayMillis⟩] ∨
      ((env.CanEnterLongIdlePeriod env.NowTicks).1 = false ∧
        h'.posted = [⟨.enable_next_long_idle_period_closure_,
          (env.CanEnterLongIdlePeriod env.NowTicks).2.getD 0⟩]) := by
    intro env h h' hsd hok
    obtain ⟨_, h1, hend, hcase⟩ := EnableLongIdlePeriod_of_ok cfg c env h h' hok hsd
    obtain ⟨_, _, hp1, _⟩ := EndIdlePeriod_summary c h h1 hend
    rcases hcase with ⟨_, he⟩ | ⟨_, _, _, he⟩ | ⟨_, _, he⟩
    · right; left
      rw [he]
      simp [hp1]
    · left
      rw [he]
      simp [hp1]
    · by_cases hcan : (env.CanEnterLongIdlePeriod env.NowTicks).1 = false
      · right; right; right
        refine ⟨hcan, ?_⟩
        rw [he]
        simp [hp1, hcan]
      · right; right; left
        rw [he]
        simp [hp1, hcan]
  refine ⟨?_, hposted, ?_⟩
  · intro env h h' hlong hok
    by_cases hc : c.passes
    swap
    · simp [UpdateLongIdlePeriodStateAfterIdleTask, CheckOnValidThread_error c hc, bind,
        Except.bind] at hok
    rw [UpdateLongIdlePeriodStateAfterIdleTask_cases cfg c env h hc hlong] at hok
    split at hok
    · obtain ⟨_, _, hp, _⟩ := UpdateState_summary c _ _ _ h h' hok
      exact Or.inl hp
    · split at hok
      · split at hok
        · exact Or.inr (Or.inr hok)
        · rename_i hcond
          cases hok
          refine Or.inr (Or.inl ⟨h.idle_period_deadline_ - env.NowTicks, ?_, rfl⟩)
          exact not_le.1 (fun hle => hcond (Or.inr hle))
      · cases hok
        exact Or.inl rfl
  · intro env h h' hsd hok hreq hretry hdel t ht
    rcases hposted env h h' hsd hok with hp | hp | hp | ⟨_, hp⟩
    · rw [hp] at ht
      cases ht
    · rw [hp] at ht
      simp only [List.mem_singleton] at ht
      rw [ht]
      exact hreq
    · rw [hp] at ht
      simp only [List.mem_singleton] at ht
      rw [ht]
      show 0 ≤ FromMilliseconds cfg.kRetryEnableLongIdlePeriodDelayMillis
      unfold FromMilliseconds
      positivity
    · rw [hp] at ht
      simp only [List.mem_singleton] at ht
      rw [ht]
      show 0 ≤ (env.CanEnterLongIdlePeriod env.NowTicks).2.getD 0
      cases hs : (env.CanEnterLongIdlePeriod env.NowTicks).2 with
      | none => simp
      | some d => simpa using hdel d hs

/-- Witness of C18, amended: 20ms before the deadline a fence-blocked long idle period posts a
20ms re-enable task; with a next scheduled task 0.5ms in the past `EnableLongIdlePeriod` posts
its retry after the 1ms retry delay. -/
theorem C18_posted_delays_amended_witness :
    UpdateLongIdlePeriodStateAfterIdleTask scenario_config controller_thread
        ⟨true, true, 30000, scenario_env 30000 none true⟩
        (helper_in .IN_LONG_IDLE_PERIOD 50000) =
      .ok { helper_in .IN_LONG_IDLE_PERIOD 50000 with
            posted := [⟨.enable_next_long_idle_period_closure_, 20000⟩] } ∧
    ∃ h', EnableLongIdlePeriod scenario_config controller_thread
        (scenario_env 0 (some (-500)) true) construct = .ok h' ∧
      h'.posted = [⟨.enable_next_long_idle_period_closure_, 1000⟩] ∧
      ∀ t ∈ h'.posted, 0 ≤ t.delay := by
  have hval : EnableLongIdlePeriod scenario_config controller_thread
      (scenario_env 0 (some (-500)) true) construct =
      .ok { construct with
            posted := [⟨.enable_next_long_idle_period_closure_, 1000⟩]
            calls := [.CanEnterLongIdlePeriod 0] } := rfl
  refine ⟨rfl, _, hval, rfl, ?_⟩
  exact (C18_posted_delays_amended scenario_config controller_thread).2.2
    (scenario_env 0 (some (-500)) true) construct _ rfl hval (by decide) (by decide)
    (fun d hd => by simp [scenario_env] at hd)

/-! ## The object at an abort -/

theorem Method_call_pure {α : Type} (a : α) (obj : Object) :
    Method.call (pure a) obj = (.ok a, obj) := rfl

theorem Method_call_bind {α β : Type} (m : Method α) (f : α → Method β) (obj : Object) :
    Method.call (m >>= f) obj =
      match Method.call m obj with
      | (.ok a, obj1) => Method.call (f a) obj1
      | (.error e, obj1) => (.error e, obj1) := rfl

theorem Method_call_check (r : Except Fatal Unit) (obj : Object) :
    Method.call (Method.check r) obj = (r, obj) := rfl

theorem Method_call_get (obj : Object) : Method.call Method.get obj = (.ok obj, obj) := rfl

theorem Method_call_modify (f : Object → Object) (obj : Object) :
    Method.call (Method.modify f) obj = (.ok (), f obj) := rfl

theorem Method_call_helper (f : Helper → Helper) (obj : Object) :
    Method.call (Method.helper f) obj = (.ok (), { obj with helper := f obj.helper }) := rfl

theorem Method_call_trace (e : TraceEvent) (obj : Object) :
    Method.call (Method.trace e) obj = (.ok (), { obj with trace := obj.trace ++ [e] }) := rfl

theorem not_passes_of_off_thread (c : Caller) (hon : c.dcheck_is_on = true)
    (hthread : c.on_valid_thread = false) : ¬ c.passes := fun hp => by
  have := hp hon
  rw [hthread] at this
  cases this

theorem idle_period_state_method_abort (c : Caller) (obj : Object) (hc : ¬ c.passes) :
    (idle_period_state_method c).call obj = (.error .DCHECK, obj) := by
  simp only [idle_period_state_method, Method_call_bind, Method_call_check,
    CheckOnValidThread_error c hc]

theorem idle_period_deadline_method_abort (c : Caller) (obj : Object) (hc : ¬ c.passes) :
    (idle_period_deadline_method c).call obj = (.error .DCHECK, obj) := by
  simp only [idle_period_deadline_method, Method_call_bind, Method_call_check,
    CheckOnValidThread_error c hc]

theorem UpdateState_method_abort (c : Caller) (ns : IdlePeriodState) (nd t0 : TimeTicks)
    (tr : TraceEnv) (obj : Object) (hc : ¬ c.passes) :
    (UpdateState_method c ns nd t0 tr).call obj = (.error .DCHECK, obj) := by
  simp only [UpdateState_method, Method_call_bind, Method_call_check, Method_call_get,
    CheckOnValidThread_error c hc]

theorem EndIdlePeriod_method_abort (c : Caller) (tr : TraceEnv) (obj : Object)
    (hc : ¬ c.passes) :
    (EndIdlePeriod_method c tr).call obj = (.error .DCHECK, obj) := by
  simp only [EndIdlePeriod_method, Method_call_bind, Method_call_check,
    CheckOnValidThread_error c hc]

theorem StartIdlePeriod_method_abort (cfg : Config) (c : Caller) (ns : IdlePeriodState)
    (now deadline : TimeTicks) (tr : TraceEnv) (obj : Object) (hc : ¬ c.passes) :
    (StartIdlePeriod_method cfg c ns now deadline tr).call obj = (.error .DCHECK, obj) := by
  rcases DCHECK_cases c (decide (deadline > now)) with h1 | ⟨h1, _, _⟩ <;>
    simp only [StartIdlePeriod_method, Method_call_bind, Method_call_check, h1,
      CheckOnValidThread_error c hc]

theorem EnableLongIdlePeriod_method_abort (cfg : Config) (c : Caller) (env : LongIdleEnv)
    (tr : LongIdleTraceEnv) (obj : Object) (hc : ¬ c.passes) :
    (EnableLongIdlePeriod_method cfg c env tr).call obj =
      (.error .DCHECK,
        { obj with trace := obj.trace ++ [.TRACE_EVENT0 "EnableLongIdlePeriod"] }) := by
  simp only [EnableLongIdlePeriod_method, Method_call_bind, Method_call_check,
    Method_call_trace, CheckOnValidThread_error c hc]

theorem Method_call_ite {α : Type} (p : Prop) [Decidable p] (m1 m2 : Method α)
    (obj : Object) :
    Method.call (if p then m1 else m2) obj = if p then m1.call obj else m2.call obj := by
  split <;> rfl

theorem ComputeNewLongIdlePeriodState_method_abort (cfg : Config) (c : Caller)
    (env : LongIdleEnv) (now : TimeTicks) (d0 : TimeDelta) (obj : Object) (hc : ¬ c.passes) :
    (ComputeNewLongIdlePeriodState_method cfg c env now d0).call obj =
      (.error .DCHECK, obj) := by
  simp only [ComputeNewLongIdlePeriodState_method, Method_call_bind, Method_call_check,
    CheckOnValidThread_error c hc]

theorem ShouldWaitForQuiescence_method_abort (cfg : Config) (c : Caller) (env : LongIdleEnv)
    (obj : Object) (hc : ¬ c.passes) :
    (ShouldWaitForQuiescence_method cfg c env).call obj = (.error .DCHECK, obj) := by
  simp only [ShouldWaitForQuiescence_method, Method_call_bind, Method_call_check,
    CheckOnValidThread_error c hc]

theorem DidProcessTask_method_abort (cfg : Config) (c : Caller) (env : TaskEnv)
    (tr : LongIdleTraceEnv) (obj : Object) (hc : ¬ c.passes) :
    (DidProcessTask_method cfg c env tr).call obj = (.error .DCHECK, obj) := by
  simp only [DidProcessTask_method, Method_call_bind, Method_call_check,
    CheckOnValidThread_error c hc]

theorem UpdateLongIdlePeriodStateAfterIdleTask_method_abort (cfg : Config) (c : Caller)
    (env : IdleTaskEnv) (tr : IdleTaskTraceEnv) (obj : Object) (hc : ¬ c.passes) :
    (UpdateLongIdlePeriodStateAfterIdleTask_method cfg c env tr).call obj =
      (.error .DCHECK, obj) := by
  simp only [UpdateLongIdlePeriodStateAfterIdleTask_method, Method_call_bind,
    Method_call_check, CheckOnValidThread_error c hc]

theorem CurrentIdleTaskDeadline_method_abort (c : Caller) (obj : Object) (hc : ¬ c.passes) :
    (CurrentIdleTaskDeadline_method c).call obj = (.error .DCHECK, obj) := by
  simp only [CurrentIdleTaskDeadline_method, Method_call_bind, Method_call_check,
    CheckOnValidThread_error c hc]

theorem OnIdleTaskPostedOnMainThread_method_abort (c : Caller) (obj : Object)
    (hc : ¬ c.passes) :
    (OnIdleTaskPostedOnMainThread_method c).call obj =
      (.error .DCHECK,
        { obj with trace := obj.trace ++ [.TRACE_EVENT0 "OnIdleTaskPostedOnMainThread"] }) := by
  simp only [OnIdleTaskPostedOnMainThread_method, Method_call_bind, Method_call_trace,
    idle_period_state_method_abort c _ hc]

theorem OnIdleTaskPosted_method_abort (c : Caller) (obj : Object) (hc : ¬ c.passes) :
    (OnIdleTaskPosted_method c true).call obj =
      (.error .DCHECK,
        { obj with trace := obj.trace ++ [.TRACE_EVENT0 "OnIdleTaskPosted"] ++
            [.TRACE_EVENT0 "OnIdleTaskPostedOnMainThread"] }) := by
  simp only [OnIdleTaskPosted_method, Method_call_bind, Method_call_trace, if_true,
    OnIdleTaskPostedOnMainThread_method_abort c _ hc]

theorem OnIdleTaskPosted_method_other_thread (c : Caller) (obj : Object) :
    (OnIdleTaskPosted_method c false).call obj =
      (.ok (),
        { obj with
          helper := PostTask .on_idle_task_posted_closure_ obj.helper
          trace := obj.trace ++ [.TRACE_EVENT0 "OnIdleTaskPosted"] }) := rfl

theorem TraceIdleIdleTaskStart_method_abort (c : Caller) (tr : TraceEnv) (obj : Object)
    (hc : ¬ c.passes) :
    (TraceIdleIdleTaskStart_method c tr).call obj = (.error .DCHECK, obj) := by
  simp only [TraceIdleIdleTaskStart_method, Method_call_bind, Method_call_check,
    CheckOnValidThread_error c hc]

theorem TraceIdleIdleTaskEnd_method_abort (c : Caller) (tr : TraceEnv) (obj : Object)
    (hc : ¬ c.passes) :
    (TraceIdleIdleTaskEnd_method c tr).call obj = (.error .DCHECK, obj) := by
  simp only [TraceIdleIdleTaskEnd_method, Method_call_bind, Method_call_check,
    CheckOnValidThread_error c hc]

theorem WillProcessIdleTask_method_abort (c : Caller) (tr : TraceEnv) (obj : Object)
    (hc : ¬ c.passes) :
    (WillProcessIdleTask_method c tr).call obj = (.error .DCHECK, obj) := by
  simp only [WillProcessIdleTask_method, Method_call_bind, Method_call_check,
    CheckOnValidThread_error c hc]

theorem DidProcessIdleTask_method_abort (cfg : Config) (c : Caller) (env : IdleTaskEnv)
    (tr : IdleTaskTraceEnv) (obj : Object) (hc : ¬ c.passes) :
    (DidProcessIdleTask_method cfg c env tr).call obj = (.error .DCHECK, obj) := by
  simp only [DidProcessIdleTask_method, Method_call_bind, Method_call_check,
    CheckOnValidThread_error c hc]

theorem CanExceedIdleDeadlineIfRequired_method_abort (c : Caller) (obj : Object)
    (hc : ¬ c.passes) :
    (CanExceedIdleDeadlineIfRequired_method c).call obj =
      (.error .DCHECK,
        { obj with
          trace := obj.trace ++ [.TRACE_EVENT0 "CanExceedIdleDeadlineIfRequired"] }) := by
  simp only [CanExceedIdleDeadlineIfRequired_method, Method_call_bind, Method_call_check,
    Method_call_trace, CheckOnValidThread_error c hc]

theorem tracing_only_pure : Method.tracing_only (pure ()) :=
  fun obj => ⟨rfl, rfl, [], (List.append_nil _).symm⟩

theorem tracing_only_trace (e : TraceEvent) : Method.tracing_only (Method.trace e) :=
  fun obj => ⟨rfl, rfl, [e], rfl⟩

theorem tracing_only_modify (f : Object → Object)
    (hf : ∀ obj, (f obj).helper = obj.helper ∧ (f obj).trace = obj.trace) :
    Method.tracing_only (Method.modify f) :=
  fun obj => ⟨rfl, (hf obj).1, [], by rw [List.append_nil]; exact (hf obj).2⟩

theorem tracing_only_bind (m : Method Unit) (f : Unit → Method Unit)
    (hm : Method.tracing_only m) (hf : ∀ u, Method.tracing_only (f u)) :
    Method.tracing_only (m >>= f) := by
  intro obj
  obtain ⟨h1, h2, r1, h3⟩ := hm obj
  rw [Method_call_bind]
  rcases hcall : m.call obj with ⟨res, obj1⟩
  rw [hcall] at h1 h2 h3
  simp only at h1 h2 h3
  subst h1
  obtain ⟨g1, g2, r2, g3⟩ := hf () obj1
  exact ⟨g1, g2.trans h2, r1 ++ r2, by rw [g3, h3, List.append_assoc]⟩

theorem tracing_only_ite (p : Prop) [Decidable p] (m1 m2 : Method Unit)
    (h1 : Method.tracing_only m1) (h2 : Method.tracing_only m2) :
    Method.tracing_only (if p then m1 else m2) := by
  split
  · exact h1
  · exact h2

theorem tracing_only_after_first (e : Object → TraceEvent) (rest : Object → Method Unit)
    (hrest : ∀ obj, Method.tracing_only (rest obj)) (obj : Object) :
    ((Method.get >>= fun o => Method.trace (e o) >>= fun _ => rest o).call obj).1 = .ok () ∧
    ((Method.get >>= fun o => Method.trace (e o) >>= fun _ => rest o).call obj).2.helper =
      obj.helper ∧
    ∃ later, ((Method.get >>= fun o => Method.trace (e o) >>= fun _ => rest o).call obj).2.trace =
      obj.trace ++ e obj :: later := by
  obtain ⟨g1, g2, later, g3⟩ := hrest obj { obj with trace := obj.trace ++ [e obj] }
  refine ⟨g1, g2, later, ?_⟩
  rw [List.append_cons]
  exact g3

theorem TraceEventIdlePeriodStateChange_method_returns (new_state : IdlePeriodState)
    (new_running_idle_task : Bool) (new_deadline now : TimeTicks) (obj : Object) :
    ((TraceEventIdlePeriodStateChange_method new_state new_running_idle_task new_deadline
        now).call obj).1 = .ok () ∧
    ((TraceEventIdlePeriodStateChange_method new_state new_running_idle_task new_deadline
        now).call obj).2.helper = obj.helper ∧
    ∃ later, ((TraceEventIdlePeriodStateChange_method new_state new_running_idle_task
        new_deadline now).call obj).2.trace =
      obj.trace ++ .SetIdlePeriodState (IdlePeriodStateToString obj.helper.idle_period_state_)
        (IdlePeriodStateToString new_state) :: later := by
  unfold TraceEventIdlePeriodStateChange_method
  apply tracing_only_after_first
    (fun o => .SetIdlePeriodState (IdlePeriodStateToString o.helper.idle_period_state_)
      (IdlePeriodStateToString new_state))
  intro o
  repeat' first
    | exact tracing_only_pure
    | exact tracing_only_trace _
    | exact tracing_only_modify _ (fun _ => ⟨rfl, rfl⟩)
    | apply tracing_only_bind
    | apply tracing_only_ite
    | intro _

/-! ## The object and the helper agree -/

theorem Method_erase_pure {α : Type} (a : α) (obj : Object) :
    Method.erase (pure a) obj = .ok (a, obj.helper) := rfl

theorem Method_erase_bind {α β : Type} (m : Method α) (f : α → Method β) (obj : Object) :
    Method.erase (m >>= f) obj =
      match Method.call m obj with
      | (.ok a, obj1) => Method.erase (f a) obj1
      | (.error e, _) => .error e := by
  unfold Method.erase
  rw [Method_call_bind]
  rcases Method.call m obj with ⟨_ | _, _⟩ <;> rfl

theorem Method_erase_ite {α : Type} (p : Prop) [Decidable p] (m1 m2 : Method α)
    (obj : Object) :
    Method.erase (if p then m1 else m2) obj = if p then m1.erase obj else m2.erase obj := by
  split <;> rfl

theorem Method_erase_check (r : Except Fatal Unit) (obj : Object) :
    Method.erase (Method.check r) obj = r.map (fun u => (u, obj.helper)) := by
  cases r <;> rfl

theorem Method_erase_helper (f : Helper → Helper) (obj : Object) :
    Method.erase (Method.helper f) obj = .ok ((), f obj.helper) := rfl

theorem Method_erase_trace (e : TraceEvent) (obj : Object) :
    Method.erase (Method.trace e) obj = .ok ((), obj.helper) := rfl

theorem idle_period_state_method_erase (c : Caller) (obj : Object) :
    (idle_period_state_method c).erase obj =
      (idle_period_state c obj.helper).map (fun s => (s, obj.helper)) := by
  unfold idle_period_state_method idle_period_state
  simp only [Method_erase_bind, Method_call_check, Method_call_get, Method_erase_pure]
  rcases DCHECK_cases c c.on_valid_thread with h1 | ⟨h1, _, _⟩ <;>
    simp [CheckOnValidThread, h1, bind, Except.bind, pure, Except.pure, Except.map]

theorem UpdateState_method_erase (c : Caller) (ns : IdlePeriodState) (nd t0 : TimeTicks)
    (tr : TraceEnv) (obj : Object) :
    (UpdateState_method c ns nd t0 tr).erase obj =
      (UpdateState c ns nd t0 obj.helper).map (fun h => ((), h)) := by
  unfold UpdateState_method UpdateState
  simp only [Method_erase_bind, Method_call_check, Method_call_get, Method_erase_pure,
    Method_erase_ite, Method_erase_check, Method_call_ite, Method_call_helper,
    Method_erase_helper, Method_call_pure]
  rcases DCHECK_cases c c.on_valid_thread with h1 | ⟨h1, _, _⟩
  · simp only [CheckOnValidThread, h1, bind, Except.bind, pure, Except.pure]
    by_cases hs : ns = obj.helper.idle_period_state_
    · simp only [hs, if_true]
      rcases DCHECK_cases c (nd == obj.helper.idle_period_deadline_) with h2 | ⟨h2, _, _⟩ <;>
        simp [h2, Except.map]
    · simp only [hs, if_false]
      obtain ⟨g1, g2, _⟩ := TraceEventIdlePeriodStateChange_method_returns ns
        obj.running_idle_task_for_tracing_ obj.helper.idle_period_deadline_
        (if t0 = 0 then tr.Now else t0) obj
      rcases hcall : (TraceEventIdlePeriodStateChange_method ns
        obj.running_idle_task_for_tracing_ obj.helper.idle_period_deadline_
        (if t0 = 0 then tr.Now else t0)).call obj with ⟨r, o1⟩
      rw [hcall] at g1 g2
      simp only at g1 g2
      subst g1
      cases htr : tr.is_tracing <;>
        simp only [hcall, g2, Except.map, if_true, if_false, Bool.false_eq_true] <;>
        split_ifs <;> rfl
  · simp [CheckOnValidThread, h1, bind, Except.bind, Except.map]

theorem Method_erase_of_call {α : Type} (m : Method α) (obj obj1 : Object)
    (r : Except Fatal α) (h : m.call obj = (r, obj1)) :
    m.erase obj = r.map (fun a => (a, obj1.helper)) := by
  unfold Method.erase
  rw [h]
  cases r <;> rfl

theorem agree_cases (m : Method Unit) (x : Except Fatal Helper) (obj : Object)
    (h : m.erase obj = x.map (fun h => ((), h))) :
    (∃ obj1, m.call obj = (.ok (), obj1) ∧ x = .ok obj1.helper) ∨
    (∃ e obj1, m.call obj = (.error e, obj1) ∧ x = .error e) := by
  unfold Method.erase at h
  rcases hcall : m.call obj with ⟨e | _, obj1⟩ <;> rw [hcall] at h <;>
    rcases x with e1 | h1 <;> simp only [Except.map] at h
  · cases e
    cases e1
    exact Or.inr ⟨_, obj1, rfl, rfl⟩
  · cases h
  · cases h
  · injection h with h
    injection h with _ h
    exact Or.inl ⟨obj1, rfl, by rw [h]⟩

theorem agree_pair_cases {α : Type} (m : Method α) (x : Except Fatal (α × Helper))
    (obj : Object) (h : m.erase obj = x) :
    (∃ a obj1, m.call obj = (.ok a, obj1) ∧ x = .ok (a, obj1.helper)) ∨
    (∃ e obj1, m.call obj = (.error e, obj1) ∧ x = .error e) := by
  unfold Method.erase at h
  rcases hcall : m.call obj with ⟨_ | _, obj1⟩ <;> rw [hcall] at h
  · exact Or.inr ⟨_, obj1, rfl, h.symm⟩
  · exact Or.inl ⟨_, obj1, rfl, h.symm⟩

theorem idle_period_state_method_ok (c : Caller) (obj : Object) (hc : c.passes) :
    (idle_period_state_method c).call obj = (.ok obj.helper.idle_period_state_, obj) := by
  simp only [idle_period_state_method, Method_call_bind, Method_call_check, Method_call_get,
    Method_call_pure, CheckOnValidThread_ok c hc]

theorem idle_period_deadline_method_ok (c : Caller) (obj : Object) (hc : c.passes) :
    (idle_period_deadline_method c).call obj = (.ok obj.helper.idle_period_deadline_, obj) := by
  simp only [idle_period_deadline_method, Method_call_bind, Method_call_check,
    Method_call_get, Method_call_pure, CheckOnValidThread_ok c hc]

theorem idle_period_deadline_method_erase (c : Caller) (obj : Object) :
    (idle_period_deadline_method c).erase obj =
      (idle_period_deadline c obj.helper).map (fun d => (d, obj.helper)) := by
  by_cases hc : c.passes
  · rw [Method_erase_of_call _ _ _ _ (idle_period_deadline_method_ok c obj hc),
      idle_period_deadline_ok c _ hc]
  · rw [Method_erase_of_call _ _ _ _ (idle_period_deadline_method_abort c obj hc)]
    simp [idle_period_deadline, CheckOnValidThread_error c hc, bind, Except.bind, Except.map]

theorem EndIdlePeriod_method_erase (c : Caller) (tr : TraceEnv) (obj : Object) :
    (EndIdlePeriod_method c tr).erase obj =
      (EndIdlePeriod c obj.helper).map (fun h => ((), h)) := by
  by_cases hc : c.passes
  · unfold EndIdlePeriod_method EndIdlePeriod
    simp only [Method_erase_bind, Method_call_check, Method_call_trace, Method_call_helper,
      Method_erase_ite, Method_erase_pure, idle_period_state_method_ok c _ hc,
      idle_period_state_ok c _ hc, CheckOnValidThread_ok c hc, UpdateState_method_erase]
    simp only [bind, Except.bind, pure, Except.pure]
    split <;> rfl
  · rw [Method_erase_of_call _ _ _ _ (EndIdlePeriod_method_abort c tr obj hc),
      EndIdlePeriod_error c _ hc]
    rfl

theorem ShouldWaitForQuiescence_method_erase (cfg : Config) (c : Caller) (env : LongIdleEnv)
    (obj : Object) :
    (ShouldWaitForQuiescence_method cfg c env).erase obj =
      ShouldWaitForQuiescence cfg c env obj.helper := by
  by_cases hc : c.passes
  · unfold ShouldWaitForQuiescence_method ShouldWaitForQuiescence
    simp only [Method_erase_bind, Method_call_check, Method_call_trace, Method_call_helper,
      Method_erase_ite, Method_erase_pure, CheckOnValidThread_ok c hc]
    simp only [bind, Except.bind, pure, Except.pure]
  · rw [Method_erase_of_call _ _ _ _ (ShouldWaitForQuiescence_method_abort cfg c env obj hc)]
    simp [ShouldWaitForQuiescence, CheckOnValidThread_error c hc, bind, Except.bind,
      Except.map]

theorem ComputeNewLongIdlePeriodState_method_erase (cfg : Config) (c : Caller)
    (env : LongIdleEnv) (now : TimeTicks) (d0 : TimeDelta) (obj : Object) :
    (ComputeNewLongIdlePeriodState_method cfg c env now d0).erase obj =
      ComputeNewLongIdlePeriodState cfg c env now d0 obj.helper := by
  by_cases hc : c.passes
  · unfold ComputeNewLongIdlePeriodState_method ComputeNewLongIdlePeriodState
    simp only [Method_erase_bind, Method_call_check, Method_call_trace, Method_call_helper,
      Method_erase_ite, Method_erase_pure, CheckOnValidThread_ok c hc]
    simp only [bind, Except.bind, pure, Except.pure]
  · rw [Method_erase_of_call _ _ _ _
      (ComputeNewLongIdlePeriodState_method_abort cfg c env now d0 obj hc)]
    simp [ComputeNewLongIdlePeriodState, CheckOnValidThread_error c hc, bind, Except.bind,
      Except.map]

theorem StartIdlePeriod_method_erase (cfg : Config) (c : Caller) (ns : IdlePeriodState)
    (now deadline : TimeTicks) (tr : TraceEnv) (obj : Object) :
    (StartIdlePeriod_method cfg c ns now deadline tr).erase obj =
      (StartIdlePeriod cfg c ns now deadline obj.helper).map (fun h => ((), h)) := by
  by_cases hc : c.passes
  · unfold StartIdlePeriod_method StartIdlePeriod
    simp only [Method_erase_bind, Method_call_check, Method_call_trace, Method_call_helper,
      Method_erase_ite, Method_erase_pure, Method_erase_trace, CheckOnValidThread_ok c hc,
      UpdateState_method_erase]
    rcases DCHECK_cases c (decide (deadline > now)) with h1 | ⟨h1, _, _⟩
    · rcases DCHECK_cases c (IsInIdlePeriod ns) with h2 | ⟨h2, _, _⟩
      · simp only [h1, h2, bind, Except.bind, pure, Except.pure, Except.map]
        split <;> rfl
      · simp only [h1, h2, bind, Except.bind, pure, Except.pure, Except.map]
    · simp only [h1, bind, Except.bind, pure, Except.pure, Except.map]
  · rw [Method_erase_of_call _ _ _ _
      (StartIdlePeriod_method_abort cfg c ns now deadline tr obj hc),
      StartIdlePeriod_error cfg c ns now deadline _ hc]
    rfl

theorem EnableLongIdlePeriod_method_erase (cfg : Config) (c : Caller) (env : LongIdleEnv)
    (tr : LongIdleTraceEnv) (obj : Object) :
    (EnableLongIdlePeriod_method cfg c env tr).erase obj =
      (EnableLongIdlePeriod cfg c env obj.helper).map (fun h => ((), h)) := by
  by_cases hc : c.passes
  · unfold EnableLongIdlePeriod_method EnableLongIdlePeriod
    simp only [Method_erase_bind, Method_call_check, Method_call_trace, Method_call_helper,
      Method_erase_ite, Method_erase_pure, Method_erase_helper, CheckOnValidThread_ok c hc,
      StartIdlePeriod_method_erase]
    by_cases hsd : env.IsShutdown = true
    · simp only [hsd, if_true, bind, Except.bind, pure, Except.pure]
      rfl
    · simp only [hsd, if_false, bind, Except.bind, pure, Except.pure]
      rcases agree_cases _ _ _ (EndIdlePeriod_method_erase c tr.EndIdlePeriod
          { obj with trace := obj.trace ++ [.TRACE_EVENT0 "EnableLongIdlePeriod"] })
        with ⟨obj1, h1, h1'⟩ | ⟨e, obj1, h1, h1'⟩
      · simp only at h1'
        simp only [h1, h1']
        rcases agree_pair_cases _ _ _ (ShouldWaitForQuiescence_method_erase cfg c env obj1)
          with ⟨w, obj2, h2, h2'⟩ | ⟨e, obj2, h2, h2'⟩
        · simp only [h2, h2']
          cases w
          · simp only [Bool.false_eq_true, if_false]
            rcases agree_pair_cases _ _ _ (ComputeNewLongIdlePeriodState_method_erase cfg c
                env env.NowTicks 0 obj2) with ⟨p, obj3, h3, h3'⟩ | ⟨e, obj3, h3, h3'⟩
            · simp only [h3, h3']
              split <;> rfl
            · simp only [h3, h3']
              rfl
          · simp only [if_true]
            rfl
        · simp only [h2, h2']
          rfl
      · simp only at h1'
        simp only [h1, h1']
        rfl
  · rw [Method_erase_of_call _ _ _ _ (EnableLongIdlePeriod_method_abort cfg c env tr obj hc),
      EnableLongIdlePeriod_error cfg c env _ hc]
    rfl

theorem DidProcessTask_method_erase (cfg : Config) (c : Caller) (env : TaskEnv)
    (tr : LongIdleTraceEnv) (obj : Object) :
    (DidProcessTask_method cfg c env tr).erase obj =
      (DidProcessTask cfg c env obj.helper).map (fun h => ((), h)) := by
  by_cases hc : c.passes
  · unfold DidProcessTask_method DidProcessTask
    simp only [Method_erase_bind, Method_call_check, Method_call_trace, Method_call_helper,
      Method_erase_ite, Method_erase_pure, Method_erase_helper, CheckOnValidThread_ok c hc,
      idle_period_state_method_ok c _ hc, idle_period_deadline_method_ok c _ hc,
      idle_period_state_ok c _ hc, idle_period_deadline_ok c _ hc,
      EnableLongIdlePeriod_method_erase, EndIdlePeriod_method_erase]
    simp only [bind, Except.bind, pure, Except.pure]
    split
    · split
      · rfl
      · rcases DCHECK_cases c
          (IdlePeriodState.IN_SHORT_IDLE_PERIOD == obj.helper.idle_period_state_)
          with h1 | ⟨h1, _, _⟩
        · simp only [h1]
        · simp only [h1]
          rfl
    · rfl
  · rw [Method_erase_of_call _ _ _ _ (DidProcessTask_method_abort cfg c env tr obj hc),
      DidProcessTask_error cfg c env _ hc]
    rfl

theorem UpdateLongIdlePeriodStateAfterIdleTask_method_erase (cfg : Config) (c : Caller)
    (env : IdleTaskEnv) (tr : IdleTaskTraceEnv) (obj : Object) :
    (UpdateLongIdlePeriodStateAfterIdleTask_method cfg c env tr).erase obj =
      (UpdateLongIdlePeriodStateAfterIdleTask cfg c env obj.helper).map
        (fun h => ((), h)) := by
  by_cases hc : c.passes
  · unfold UpdateLongIdlePeriodStateAfterIdleTask_method UpdateLongIdlePeriodStateAfterIdleTask
    simp only [Method_erase_bind, Method_call_check, Method_call_trace, Method_call_helper,
      Method_erase_ite, Method_erase_pure, Method_erase_helper, CheckOnValidThread_ok c hc,
      idle_period_state_method_ok c _ hc, idle_period_deadline_method_ok c _ hc,
      idle_period_state_ok c _ hc, idle_period_deadline_ok c _ hc,
      EnableLongIdlePeriod_method_erase, UpdateState_method_erase]
    rcases DCHECK_cases c (IsInLongIdlePeriod obj.helper.idle_period_state_)
      with h1 | ⟨h1, _, _⟩
    · simp only [h1, bind, Except.bind, pure, Except.pure]
      split_ifs <;> rfl
    · simp only [h1, bind, Except.bind, pure, Except.pure]
      rfl
  · rw [Method_erase_of_call _ _ _ _
      (UpdateLongIdlePeriodStateAfterIdleTask_method_abort cfg c env tr obj hc)]
    simp [UpdateLongIdlePeriodStateAfterIdleTask, CheckOnValidThread_error c hc, bind,
      Except.bind, Except.map]

theorem CurrentIdleTaskDeadline_method_erase (c : Caller) (obj : Object) :
    (CurrentIdleTaskDeadline_method c).erase obj =
      (CurrentIdleTaskDeadline c obj.helper).map (fun d => (d, obj.helper)) := by
  by_cases hc : c.passes
  · unfold CurrentIdleTaskDeadline_method CurrentIdleTaskDeadline
    simp only [Method_erase_bind, Method_call_check, CheckOnValidThread_ok c hc,
      idle_period_deadline_method_erase]
    simp only [bind, Except.bind]
  · rw [Method_erase_of_call _ _ _ _ (CurrentIdleTaskDeadline_method_abort c obj hc)]
    simp [CurrentIdleTaskDeadline, CheckOnValidThread_error c hc, bind, Except.bind,
      Except.map]

theorem OnIdleTaskPostedOnMainThread_method_erase (c : Caller) (obj : Object) :
    (OnIdleTaskPostedOnMainThread_method c).erase obj =
      (OnIdleTaskPostedOnMainThread c obj.helper).map (fun h => ((), h)) := by
  by_cases hc : c.passes
  · unfold OnIdleTaskPostedOnMainThread_method OnIdleTaskPostedOnMainThread
    simp only [Method_erase_bind, Method_call_trace, Method_erase_ite, Method_erase_pure,
      Method_erase_helper, idle_period_state_method_ok c _ hc, idle_period_state_ok c _ hc]
    simp only [bind, Except.bind, pure, Except.pure]
    split <;> rfl
  · rw [Method_erase_of_call _ _ _ _ (OnIdleTaskPostedOnMainThread_method_abort c obj hc),
      OnIdleTaskPostedOnMainThread_error c _ hc]
    rfl

theorem OnIdleTaskPosted_method_erase (c : Caller) (runs_tasks_on_current_thread : Bool)
    (obj : Object) :
    (OnIdleTaskPosted_method c runs_tasks_on_current_thread).erase obj =
      (OnIdleTaskPosted c runs_tasks_on_current_thread obj.helper).map
        (fun h => ((), h)) := by
  unfold OnIdleTaskPosted_method OnIdleTaskPosted
  simp only [Method_erase_bind, Method_call_trace, Method_erase_ite, Method_erase_helper,
    OnIdleTaskPostedOnMainThread_method_erase]
  split <;> rfl

theorem TraceIdleIdleTaskStart_method_ok (c : Caller) (tr : TraceEnv) (obj : Object)
    (hc : c.passes) :
    ∃ obj1, (TraceIdleIdleTaskStart_method c tr).call obj = (.ok (), obj1) ∧
      obj1.helper = obj.helper := by
  unfold TraceIdleIdleTaskStart_method
  simp only [Method_call_bind, Method_call_check, Method_call_ite, Method_call_get,
    Method_call_pure, CheckOnValidThread_ok c hc]
  split
  · obtain ⟨g1, g2, _⟩ := TraceEventIdlePeriodStateChange_method_returns
      obj.helper.idle_period_state_ true obj.helper.idle_period_deadline_ tr.Now obj
    exact ⟨_, Prod.ext g1 rfl, g2⟩
  · exact ⟨obj, rfl, rfl⟩

theorem TraceIdleIdleTaskEnd_method_ok (c : Caller) (tr : TraceEnv) (obj : Object)
    (hc : c.passes) :
    ∃ obj1, (TraceIdleIdleTaskEnd_method c tr).call obj = (.ok (), obj1) ∧
      obj1.helper = obj.helper := by
  unfold TraceIdleIdleTaskEnd_method
  simp only [Method_call_bind, Method_call_check, Method_call_ite, Method_call_get,
    Method_call_pure, CheckOnValidThread_ok c hc]
  split
  · obtain ⟨g1, g2, _⟩ := TraceEventIdlePeriodStateChange_method_returns
      obj.helper.idle_period_state_ false obj.helper.idle_period_deadline_ tr.Now obj
    exact ⟨_, Prod.ext g1 rfl, g2⟩
  · exact ⟨obj, rfl, rfl⟩

theorem WillProcessIdleTask_method_erase (c : Caller) (tr : TraceEnv) (obj : Object) :
    (WillProcessIdleTask_method c tr).erase obj =
      (WillProcessIdleTask c obj.helper).map (fun d => (d, obj.helper)) := by
  by_cases hc : c.passes
  · obtain ⟨obj1, h1, h2⟩ := TraceIdleIdleTaskStart_method_ok c tr obj hc
    unfold WillProcessIdleTask_method WillProcessIdleTask
    simp only [Method_erase_bind, Method_call_check, CheckOnValidThread_ok c hc, h1,
      CurrentIdleTaskDeadline_method_erase, h2]
    simp only [bind, Except.bind]
  · rw [Method_erase_of_call _ _ _ _ (WillProcessIdleTask_method_abort c tr obj hc)]
    simp [WillProcessIdleTask, CheckOnValidThread_error c hc, bind, Except.bind, Except.map]

theorem DidProcessIdleTask_method_erase (cfg : Config) (c : Caller) (env : IdleTaskEnv)
    (tr : IdleTaskTraceEnv) (obj : Object) :
    (DidProcessIdleTask_method cfg c env tr).erase obj =
      (DidProcessIdleTask cfg c env obj.helper).map (fun h => ((), h)) := by
  by_cases hc : c.passes
  · obtain ⟨obj1, h1, h2⟩ := TraceIdleIdleTaskEnd_method_ok c tr.TraceIdleIdleTaskEnd obj hc
    unfold DidProcessIdleTask_method DidProcessIdleTask
    simp only [Method_erase_bind, Method_call_check, CheckOnValidThread_ok c hc, h1,
      Method_erase_ite, Method_erase_pure, idle_period_state_method_ok c _ hc,
      idle_period_state_ok c _ hc, UpdateLongIdlePeriodStateAfterIdleTask_method_erase, h2]
    simp only [bind, Except.bind, pure, Except.pure]
    split <;> rfl
  · rw [Method_erase_of_call _ _ _ _ (DidProcessIdleTask_method_abort cfg c env tr obj hc)]
    simp [DidProcessIdleTask, CheckOnValidThread_error c hc, bind, Except.bind, Except.map]

theorem CanExceedIdleDeadlineIfRequired_method_erase (c : Caller) (obj : Object) :
    (CanExceedIdleDeadlineIfRequired_method c).erase obj =
      (CanExceedIdleDeadlineIfRequired c obj.helper).map (fun b => (b, obj.helper)) := by
  by_cases hc : c.passes
  · unfold CanExceedIdleDeadlineIfRequired_method CanExceedIdleDeadlineIfRequired
    simp only [Method_erase_bind, Method_call_check, Method_call_trace, Method_erase_pure,
      CheckOnValidThread_ok c hc, idle_period_state_method_ok c _ hc,
      idle_period_state_ok c _ hc]
    rfl
  · rw [Method_erase_of_call _ _ _ _ (CanExceedIdleDeadlineIfRequired_method_abort c obj hc)]
    simp [CanExceedIdleDeadlineIfRequired, CheckOnValidThread_error c hc, bind, Except.bind,
      Except.map]

theorem SchedulerIdlePeriodState_method_erase (c : Caller) (obj : Object) :
    (SchedulerIdlePeriodState_method c).erase obj =
      (SchedulerIdlePeriodState c obj.helper).map (fun s => (s, obj.helper)) :=
  idle_period_state_method_erase c obj

theorem IdleTaskRunner_method_erase (c : Caller) (obj : Object) :
    (IdleTaskRunner_method c).erase obj =
      (IdleTaskRunner c).map (fun u => (u, obj.helper)) :=
  Method_erase_check _ obj

theorem WillProcessTask_method_erase (obj : Object) :
    WillProcessTask_method.erase obj = (WillProcessTask obj.helper).map (fun h => ((), h)) :=
  rfl

/-! ## The claims, continued: thread affinity and what follows -/

/-- Counterexample to C19 as stated: `WillProcessTask` has an empty body; called off the
controller thread with assertions compiled in, where `CheckOnValidThread` aborts, it performs no
check and returns normally. -/
theorem C19_WillProcessTask_counterexample :
    CheckOnValidThread other_thread = .error .DCHECK ∧
    EndIdlePeriod other_thread (helper_in .IN_SHORT_IDLE_PERIOD 10000) = .error .DCHECK ∧
    step scenario_config other_thread .WillProcessTask (helper_in .IN_SHORT_IDLE_PERIOD 10000) =
      .ok (helper_in .IN_SHORT_IDLE_PERIOD 10000) :=
  ⟨rfl, rfl, rfl⟩

/-- Claim C19, amended. With the assertion compiled in, a call off the controller thread of any
of the methods listed first aborts, and the object at the abort is the object at the call: idle
period state, deadline, queue enabled flag, fences, posted tasks, delegate calls and tracing
members are all as they were. `EnableLongIdlePeriod`, `OnIdleTaskPostedOnMainThread`,
`OnIdleTaskPosted` on the idle task runner's thread and `CanExceedIdleDeadlineIfRequired` abort
in the same way after executing their `TRACE_EVENT0`, which is all that differs at the abort.
No check is made by `OnIdleTaskPosted` off the idle task runner's thread, which only posts its
notification, by `WillProcessTask`, whose body is empty, and by
`State::TraceEventIdlePeriodStateChange`, which returns for every caller, reads the idle
period state for its first tracing macro and leaves what `Helper` records unchanged; it is run
only by `UpdateState`, `TraceIdleIdleTaskStart` and `TraceIdleIdleTaskEnd`, after their
check. -/
theorem C19_thread_check_amended (cfg : Config) (c : Caller) (obj : Object)
    (hon : c.dcheck_is_on = true) (hthread : c.on_valid_thread = false) :
    ((IdleTaskRunner_method c).call obj = (.error .DCHECK, obj) ∧
     (∀ env now d0,
       (ComputeNewLongIdlePeriodState_method cfg c env now d0).call obj =
         (.error .DCHECK, obj)) ∧
     (∀ env, (ShouldWaitForQuiescence_method cfg c env).call obj = (.error .DCHECK, obj)) ∧
     (∀ new_state now deadline tr,
       (StartIdlePeriod_method cfg c new_state now deadline tr).call obj =
         (.error .DCHECK, obj)) ∧
     (∀ tr, (EndIdlePeriod_method c tr).call obj = (.error .DCHECK, obj)) ∧
     (∀ env tr, (DidProcessTask_method cfg c env tr).call obj = (.error .DCHECK, obj)) ∧
     (∀ env tr,
       (UpdateLongIdlePeriodStateAfterIdleTask_method cfg c env tr).call obj =
         (.error .DCHECK, obj)) ∧
     (CurrentIdleTaskDeadline_method c).call obj = (.error .DCHECK, obj) ∧
     (∀ tr, (WillProcessIdleTask_method c tr).call obj = (.error .DCHECK, obj)) ∧
     (∀ env tr, (DidProcessIdleTask_method cfg c env tr).call obj = (.error .DCHECK, obj)) ∧
     (SchedulerIdlePeriodState_method c).call obj = (.error .DCHECK, obj) ∧
     (idle_period_state_method c).call obj = (.error .DCHECK, obj) ∧
     (idle_period_deadline_method c).call obj = (.error .DCHECK, obj) ∧
     (∀ new_state new_deadline optional_now tr,
       (UpdateState_method c new_state new_deadline optional_now tr).call obj =
         (.error .DCHECK, obj)) ∧
     (∀ tr, (TraceIdleIdleTaskStart_method c tr).call obj = (.error .DCHECK, obj)) ∧
     (∀ tr, (TraceIdleIdleTaskEnd_method c tr).call obj = (.error .DCHECK, obj))) ∧
    ((∀ env tr, (EnableLongIdlePeriod_method cfg c env tr).call obj =
       (.error .DCHECK,
         { obj with trace := obj.trace ++ [.TRACE_EVENT0 "EnableLongIdlePeriod"] })) ∧
     (OnIdleTaskPostedOnMainThread_method c).call obj =
       (.error .DCHECK,
         { obj with trace := obj.trace ++ [.TRACE_EVENT0 "OnIdleTaskPostedOnMainThread"] }) ∧
     (OnIdleTaskPosted_method c true).call obj =
       (.error .DCHECK,
         { obj with trace := obj.trace ++ [.TRACE_EVENT0 "OnIdleTaskPosted"] ++
             [.TRACE_EVENT0 "OnIdleTaskPostedOnMainThread"] }) ∧
     (CanExceedIdleDeadlineIfRequired_method c).call obj =
       (.error .DCHECK,
         { obj with
           trace := obj.trace ++ [.TRACE_EVENT0 "CanExceedIdleDeadlineIfRequired"] })) ∧
    ((OnIdleTaskPosted_method c false).call obj =
       (.ok (),
         { obj with
           helper := PostTask .on_idle_task_posted_closure_ obj.helper
           trace := obj.trace ++ [.TRACE_EVENT0 "OnIdleTaskPosted"] }) ∧
     WillProcessTask_method.call obj = (.ok (), obj) ∧
     (∀ new_state new_running_idle_task new_deadline now,
       ((TraceEventIdlePeriodStateChange_method new_state new_running_idle_task new_deadline
           now).call obj).1 = .ok () ∧
       ((TraceEventIdlePeriodStateChange_method new_state new_running_idle_task new_deadline
           now).call obj).2.helper = obj.helper ∧
       ∃ later,
         ((TraceEventIdlePeriodStateChange_method new_state new_running_idle_task new_deadline
             now).call obj).2.trace =
           obj.trace ++
             .SetIdlePeriodState (IdlePeriodStateToString obj.helper.idle_period_state_)
               (IdlePeriodStateToString new_state) :: later)) := by
  have hc : ¬ c.passes := not_passes_of_off_thread c hon hthread
  refine ⟨⟨CheckOnValidThread_error c hc ▸ rfl,
      fun env now d0 => ComputeNewLongIdlePeriodState_method_abort cfg c env now d0 obj hc,
      fun env => ShouldWaitForQuiescence_method_abort cfg c env obj hc,
      fun ns now d tr => StartIdlePeriod_method_abort cfg c ns now d tr obj hc,
      fun tr => EndIdlePeriod_method_abort c tr obj hc,
      fun env tr => DidProcessTask_method_abort cfg c env tr obj hc,
      fun env tr => UpdateLongIdlePeriodStateAfterIdleTask_method_abort cfg c env tr obj hc,
      CurrentIdleTaskDeadline_method_abort c obj hc,
      fun tr => WillProcessIdleTask_method_abort c tr obj hc,
      fun env tr => DidProcessIdleTask_method_abort cfg c env tr obj hc,
      idle_period_state_method_abort c obj hc,
      idle_period_state_method_abort c obj hc,
      idle_period_deadline_method_abort c obj hc,
      fun ns nd t0 tr => UpdateState_method_abort c ns nd t0 tr obj hc,
      fun tr => TraceIdleIdleTaskStart_method_abort c tr obj hc,
      fun tr => TraceIdleIdleTaskEnd_method_abort c tr obj hc⟩,
    ⟨fun env tr => EnableLongIdlePeriod_method_abort cfg c env tr obj hc,
      OnIdleTaskPostedOnMainThread_method_abort c obj hc,
      OnIdleTaskPosted_method_abort c obj hc,
      CanExceedIdleDeadlineIfRequired_method_abort c obj hc⟩,
    ⟨OnIdleTaskPosted_method_other_thread c obj, rfl,
      fun ns r nd now => TraceEventIdlePeriodStateChange_method_returns ns r nd now obj⟩⟩

/-- Witness of C19, amended: during an active short idle period with a re-enable task pending,
`EndIdlePeriod` and `EnableLongIdlePeriod` called off the controller thread abort and leave
the state, the deadline, the enabled queue and the pending task in place, whereas the same
`EndIdlePeriod` on the controller thread cancels the task and ends the idle period. -/
theorem C19_thread_check_amended_witness :
    other_thread.dcheck_is_on = true ∧ other_thread.on_valid_thread = false ∧
    (EndIdlePeriod_method other_thread (tracing_on 5000)).call short_period_object =
      (.error .DCHECK, short_period_object) ∧
    (EnableLongIdlePeriod_method scenario_config other_thread (scenario_env 5000 none true)
        ⟨tracing_on 5000, tracing_on 5000⟩).call short_period_object =
      (.error .DCHECK,
        { short_period_object with trace := [.TRACE_EVENT0 "EnableLongIdlePeriod"] }) ∧
    short_period_object.helper.posted = [⟨.enable_next_long_idle_period_closure_, 7000⟩] ∧
    ((EndIdlePeriod_method controller_thread (tracing_on 5000)).call
        short_period_object).1 = .ok () ∧
    ((EndIdlePeriod_method controller_thread (tracing_on 5000)).call
        short_period_object).2.helper =
      { idle_period_state_ := .NOT_IN_IDLE_PERIOD
        idle_period_deadline_ := 0
        idle_queue_enabled := false
        fences_inserted := 1
        posted := []
        calls := [.OnIdlePeriodStarted, .OnIdlePeriodEnded] } := by
  have hall := C19_thread_check_amended scenario_config other_thread short_period_object
    rfl rfl
  exact ⟨rfl, rfl, hall.1.2.2.2.2.1 (tracing_on 5000),
    hall.2.1.1 (scenario_env 5000 none true) ⟨tracing_on 5000, tracing_on 5000⟩,
    rfl, rfl, rfl⟩

/-- Claim C20. For every `now`, if the delegate's `CanEnterLongIdlePeriod` refuses,
`ComputeNewLongIdlePeriodState` returns `NOT_IN_IDLE_PERIOD` and reports exactly the delay the
delegate supplied (the value already in the out-parameter if the delegate wrote none), whatever
the next scheduled run time and the idle queue would answer; `EnableLongIdlePeriod`, not shut
down and not waiting for quiescence, then leaves exactly one posted task, of the re-enable
closure, delayed by exactly that delay (zero if the delegate wrote none). -/
theorem C20_delegate_refusal (cfg : Config) (c : Caller) (env : LongIdleEnv)
    (now : TimeTicks) (supplied : Option TimeDelta) (hc : c.passes)
    (hrefuse : env.CanEnterLongIdlePeriod now = (false, supplied)) :
    (∀ (d0 : TimeDelta) (h : Helper) (next : Option TimeTicks) (work : Bool),
      ComputeNewLongIdlePeriodState cfg c
          { env with NextScheduledRunTime := next, HasPendingImmediateWork := work } now d0 h =
        .ok ((.NOT_IN_IDLE_PERIOD, supplied.getD d0),
             { h with calls := h.calls ++ [.CanEnterLongIdlePeriod now] })) ∧
    (∀ h : Helper, env.NowTicks = now → env.IsShutdown = false →
      (env.IsShutdown_quiescence = true ∨
        cfg.required_quiescence_duration_before_long_idle_period_ = 0 ∨
        env.system_is_quiescent = true) →
      ∃ h', EnableLongIdlePeriod cfg c env h = .ok h' ∧
        h'.idle_period_state_ = .NOT_IN_IDLE_PERIOD ∧
        h'.posted = [⟨.enable_next_long_idle_period_closure_, supplied.getD 0⟩]) := by
  constructor
  · intro d0 h next work
    rw [ComputeNewLongIdlePeriodState_ok cfg c _ now d0 h hc]
    have h1 : (({ env with NextScheduledRunTime := next, HasPendingImmediateWork := work } :
        LongIdleEnv).CanEnterLongIdlePeriod now) = (false, supplied) := hrefuse
    rw [h1]
    simp
  · intro h hnow hsd hnowait
    subst hnow
    obtain ⟨h2, heq, hs2, _, _, _, hp2, _⟩ :=
      EnableLongIdlePeriod_no_wait cfg c env h hc hsd hnowait
    have hcan : (env.CanEnterLongIdlePeriod env.NowTicks).1 = false := by rw [hrefuse]
    rw [if_neg (fun hand => by rw [hcan] at hand; exact Bool.false_ne_true hand.1)] at heq
    refine ⟨_, heq, hs2, ?_⟩
    simp [hp2, hrefuse]

/-- Witness of C20: a delegate refusing with a delay of 7ms. -/
theorem C20_delegate_refusal_witness :
    controller_thread.passes ∧
    ComputeNewLongIdlePeriodState scenario_config controller_thread
        (refusing_env 0 (some 7000)) 0 0 construct =
      .ok ((.NOT_IN_IDLE_PERIOD, 7000),
           { construct with calls := [.CanEnterLongIdlePeriod 0] }) ∧
    ∃ h', EnableLongIdlePeriod scenario_config controller_thread (refusing_env 0 (some 7000))
        construct = .ok h' ∧
      h'.idle_period_state_ = .NOT_IN_IDLE_PERIOD ∧
      h'.posted = [⟨.enable_next_long_idle_period_closure_, 7000⟩] := by
  have hc : controller_thread.passes := fun _ => rfl
  have hall := C20_delegate_refusal scenario_config controller_thread
    (refusing_env 0 (some 7000)) 0 (some 7000) hc rfl
  exact ⟨hc, hall.1 0 construct none true, hall.2 construct rfl rfl (Or.inr (Or.inl rfl))⟩

/-! ## The claims, concluded -/

/-- Claim C21. When the delegate permits entry and the candidate duration is at least the
minimum viable duration, `ComputeNewLongIdlePeriodState` reports the candidate duration as its
delay and returns `IN_LONG_IDLE_PERIOD_PAUSED` if the idle queue has no pending immediate work
(whatever the duration), otherwise `IN_LONG_IDLE_PERIOD_WITH_MAX_DEADLINE` if the candidate
duration equals the maximum, otherwise `IN_LONG_IDLE_PERIOD`. -/
theorem C21_long_idle_state_selection (cfg : Config) (c : Caller) (env : LongIdleEnv)
    (now : TimeTicks) (d0 : TimeDelta) (h : Helper) (hc : c.passes)
    (hcan : (env.CanEnterLongIdlePeriod now).1 = true)
    (hdur : long_idle_period_duration cfg env now ≥
      FromMilliseconds cfg.kMinimumIdlePeriodDurationMillis) :
    ∃ st, ComputeNewLongIdlePeriodState cfg c env now d0 h =
        .ok ((st, long_idle_period_duration cfg env now),
             { h with calls := h.calls ++ [.CanEnterLongIdlePeriod now] }) ∧
      (env.HasPendingImmediateWork = false → st = .IN_LONG_IDLE_PERIOD_PAUSED) ∧
      (env.HasPendingImmediateWork = true →
        long_idle_period_duration cfg env now = FromMilliseconds cfg.kMaximumIdlePeriodMillis →
        st = .IN_LONG_IDLE_PERIOD_WITH_MAX_DEADLINE) ∧
      (env.HasPendingImmediateWork = true →
        long_idle_period_duration cfg env now ≠ FromMilliseconds cfg.kMaximumIdlePeriodMillis →
        st = .IN_LONG_IDLE_PERIOD) := by
  have hcan' : ¬ (env.CanEnterLongIdlePeriod now).1 = false := by simp [hcan]
  refine ⟨(if env.HasPendingImmediateWork = false then .IN_LONG_IDLE_PERIOD_PAUSED
    else if long_idle_period_duration cfg env now =
        FromMilliseconds cfg.kMaximumIdlePeriodMillis then
      .IN_LONG_IDLE_PERIOD_WITH_MAX_DEADLINE
    else .IN_LONG_IDLE_PERIOD), ?_, ?_, ?_, ?_⟩
  · rw [ComputeNewLongIdlePeriodState_ok cfg c env now d0 h hc, if_neg hcan', if_pos hdur]
  · intro hw
    rw [if_pos hw]
  · intro hw hm
    rw [if_neg (by simp [hw]), if_pos hm]
  · intro hw hm
    rw [if_neg (by simp [hw]), if_neg hm]

/-- Witness of C21 (scenario D): with a task scheduled at 10ms and an idle queue without
pending immediate work the result is `IN_LONG_IDLE_PERIOD_PAUSED` with delay 10ms. -/
theorem C21_long_idle_state_selection_witness :
    controller_thread.passes ∧
    ∃ st, ComputeNewLongIdlePeriodState scenario_config controller_thread
        (scenario_env 0 (some 10000) false) 0 0 construct =
        .ok ((st, 10000), { construct with calls := [.CanEnterLongIdlePeriod 0] }) ∧
      st = .IN_LONG_IDLE_PERIOD_PAUSED := by
  have hc : controller_thread.passes := fun _ => rfl
  obtain ⟨st, heq, hp, _⟩ := C21_long_idle_state_selection scenario_config controller_thread
    (scenario_env 0 (some 10000) false) 0 0 construct hc rfl (by decide)
  exact ⟨hc, st, heq, hp rfl⟩

/-- Counterexample to C22 as stated: with a task scheduled at 10ms and an idle queue without
pending immediate work, `EnableLongIdlePeriod` at `t = 0` computes
`IN_LONG_IDLE_PERIOD_PAUSED`, records the deadline 10ms, and leaves the idle queue enabled,
not disabled. -/
theorem C22_paused_queue_counterexample :
    EnableLongIdlePeriod scenario_config controller_thread (scenario_env 0 (some 10000) false)
        construct =
      .ok { idle_period_state_ := .IN_LONG_IDLE_PERIOD_PAUSED
            idle_period_deadline_ := 10000
            idle_queue_enabled := true
            fences_inserted := 1
            posted := []
            calls := [.CanEnterLongIdlePeriod 0, .OnIdlePeriodStarted] } ∧
    ¬ ∃ h', EnableLongIdlePeriod scenario_config controller_thread
        (scenario_env 0 (some 10000) false) construct = .ok h' ∧
      h'.idle_queue_enabled = false := by
  have heq : EnableLongIdlePeriod scenario_config controller_thread
      (scenario_env 0 (some 10000) false) construct =
      .ok { idle_period_state_ := .IN_LONG_IDLE_PERIOD_PAUSED
            idle_period_deadline_ := 10000
            idle_queue_enabled := true
            fences_inserted := 1
            posted := []
            calls := [.CanEnterLongIdlePeriod 0, .OnIdlePeriodStarted] } := rfl
  refine ⟨heq, ?_⟩
  rintro ⟨h', hok, hq⟩
  rw [heq] at hok
  cases hok
  cases hq

/-- Claim C22, amended. When `EnableLongIdlePeriod` (not shut down, not waiting for
quiescence, candidate duration positive) computes `IN_LONG_IDLE_PERIOD_PAUSED` because the idle
queue has no pending immediate work, the state becomes `IN_LONG_IDLE_PERIOD_PAUSED`, the
deadline `now + candidate duration` is recorded, and `StartIdlePeriod` enables the idle queue
and inserts a fence as for every idle state; nothing is posted. -/
theorem C22_paused_queue_amended (cfg : Config) (c : Caller) (env : LongIdleEnv) (h : Helper)
    (hc : c.passes) (hsd : env.IsShutdown = false)
    (hnowait : env.IsShutdown_quiescence = true ∨
      cfg.required_quiescence_duration_before_long_idle_period_ = 0 ∨
      env.system_is_quiescent = true)
    (hcan : (env.CanEnterLongIdlePeriod env.NowTicks).1 = true)
    (hdur : long_idle_period_duration cfg env env.NowTicks ≥
      FromMilliseconds cfg.kMinimumIdlePeriodDurationMillis)
    (hpos : long_idle_period_duration cfg env env.NowTicks > 0 ∨ c.dcheck_is_on = false)
    (hwork : env.HasPendingImmediateWork = false) :
    ∃ h', EnableLongIdlePeriod cfg c env h = .ok h' ∧
      h'.idle_period_state_ = .IN_LONG_IDLE_PERIOD_PAUSED ∧
      h'.idle_period_deadline_ =
        env.NowTicks + long_idle_period_duration cfg env env.NowTicks ∧
      h'.idle_queue_enabled = true ∧
      h'.fences_inserted = h.fences_inserted + 1 ∧
      h'.posted = [] := by
  obtain ⟨h', hok⟩ := EnableLongIdlePeriod_returns cfg c env h hc
    (by rcases hpos with hp | hp
        · exact Or.inl hp
        · exact Or.inr (Or.inl hp))
  obtain ⟨_, h1, hend, hcase⟩ := EnableLongIdlePeriod_of_ok cfg c env h h' hok hsd
  obtain ⟨_, _, hp1, hf1, _⟩ := EndIdlePeriod_summary c h h1 hend
  refine ⟨h', hok, ?_⟩
  rcases hcase with ⟨⟨hq1, hq2, hq3⟩, _⟩ | ⟨_, _, _, he⟩ | ⟨_, hns, _⟩
  · rcases hnowait with hq | hq | hq
    · rw [hq] at hq1; cases hq1
    · exact absurd hq hq2
    · rw [hq] at hq3; cases hq3
  · rw [he]
    simp [hwork, hp1, hf1]
  · exact absurd ⟨hcan, hdur⟩ hns

/-- Witness of C22, amended: scenario A with an empty idle queue. -/
theorem C22_paused_queue_amended_witness :
    controller_thread.passes ∧
    ∃ h', EnableLongIdlePeriod scenario_config controller_thread (scenario_env 0 none false)
        construct = .ok h' ∧
      h'.idle_period_state_ = .IN_LONG_IDLE_PERIOD_PAUSED ∧
      h'.idle_period_deadline_ =
        (scenario_env 0 none false).NowTicks +
          long_idle_period_duration scenario_config (scenario_env 0 none false)
            (scenario_env 0 none false).NowTicks ∧
      h'.idle_queue_enabled = true ∧
      h'.fences_inserted = construct.fences_inserted + 1 ∧
      h'.posted = [] :=
  ⟨fun _ => rfl,
    C22_paused_queue_amended scenario_config controller_thread (scenario_env 0 none false)
      construct (fun _ => rfl) rfl (Or.inr (Or.inl rfl)) rfl (by decide) (Or.inl (by decide))
      rfl⟩

theorem DidProcessIdleTask_long (cfg : Config) (c : Caller) (env : IdleTaskEnv) (h : Helper)
    (hc : c.passes) (hlong : IsInLongIdlePeriod h.idle_period_state_ = true) :
    DidProcessIdleTask cfg c env h = UpdateLongIdlePeriodStateAfterIdleTask cfg c env h := by
  unfold DidProcessIdleTask
  simp only [CheckOnValidThread_ok c hc, idle_period_state_ok c h hc, bind, Except.bind,
    hlong, if_true]

/-- Claim C23. For every long idle state, if the idle queue has no pending immediate work when
an idle task completes, `DidProcessIdleTask` (on the controller thread) leaves the state
`IN_LONG_IDLE_PERIOD_PAUSED` and changes nothing else: the deadline is unchanged, nothing is
posted and the delegate is not called; so a resumed long idle period whose work is exhausted
again returns to paused. -/
theorem C23_pauses_when_out_of_work (cfg : Config) (c : Caller) (env : IdleTaskEnv)
    (h : Helper) (hc : c.passes)
    (hlong : IsInLongIdlePeriod h.idle_period_state_ = true)
    (hwork : env.HasPendingImmediateWork = false) :
    DidProcessIdleTask cfg c env h =
      .ok { h with idle_period_state_ := .IN_LONG_IDLE_PERIOD_PAUSED } := by
  rw [DidProcessIdleTask_long cfg c env h hc hlong,
    UpdateLongIdlePeriodStateAfterIdleTask_cases cfg c env h hc hlong, if_pos hwork]
  have hne : h.idle_period_state_ ≠ .NOT_IN_IDLE_PERIOD :=
    (IsInIdlePeriod_iff _).1 (IsInIdlePeriod_of_long _ hlong)
  by_cases hp : IdlePeriodState.IN_LONG_IDLE_PERIOD_PAUSED = h.idle_period_state_
  · rw [UpdateState_same c _ _ _ h hc hp (Or.inl rfl)]
    rcases h with ⟨s, d, q, f, p, cl⟩
    simp only at hp
    subst hp
    rfl
  · rw [UpdateState_changed c _ _ _ h hc hp]
    simp [hne]

/-- Witness of C23: a paused long idle period is resumed by a posted idle task and, when the
idle task that ran finds the queue empty again, returns to paused with the deadline it had. -/
theorem C23_pauses_when_out_of_work_witness :
    controller_thread.passes ∧
    ∃ h, run scenario_config sample_calls_resumed construct = .ok h ∧
      h.idle_period_state_ = .IN_LONG_IDLE_PERIOD_WITH_MAX_DEADLINE ∧
      h.idle_period_deadline_ = 51000 ∧
      DidProcessIdleTask scenario_config controller_thread
          ⟨false, false, 2000, scenario_env 2000 none true⟩ h =
        .ok { h with idle_period_state_ := .IN_LONG_IDLE_PERIOD_PAUSED } :=
  ⟨fun _ => rfl, _, rfl, rfl, rfl,
    C23_pauses_when_out_of_work scenario_config controller_thread
      ⟨false, false, 2000, scenario_env 2000 none true⟩ _ (fun _ => rfl) rfl rfl⟩

/-- Claim C24. In a long idle state with pending immediate idle work that is blocked by the
fence, `UpdateLongIdlePeriodStateAfterIdleTask` re-arms as follows: in
`IN_LONG_IDLE_PERIOD_WITH_MAX_DEADLINE` it runs `EnableLongIdlePeriod` immediately; otherwise,
with `delay = max(0, deadline - now)`, it runs `EnableLongIdlePeriod` immediately when `delay`
is 0, and else posts exactly one re-enable task after `delay` and leaves state, deadline, queue
and everything else unchanged. -/
theorem C24_rearm_when_blocked_by_fence (cfg : Config) (c : Caller) (env : IdleTaskEnv)
    (h : Helper) (hc : c.passes)
    (hlong : IsInLongIdlePeriod h.idle_period_state_ = true)
    (hwork : env.HasPendingImmediateWork = true) (hblocked : env.BlockedByFence = true) :
    (h.idle_period_state_ = .IN_LONG_IDLE_PERIOD_WITH_MAX_DEADLINE →
      UpdateLongIdlePeriodStateAfterIdleTask cfg c env h =
        EnableLongIdlePeriod cfg c env.enable h) ∧
    (h.idle_period_state_ ≠ .IN_LONG_IDLE_PERIOD_WITH_MAX_DEADLINE →
      max 0 (h.idle_period_deadline_ - env.NowTicks) = 0 →
      UpdateLongIdlePeriodStateAfterIdleTask cfg c env h =
        EnableLongIdlePeriod cfg c env.enable h) ∧
    (h.idle_period_state_ ≠ .IN_LONG_IDLE_PERIOD_WITH_MAX_DEADLINE →
      max 0 (h.idle_period_deadline_ - env.NowTicks) ≠ 0 →
      UpdateLongIdlePeriodStateAfterIdleTask cfg c env h =
        .ok { h with posted := h.posted ++ [⟨.enable_next_long_idle_period_closure_,
          max 0 (h.idle_period_deadline_ - env.NowTicks)⟩] }) := by
  rw [UpdateLongIdlePeriodStateAfterIdleTask_cases cfg c env h hc hlong,
    if_neg (by simp [hwork]), if_pos hblocked]
  refine ⟨?_, ?_, ?_⟩
  · intro hm
    rw [if_pos (Or.inl hm)]
  · intro _ hz
    have hle : h.idle_period_deadline_ - env.NowTicks ≤ 0 := by
      have := le_max_right 0 (h.idle_period_deadline_ - env.NowTicks)
      rw [hz] at this
      exact this
    rw [if_pos (Or.inr hle)]
  · intro hm hz
    have hgt : ¬ h.idle_period_deadline_ - env.NowTicks ≤ 0 := by
      intro hle
      exact hz (max_eq_left hle)
    have hcond : ¬ (h.idle_period_state_ = .IN_LONG_IDLE_PERIOD_WITH_MAX_DEADLINE ∨
        h.idle_period_deadline_ - env.NowTicks ≤ 0) := by
      rintro (h1 | h1)
      · exact hm h1
      · exact hgt h1
    rw [if_neg hcond, max_eq_right (le_of_lt (not_le.1 hgt))]

/-- Witness of C24: 20ms before the deadline of an `IN_LONG_IDLE_PERIOD`, with the remaining
idle work blocked by the fence, one re-enable task is posted with a delay of 20ms. -/
theorem C24_rearm_when_blocked_by_fence_witness :
    controller_thread.passes ∧
    UpdateLongIdlePeriodStateAfterIdleTask scenario_config controller_thread
        ⟨true, true, 30000, scenario_env 30000 none true⟩
        (helper_in .IN_LONG_IDLE_PERIOD 50000) =
      .ok { helper_in .IN_LONG_IDLE_PERIOD 50000 with
            posted := (helper_in .IN_LONG_IDLE_PERIOD 50000).posted ++
              [⟨.enable_next_long_idle_period_closure_, max 0 (50000 - 30000)⟩] } :=
  ⟨fun _ => rfl,
    (C24_rearm_when_blocked_by_fence scenario_config controller_thread
      ⟨true, true, 30000, scenario_env 30000 none true⟩
      (helper_in .IN_LONG_IDLE_PERIOD 50000) (fun _ => rfl) rfl rfl rfl).2.2
      (by decide) (by decide)⟩

/-- Claim C25. In a long idle state where the idle queue has pending immediate work and is not
blocked by the fence, `UpdateLongIdlePeriodStateAfterIdleTask` makes no transition: the state,
deadline, queue enabled flag and posted tasks are unchanged and the delegate is not called,
whatever the clock reads. -/
theorem C25_continues_when_unblocked (cfg : Config) (c : Caller) (env : IdleTaskEnv)
    (h : Helper) (hc : c.passes)
    (hlong : IsInLongIdlePeriod h.idle_period_state_ = true)
    (hwork : env.HasPendingImmediateWork = true) (hblocked : env.BlockedByFence = false) :
    UpdateLongIdlePeriodStateAfterIdleTask cfg c env h = .ok h ∧
    DidProcessIdleTask cfg c env h = .ok h := by
  have hu : UpdateLongIdlePeriodStateAfterIdleTask cfg c env h = .ok h := by
    rw [UpdateLongIdlePeriodStateAfterIdleTask_cases cfg c env h hc hlong,
      if_neg (by simp [hwork]), if_neg (by simp [hblocked])]
  exact ⟨hu, by rw [DidProcessIdleTask_long cfg c env h hc hlong, hu]⟩

/-- Witness of C25: past the deadline, with unblocked idle work remaining, nothing changes. -/
theorem C25_continues_when_unblocked_witness :
    controller_thread.passes ∧
    UpdateLongIdlePeriodStateAfterIdleTask scenario_config controller_thread
        ⟨true, false, 60000, scenario_env 60000 none true⟩
        (helper_in .IN_LONG_IDLE_PERIOD 50000) = .ok (helper_in .IN_LONG_IDLE_PERIOD 50000) :=
  ⟨fun _ => rfl,
    (C25_continues_when_unblocked scenario_config controller_thread
      ⟨true, false, 60000, scenario_env 60000 none true⟩
      (helper_in .IN_LONG_IDLE_PERIOD 50000) (fun _ => rfl) rfl rfl rfl).1⟩

/-- Claim C26. Whenever `EnableLongIdlePeriod` calls `StartIdlePeriod` (that is, it is not shut
down, `ShouldWaitForQuiescence` answered false and `ComputeNewLongIdlePeriodState` returned an
idle state), with a positive minimum viable duration: the deadline passed is strictly after
`now`, the state passed is an idle state, `deadline - now` is at least the minimum viable
duration, the helper is outside idle periods at that point, so the early return is not taken,
and on return the helper's state is the state `ComputeNewLongIdlePeriodState` returned with
deadline `now +` the returned delay. -/
theorem C26_StartIdlePeriod_call_is_safe (cfg : Config) (c : Caller) (env : LongIdleEnv)
    (h h1 h2 h3 : Helper) (st : IdlePeriodState) (d : TimeDelta) (hc : c.passes)
    (hmin : 0 < cfg.kMinimumIdlePeriodDurationMillis) (hsd : env.IsShutdown = false)
    (hend : EndIdlePeriod c h = .ok h1)
    (hwait : ShouldWaitForQuiescence cfg c env h1 = .ok (false, h2))
    (hcomp : ComputeNewLongIdlePeriodState cfg c env env.NowTicks 0 h2 = .ok ((st, d), h3))
    (hidle : IsInIdlePeriod st = true) :
    EnableLongIdlePeriod cfg c env h =
      StartIdlePeriod cfg c st env.NowTicks (env.NowTicks + d) h3 ∧
    env.NowTicks + d > env.NowTicks ∧
    env.NowTicks + d - env.NowTicks ≥ FromMilliseconds cfg.kMinimumIdlePeriodDurationMillis ∧
    h3.idle_period_state_ = .NOT_IN_IDLE_PERIOD ∧
    EnableLongIdlePeriod cfg c env h =
      .ok { h3 with
        idle_period_state_ := st,
        idle_period_deadline_ := env.NowTicks + d,
        idle_queue_enabled := true,
        fences_inserted := h3.fences_inserted + 1,
        calls := h3.calls ++ [.OnIdlePeriodStarted] } := by
  have hne : st ≠ .NOT_IN_IDLE_PERIOD := (IsInIdlePeriod_iff st).1 hidle
  have hstep := EnableLongIdlePeriod_steps cfg c env h h1 h2 h3 false st d hc hsd hend hwait
    hcomp
  rw [if_neg (show ¬ (false = true) by simp), if_pos hidle] at hstep
  obtain ⟨_, hs1, _⟩ := EndIdlePeriod_summary c h h1 hend
  obtain ⟨hs2, _⟩ := ShouldWaitForQuiescence_summary cfg c env h1 h2 false hwait
  obtain ⟨h3eq, hcase⟩ :=
    ComputeNewLongIdlePeriodState_summary cfg c env env.NowTicks 0 d st h2 h3 hcomp
  have hs3 : h3.idle_period_state_ = .NOT_IN_IDLE_PERIOD := by
    rw [h3eq]
    exact hs2.trans hs1
  have hdur : d ≥ FromMilliseconds cfg.kMinimumIdlePeriodDurationMillis := by
    rcases hcase with ⟨_, hn, _⟩ | ⟨_, hge, hd, _⟩ | ⟨_, _, hn, _⟩
    · exact absurd hn hne
    · rw [hd]; exact hge
    · exact absurd hn hne
  have hminpos : FromMilliseconds cfg.kMinimumIdlePeriodDurationMillis > 0 := by
    unfold FromMilliseconds
    positivity
  have hgt : env.NowTicks + d > env.NowTicks := by
    show env.NowTicks < env.NowTicks + d
    linarith
  have hsub : env.NowTicks + d - env.NowTicks = d := by ring
  have hlong : ¬ env.NowTicks + d - env.NowTicks <
      FromMilliseconds cfg.kMinimumIdlePeriodDurationMillis := by
    rw [hsub]; exact not_lt.2 hdur
  refine ⟨hstep, hgt, by rw [hsub]; exact hdur, hs3, ?_⟩
  rw [hstep]
  exact StartIdlePeriod_from_not_idle_exact cfg c st env.NowTicks (env.NowTicks + d) h3 hc
    (Or.inl ⟨hgt, hidle⟩) hne hs3 hlong

/-- Witness of C26 (scenario A on a fresh helper): `StartIdlePeriod` is called with the
max-deadline state, `now = 0` and deadline 50ms. -/
theorem C26_StartIdlePeriod_call_is_safe_witness :
    controller_thread.passes ∧
    EndIdlePeriod controller_thread construct = .ok construct ∧
    ShouldWaitForQuiescence scenario_config controller_thread (scenario_env 0 none true)
        construct = .ok (false, construct) ∧
    ComputeNewLongIdlePeriodState scenario_config controller_thread (scenario_env 0 none true)
        0 0 construct =
      .ok ((.IN_LONG_IDLE_PERIOD_WITH_MAX_DEADLINE, 50000),
           { construct with calls := [.CanEnterLongIdlePeriod 0] }) ∧
    EnableLongIdlePeriod scenario_config controller_thread (scenario_env 0 none true)
        construct =
      .ok { idle_period_state_ := .IN_LONG_IDLE_PERIOD_WITH_MAX_DEADLINE
            idle_period_deadline_ := 50000
            idle_queue_enabled := true
            fences_inserted := 1
            posted := []
            calls := [.CanEnterLongIdlePeriod 0, .OnIdlePeriodStarted] } := by
  have hc : controller_thread.passes := fun _ => rfl
  have hall := C26_StartIdlePeriod_call_is_safe scenario_config controller_thread
    (scenario_env 0 none true) construct construct construct
    { construct with calls := [.CanEnterLongIdlePeriod 0] }
    .IN_LONG_IDLE_PERIOD_WITH_MAX_DEADLINE 50000 hc (by decide) rfl rfl rfl rfl rfl
  exact ⟨hc, rfl, rfl, rfl, hall.2.2.2.2⟩

theorem UpdateState_pause_returns (c : Caller) (t0 : TimeTicks) (h : Helper) (hc : c.passes) :
    ∃ h', UpdateState c .IN_LONG_IDLE_PERIOD_PAUSED h.idle_period_deadline_ t0 h = .ok h' := by
  by_cases hp : IdlePeriodState.IN_LONG_IDLE_PERIOD_PAUSED = h.idle_period_state_
  · exact ⟨h, UpdateState_same c _ _ t0 h hc hp (Or.inl rfl)⟩
  · exact ⟨_, UpdateState_changed c _ _ t0 h hc hp⟩

/-- Claim C27. With assertions compiled in and on the controller thread, for every helper state
and every collaborator behaviour, the assertion of `State::UpdateState` never fails in a call
made from `EndIdlePeriod`, `EnableLongIdlePeriod`, `DidProcessTask` or
`UpdateLongIdlePeriodStateAfterIdleTask`: `EndIdlePeriod` and the pausing `UpdateState` call of
`UpdateLongIdlePeriodStateAfterIdleTask` always return; the other three return whenever the
deadline handed to `StartIdlePeriod` is after `now` (always so when the minimum viable duration
is positive), and `EnableLongIdlePeriod` aborts only when that argument check of
`StartIdlePeriod`, which precedes `UpdateState`, fails. -/
theorem C27_UpdateState_assertion_holds (cfg : Config) (c : Caller) (h : Helper)
    (hon : c.dcheck_is_on = true) (hthread : c.on_valid_thread = true) :
    (∃ h', EndIdlePeriod c h = .ok h') ∧
    (∀ t0, ∃ h', UpdateState c .IN_LONG_IDLE_PERIOD_PAUSED h.idle_period_deadline_ t0 h =
      .ok h') ∧
    (∀ env : LongIdleEnv,
      (long_idle_period_duration cfg env env.NowTicks > 0 ∨
        ¬ ((env.CanEnterLongIdlePeriod env.NowTicks).1 = true ∧
          long_idle_period_duration cfg env env.NowTicks ≥
            FromMilliseconds cfg.kMinimumIdlePeriodDurationMillis)) →
      ∃ h', EnableLongIdlePeriod cfg c env h = .ok h') ∧
    (∀ env : TaskEnv,
      (long_idle_period_duration cfg env.enable env.enable.NowTicks > 0 ∨
        ¬ ((env.enable.CanEnterLongIdlePeriod env.enable.NowTicks).1 = true ∧
          long_idle_period_duration cfg env.enable env.enable.NowTicks ≥
            FromMilliseconds cfg.kMinimumIdlePeriodDurationMillis)) →
      ∃ h', DidProcessTask cfg c env h = .ok h') ∧
    (∀ env : IdleTaskEnv, IsInLongIdlePeriod h.idle_period_state_ = true →
      (long_idle_period_duration cfg env.enable env.enable.NowTicks > 0 ∨
        ¬ ((env.enable.CanEnterLongIdlePeriod env.enable.NowTicks).1 = true ∧
          long_idle_period_duration cfg env.enable env.enable.NowTicks ≥
            FromMilliseconds cfg.kMinimumIdlePeriodDurationMillis)) →
      ∃ h', UpdateLongIdlePeriodStateAfterIdleTask cfg c env h = .ok h') ∧
    (∀ env : LongIdleEnv, EnableLongIdlePeriod cfg c env h = .error .DCHECK →
      env.IsShutdown = false ∧
      ((env.CanEnterLongIdlePeriod env.NowTicks).1 = true ∧
        long_idle_period_duration cfg env env.NowTicks ≥
          FromMilliseconds cfg.kMinimumIdlePeriodDurationMillis) ∧
      long_idle_period_duration cfg env env.NowTicks ≤ 0) ∧
    (0 < cfg.kMinimumIdlePeriodDurationMillis →
      ∀ env : LongIdleEnv, ∃ h', EnableLongIdlePeriod cfg c env h = .ok h') := by
  have hc : c.passes := fun _ => hthread
  have henable : ∀ env : LongIdleEnv,
      (long_idle_period_duration cfg env env.NowTicks > 0 ∨
        ¬ ((env.CanEnterLongIdlePeriod env.NowTicks).1 = true ∧
          long_idle_period_duration cfg env env.NowTicks ≥
            FromMilliseconds cfg.kMinimumIdlePeriodDurationMillis)) →
      ∃ h', EnableLongIdlePeriod cfg c env h = .ok h' := by
    intro env hp
    apply EnableLongIdlePeriod_returns cfg c env h hc
    rcases hp with hp | hp
    · exact Or.inl hp
    · exact Or.inr (Or.inr hp)
  refine ⟨EndIdlePeriod_total c h hc, fun t0 => UpdateState_pause_returns c t0 h hc, henable,
    ?_, ?_, ?_, ?_⟩
  · intro env hp
    rw [DidProcessTask_cases cfg c env h hc]
    split
    · split
      · exact henable env.enable hp
      · exact EndIdlePeriod_total c h hc
    · exact ⟨_, rfl⟩
  · intro env hlong hp
    rw [UpdateLongIdlePeriodStateAfterIdleTask_cases cfg c env h hc hlong]
    split
    · exact UpdateState_pause_returns c 0 h hc
    · split
      · split
        · exact henable env.enable hp
        · exact ⟨_, rfl⟩
      · exact ⟨_, rfl⟩
  · intro env herr
    have hsd : env.IsShutdown = false := by
      cases hs : env.IsShutdown
      · rfl
      · rw [EnableLongIdlePeriod_shutdown cfg c env h hc hs] at herr
        cases herr
    by_cases hstart : (env.CanEnterLongIdlePeriod env.NowTicks).1 = true ∧
        long_idle_period_duration cfg env env.NowTicks ≥
          FromMilliseconds cfg.kMinimumIdlePeriodDurationMillis
    · refine ⟨hsd, hstart, ?_⟩
      by_contra hpos
      obtain ⟨h', hok⟩ := henable env (Or.inl (not_le.1 hpos))
      rw [hok] at herr
      cases herr
    · obtain ⟨h', hok⟩ := henable env (Or.inr hstart)
      rw [hok] at herr
      cases herr
  · intro hmin env
    apply henable env
    by_cases hstart : (env.CanEnterLongIdlePeriod env.NowTicks).1 = true ∧
        long_idle_period_duration cfg env env.NowTicks ≥
          FromMilliseconds cfg.kMinimumIdlePeriodDurationMillis
    · left
      have hminpos : FromMilliseconds cfg.kMinimumIdlePeriodDurationMillis > 0 := by
        unfold FromMilliseconds
        positivity
      have := hstart.2
      show 0 < long_idle_period_duration cfg env env.NowTicks
      linarith
    · exact Or.inr hstart

/-- Witness of C27: an idle task that finds the queue empty while the period is already paused
makes `UpdateState` compare equal states; the deadline passed is the stored one and the call
returns. -/
theorem C27_UpdateState_assertion_holds_witness :
    controller_thread.dcheck_is_on = true ∧ controller_thread.on_valid_thread = true ∧
    UpdateLongIdlePeriodStateAfterIdleTask scenario_config controller_thread
        ⟨false, false, 30000, scenario_env 30000 none true⟩
        (helper_in .IN_LONG_IDLE_PERIOD_PAUSED 50000) =
      .ok (helper_in .IN_LONG_IDLE_PERIOD_PAUSED 50000) ∧
    ∃ h', UpdateLongIdlePeriodStateAfterIdleTask scenario_config controller_thread
        ⟨false, false, 30000, scenario_env 30000 none true⟩
        (helper_in .IN_LONG_IDLE_PERIOD_PAUSED 50000) = .ok h' :=
  ⟨rfl, rfl, rfl,
    (C27_UpdateState_assertion_holds scenario_config controller_thread
      (helper_in .IN_LONG_IDLE_PERIOD_PAUSED 50000) rfl rfl).2.2.2.2.1
      ⟨false, false, 30000, scenario_env 30000 none true⟩ rfl (Or.inl (by decide))⟩

/-- Claim C28. After every call to `EnableLongIdlePeriod` on a helper that is not shut down,
exactly one of the following holds: the state is an idle state and no re-enable task is pending
(nothing at all is posted), or the state is `NOT_IN_IDLE_PERIOD` and exactly one re-enable task
is pending (and nothing else); the resulting state is never `IN_SHORT_IDLE_PERIOD`. -/
theorem C28_idle_or_one_retry (cfg : Config) (c : Caller) (env : LongIdleEnv) (h h' : Helper)
    (hok : EnableLongIdlePeriod cfg c env h = .ok h') (hsd : env.IsShutdown = false) :
    ((IsInIdlePeriod h'.idle_period_state_ = true ∧ h'.posted = [] ∧
        (h'.posted.filter
          (fun t => t.closure == .enable_next_long_idle_period_closure_)).length = 0) ∨
     (h'.idle_period_state_ = .NOT_IN_IDLE_PERIOD ∧
        (∃ d, h'.posted = [⟨.enable_next_long_idle_period_closure_, d⟩]) ∧
        (h'.posted.filter
          (fun t => t.closure == .enable_next_long_idle_period_closure_)).length = 1)) ∧
    ¬ (IsInIdlePeriod h'.idle_period_state_ = true ∧
        h'.idle_period_state_ = .NOT_IN_IDLE_PERIOD) ∧
    h'.idle_period_state_ ≠ .IN_SHORT_IDLE_PERIOD := by
  obtain ⟨_, h1, hend, hcase⟩ := EnableLongIdlePeriod_of_ok cfg c env h h' hok hsd
  obtain ⟨_, hs1, hp1, _⟩ := EndIdlePeriod_summary c h h1 hend
  have hexcl : ¬ (IsInIdlePeriod h'.idle_period_state_ = true ∧
      h'.idle_period_state_ = .NOT_IN_IDLE_PERIOD) := by
    rintro ⟨hi, hn⟩
    exact (IsInIdlePeriod_iff _).1 hi hn
  rcases hcase with ⟨_, he⟩ | ⟨_, _, _, he⟩ | ⟨_, _, he⟩
  · refine ⟨Or.inr ⟨by rw [he]; exact hs1,
      ⟨cfg.required_quiescence_duration_before_long_idle_period_, by rw [he]; simp [hp1]⟩,
      by rw [he]; simp [hp1]⟩, hexcl, by rw [he]; simp [hs1]⟩
  · have hst : (if env.HasPendingImmediateWork = false then
          IdlePeriodState.IN_LONG_IDLE_PERIOD_PAUSED
        else if long_idle_period_duration cfg env env.NowTicks =
            FromMilliseconds cfg.kMaximumIdlePeriodMillis then
          IdlePeriodState.IN_LONG_IDLE_PERIOD_WITH_MAX_DEADLINE
        else IdlePeriodState.IN_LONG_IDLE_PERIOD) ≠ .NOT_IN_IDLE_PERIOD ∧
        (if env.HasPendingImmediateWork = false then
          IdlePeriodState.IN_LONG_IDLE_PERIOD_PAUSED
        else if long_idle_period_duration cfg env env.NowTicks =
            FromMilliseconds cfg.kMaximumIdlePeriodMillis then
          IdlePeriodState.IN_LONG_IDLE_PERIOD_WITH_MAX_DEADLINE
        else IdlePeriodState.IN_LONG_IDLE_PERIOD) ≠ .IN_SHORT_IDLE_PERIOD := by
      split <;> [simp; (split <;> simp)]
    refine ⟨Or.inl ⟨?_, by rw [he]; simp [hp1], by rw [he]; simp [hp1]⟩, hexcl, ?_⟩
    · rw [he]
      exact (IsInIdlePeriod_iff _).2 hst.1
    · rw [he]
      exact hst.2
  · refine ⟨Or.inr ⟨by rw [he]; exact hs1,
      ⟨if (env.CanEnterLongIdlePeriod env.NowTicks).1 = false then
          (env.CanEnterLongIdlePeriod env.NowTicks).2.getD 0
        else FromMilliseconds cfg.kRetryEnableLongIdlePeriodDelayMillis,
        by rw [he]; simp [hp1]⟩,
      by rw [he]; simp [hp1]⟩, hexcl, by rw [he]; simp [hs1]⟩

/-- Witness of C28 (scenario C during a short idle period): the idle period is ended and
exactly one re-enable task is pending. -/
theorem C28_idle_or_one_retry_witness :
    ∃ h', EnableLongIdlePeriod scenario_config controller_thread
        (scenario_env 0 (some 500) true) (helper_in .IN_SHORT_IDLE_PERIOD 10000) = .ok h' ∧
      h'.idle_period_state_ = .NOT_IN_IDLE_PERIOD ∧
      h'.posted = [⟨.enable_next_long_idle_period_closure_, 1000⟩] ∧
      h'.idle_period_state_ ≠ .IN_SHORT_IDLE_PERIOD := by
  have hval : EnableLongIdlePeriod scenario_config controller_thread
      (scenario_env 0 (some 500) true) (helper_in .IN_SHORT_IDLE_PERIOD 10000) =
      .ok { idle_period_state_ := .NOT_IN_IDLE_PERIOD
            idle_period_deadline_ := 0
            idle_queue_enabled := false
            fences_inserted := 1
            posted := [⟨.enable_next_long_idle_period_closure_, 1000⟩]
            calls := [.OnIdlePeriodStarted, .OnIdlePeriodEnded, .CanEnterLongIdlePeriod 0] } :=
    rfl
  exact ⟨_, hval, rfl, rfl,
    (C28_idle_or_one_retry scenario_config controller_thread (scenario_env 0 (some 500) true)
      (helper_in .IN_SHORT_IDLE_PERIOD 10000) _ hval rfl).2.2⟩

/-- Claim C29. When the helper is shut down, `EnableLongIdlePeriod` (on the controller thread)
returns the helper exactly as it was: the idle period state, even that of an active idle
period, the deadline, the queue enabled flag and the posted tasks are unchanged, no delegate
method is called and nothing is scheduled, whatever the other collaborators would answer. -/
theorem C29_shutdown_changes_nothing (cfg : Config) (c : Caller) (env : LongIdleEnv)
    (h : Helper) (hc : c.passes) (hsd : env.IsShutdown = true) :
    EnableLongIdlePeriod cfg c env h = .ok h :=
  EnableLongIdlePeriod_shutdown cfg c env h hc hsd

/-- Witness of C29: a shut-down helper in an active short idle period with an overrun deadline
is left as it is. -/
theorem C29_shutdown_changes_nothing_witness :
    controller_thread.passes ∧
    EnableLongIdlePeriod scenario_config controller_thread
        { scenario_env 60000 none true with IsShutdown := true }
        (helper_in .IN_SHORT_IDLE_PERIOD 10000) = .ok (helper_in .IN_SHORT_IDLE_PERIOD 10000) :=
  ⟨fun _ => rfl,
    C29_shutdown_changes_nothing scenario_config controller_thread
      { scenario_env 60000 none true with IsShutdown := true }
      (helper_in .IN_SHORT_IDLE_PERIOD 10000) (fun _ => rfl) rfl⟩

/-- Claim C30. If the next scheduled non-idle task is due exactly the maximum long-idle
duration after `now`, the delegate permits entry and the idle queue has pending immediate work
(the minimum viable duration being positive and at most the maximum, as the constants of the
code are), `ComputeNewLongIdlePeriodState` returns `IN_LONG_IDLE_PERIOD_WITH_MAX_DEADLINE`, not
`IN_LONG_IDLE_PERIOD`; so after `EnableLongIdlePeriod` (not shut down, not waiting for
quiescence) `CanExceedIdleDeadlineIfRequired` is true although a task is due at the
deadline. -/
theorem C30_task_due_at_maximum (cfg : Config) (c : Caller) (env : LongIdleEnv)
    (now : TimeTicks) (h : Helper) (hc : c.passes)
    (hmin : 0 < cfg.kMinimumIdlePeriodDurationMillis)
    (hle : cfg.kMinimumIdlePeriodDurationMillis ≤ cfg.kMaximumIdlePeriodMillis)
    (hnext : env.NextScheduledRunTime =
      some (now + FromMilliseconds cfg.kMaximumIdlePeriodMillis))
    (hcan : (env.CanEnterLongIdlePeriod now).1 = true)
    (hwork : env.HasPendingImmediateWork = true) :
    (∀ (d0 : TimeDelta) (h0 : Helper),
      ComputeNewLongIdlePeriodState cfg c env now d0 h0 =
        .ok ((.IN_LONG_IDLE_PERIOD_WITH_MAX_DEADLINE,
              FromMilliseconds cfg.kMaximumIdlePeriodMillis),
             { h0 with calls := h0.calls ++ [.CanEnterLongIdlePeriod now] })) ∧
    (env.NowTicks = now → env.IsShutdown = false →
      (env.IsShutdown_quiescence = true ∨
        cfg.required_quiescence_duration_before_long_idle_period_ = 0 ∨
        env.system_is_quiescent = true) →
      ∃ h', EnableLongIdlePeriod cfg c env h = .ok h' ∧
        h'.idle_period_state_ = .IN_LONG_IDLE_PERIOD_WITH_MAX_DEADLINE ∧
        env.NextScheduledRunTime = some h'.idle_period_deadline_ ∧
        CanExceedIdleDeadlineIfRequired c h' = .ok true) := by
  have hdur : long_idle_period_duration cfg env now =
      FromMilliseconds cfg.kMaximumIdlePeriodMillis := by
    unfold long_idle_period_duration
    rw [hnext]
    simp
  have hminmax : long_idle_period_duration cfg env now ≥
      FromMilliseconds cfg.kMinimumIdlePeriodDurationMillis := by
    rw [hdur]
    unfold FromMilliseconds
    show cfg.kMinimumIdlePeriodDurationMillis * 1000 ≤ cfg.kMaximumIdlePeriodMillis * 1000
    linarith
  have hpos : long_idle_period_duration cfg env now > 0 := by
    have hminpos : FromMilliseconds cfg.kMinimumIdlePeriodDurationMillis > 0 := by
      unfold FromMilliseconds
      positivity
    show 0 < long_idle_period_duration cfg env now
    linarith
  constructor
  · intro d0 h0
    rw [ComputeNewLongIdlePeriodState_ok cfg c env now d0 h0 hc,
      if_neg (show ¬ (env.CanEnterLongIdlePeriod now).1 = false by simp [hcan]),
      if_pos hminmax,
      if_neg (show ¬ env.HasPendingImmediateWork = false by simp [hwork]),
      if_pos hdur, hdur]
  · intro hnow hsd hnowait
    subst hnow
    obtain ⟨h', hok⟩ := EnableLongIdlePeriod_returns cfg c env h hc (Or.inl hpos)
    obtain ⟨_, h1, hend, hcase⟩ := EnableLongIdlePeriod_of_ok cfg c env h h' hok hsd
    refine ⟨h', hok, ?_⟩
    rcases hcase with ⟨⟨hq1, hq2, hq3⟩, _⟩ | ⟨_, _, _, he⟩ | ⟨_, hns, _⟩
    · rcases hnowait with hq | hq | hq
      · rw [hq] at hq1; cases hq1
      · exact absurd hq hq2
      · rw [hq] at hq3; cases hq3
    · have hs : h'.idle_period_state_ = .IN_LONG_IDLE_PERIOD_WITH_MAX_DEADLINE := by
        rw [he]
        simp [hwork, hdur]
      have hd : h'.idle_period_deadline_ =
          env.NowTicks + FromMilliseconds cfg.kMaximumIdlePeriodMillis := by
        rw [he]
        simp [hdur]
      refine ⟨hs, by rw [hnext, hd], ?_⟩
      simp [CanExceedIdleDeadlineIfRequired, CheckOnValidThread_ok c hc,
        idle_period_state_ok c h' hc, bind, Except.bind, pure, Except.pure, hs]
    · exact absurd ⟨hcan, hminmax⟩ hns

/-- Witness of C30: maximum 50ms, a task scheduled at 50ms and the clock at 0. -/
theorem C30_task_due_at_maximum_witness :
    controller_thread.passes ∧
    ComputeNewLongIdlePeriodState scenario_config controller_thread
        (scenario_env 0 (some 50000) true) 0 0 construct =
      .ok ((.IN_LONG_IDLE_PERIOD_WITH_MAX_DEADLINE, FromMilliseconds 50),
           { construct with calls := construct.calls ++ [.CanEnterLongIdlePeriod 0] }) ∧
    ∃ h', EnableLongIdlePeriod scenario_config controller_thread
        (scenario_env 0 (some 50000) true) construct = .ok h' ∧
      h'.idle_period_state_ = .IN_LONG_IDLE_PERIOD_WITH_MAX_DEADLINE ∧
      (scenario_env 0 (some 50000) true).NextScheduledRunTime =
        some h'.idle_period_deadline_ ∧
      CanExceedIdleDeadlineIfRequired controller_thread h' = .ok true := by
  have hc : controller_thread.passes := fun _ => rfl
  have hall := C30_task_due_at_maximum scenario_config controller_thread
    (scenario_env 0 (some 50000) true) 0 construct hc (by decide) (by decide) rfl rfl rfl
  exact ⟨hc, hall.1 0 construct, hall.2 rfl rfl (Or.inr (Or.inl rfl))⟩

end IdleHelper
